import Mathlib

/-!
# Sustainability dashboard: ingestion and hydrogen-blend simulation

A shallow embedding of `src/components/CSVUpload.js`,
`src/components/HydrogenSimulation.js`, `src/components/ComplianceStatus.js`,
`src/components/ComplianceReportGenerator.js` and `src/components/Dashboard.js`.

Modelling conventions.

* A JavaScript string is a `List Char` (`JSString`).
* A JavaScript number is a `JSNumber`: `NaN`, an infinity, or a finite value
  carried as the rational it denotes.  The arithmetic operations round their
  exact result to the nearest double, ties to even (`roundToDouble`), and
  overflow to an infinity (`JSNumber.ofRat`).  The sign of zero is not
  modelled.  `parseFloat` rounds the value that the decimal text denotes in the
  same way.
* `HydrogenSimulation.js` is embedded twice.  The first embedding computes in
  exact rational arithmetic on records with finite fields (`Row`); it carries
  the claims on the shape of the result, which do not depend on rounding.  The
  second (`Binary64`) computes on the records that the dashboard holds, with
  `JSNumber` fields and rounded operations; it carries the claims whose truth
  depends on rounding, on `NaN` or on an infinity.
* `Math.max(...xs)` is `List.maximum` in the exact embedding, whose bottom
  element stands for the `-Infinity` that JavaScript returns on an empty
  argument list, and `Binary64.mathMax` in the other.
* `Papa.parse` is a library outside the repository: its behaviour on the
  uploaded file is a parameter `papa`, which tells for each configuration
  whether `complete` or `error` is called and with what.  The upload handler is
  modelled by the list of calls it makes (`Event`), in order.
-/

namespace Dashboard

/-- A JavaScript string, as its sequence of characters. -/
abbrev JSString := List Char

/-! ## HydrogenSimulation.js in exact arithmetic -/

/-- One record of the `data` prop of `HydrogenSimulation` with finite numeric
fields, each carried as the rational it denotes. -/
structure Row where
  Month : JSString
  Year : ℤ
  Generation_MW : ℚ
  Gas_Consumption_m3 : ℚ
  CO2_Emissions_tonns : ℚ
  Carbon_Intensity_kgCO2_MWh : ℚ
  deriving DecidableEq

/-- An element of `newData`: the spread `...row` with two fields overwritten
and two fields added. -/
structure SimulatedRow where
  Month : JSString
  Year : ℤ
  Generation_MW : ℚ
  Gas_Consumption_m3 : ℚ
  CO2_Emissions_tonns : ℚ
  Carbon_Intensity_kgCO2_MWh : ℚ
  Original_Emissions : ℚ
  Emissions_Reduction : ℚ
  deriving DecidableEq

/-- The object `complianceData` built by `calculateSimulation`. -/
structure ComplianceData where
  isCompliant : Bool
  complianceRate : ℚ
  averageCarbonIntensity : ℚ
  maxCarbonIntensity : WithBot ℚ
  minBlendForCompliance : ℤ
  euThreshold : ℚ

/-- What one run of `calculateSimulation` hands to its callbacks. -/
structure SimulationOutput where
  newData : List SimulatedRow
  annualSavings : ℚ
  complianceData : ComplianceData

/-- The constant `euThreshold` (kgCO2/MWh), declared in both functions. -/
def euThreshold : ℚ := 350

/-- Callback of `data.map` inside the search loop (lines 27-33): the carbon
intensity of `row` under blend `mid`. -/
def testIntensity (mid : ℤ) (row : Row) : ℚ :=
  let currentEmissions := row.CO2_Emissions_tonns
  let generation := row.Generation_MW
  let newEmissions := currentEmissions * (1 - (mid : ℚ) / 100)
  if generation > 0 then (newEmissions * 1000) / generation else 0

/-- The test of line 38 on `testData = data.map(...)`.  It is only evaluated
on non-empty `data` (the function returns before the loop otherwise), where the
average divides by a positive length. -/
def testCompliant (data : List Row) (mid : ℤ) : Bool :=
  let testData := data.map (testIntensity mid)
  let maxIntensity := testData.maximum
  let avgIntensity := testData.sum / (testData.length : ℚ)
  decide (maxIntensity ≤ ((euThreshold : ℚ) : WithBot ℚ)) && decide (avgIntensity ≤ euThreshold)

/-- The `while (left <= right)` loop of `findMinBlendForCompliance`; the value
is `minBlend` at loop exit. -/
def searchLoop (data : List Row) (left right minBlend : ℤ) : ℤ :=
  if left ≤ right then
    let mid := (left + right) / 2
    if testCompliant data mid then
      searchLoop data left (mid - 1) mid
    else
      searchLoop data (mid + 1) right minBlend
  else
    minBlend
termination_by (right + 1 - left).toNat
decreasing_by
  all_goals simp_wf
  all_goals omega

/-- The inner function `findMinBlendForCompliance` (lines 13-47). -/
def findMinBlendForCompliance (data : List Row) : ℤ :=
  if data.length = 0 then 0
  else searchLoop data 0 100 100

/-- Callback of `data.map` building `newData` (lines 50-67). -/
def simulateRow (hydrogenBlend : ℤ) (row : Row) : SimulatedRow :=
  let currentEmissions := row.CO2_Emissions_tonns
  let generation := row.Generation_MW
  let newEmissions := currentEmissions * (1 - (hydrogenBlend : ℚ) / 100)
  let newCarbonIntensity := if generation > 0 then (newEmissions * 1000) / generation else 0
  { Month := row.Month
    Year := row.Year
    Generation_MW := row.Generation_MW
    Gas_Consumption_m3 := row.Gas_Consumption_m3
    CO2_Emissions_tonns := newEmissions
    Carbon_Intensity_kgCO2_MWh := newCarbonIntensity
    Original_Emissions := currentEmissions
    Emissions_Reduction := currentEmissions - newEmissions }

/-- The body of `calculateSimulation` (lines 9-106) for the current `data` and
`hydrogenBlend`; `none` is the early `return` on empty data, which calls no
callback.  Past that guard the lengths that divide are positive. -/
def calculateSimulation (data : List Row) (hydrogenBlend : ℤ) : Option SimulationOutput :=
  if data.length = 0 then none
  else
    let newData := data.map (simulateRow hydrogenBlend)
    let totalOriginalEmissions := (data.map (fun row => row.CO2_Emissions_tonns)).sum
    let totalNewEmissions := (newData.map (fun row => row.CO2_Emissions_tonns)).sum
    let totalSavings := totalOriginalEmissions - totalNewEmissions
    let averageCarbonIntensity :=
      (newData.map (fun row => row.Carbon_Intensity_kgCO2_MWh)).sum / (newData.length : ℚ)
    let maxCarbonIntensity := (newData.map (fun row => row.Carbon_Intensity_kgCO2_MWh)).maximum
    let isCompliant :=
      decide (averageCarbonIntensity ≤ euThreshold) &&
        decide (maxCarbonIntensity ≤ ((euThreshold : ℚ) : WithBot ℚ))
    let complianceRate :=
      ((newData.filter (fun row => decide (row.Carbon_Intensity_kgCO2_MWh ≤ euThreshold))).length : ℚ)
        / (newData.length : ℚ) * 100
    let minBlendForCompliance := findMinBlendForCompliance data
    some
      { newData := newData
        annualSavings := totalSavings
        complianceData :=
          { isCompliant := isCompliant
            complianceRate := complianceRate
            averageCarbonIntensity := averageCarbonIntensity
            maxCarbonIntensity := maxCarbonIntensity
            minBlendForCompliance := minBlendForCompliance
            euThreshold := euThreshold } }

/-- The flag `isCompliant` that the simulation reports at blend `b`
(`false` when no result is produced). -/
def isCompliant (data : List Row) (b : ℤ) : Bool :=
  match calculateSimulation data b with
  | some out => out.complianceData.isCompliant
  | none => false

/-! ## JavaScript strings and numbers used by CSVUpload.js -/

/-- The characters matched by `\s` in a regular expression, which are also the
characters removed by `String.prototype.trim` and skipped by `parseFloat` and
`parseInt`: white space and line terminators. -/
def isWhiteSpace (c : Char) : Bool :=
  let n := c.toNat
  n = 9 || n = 10 || n = 11 || n = 12 || n = 13 || n = 32 || n = 160 || n = 0x1680 ||
    (0x2000 ≤ n && n ≤ 0x200A) || n = 0x2028 || n = 0x2029 || n = 0x202F || n = 0x205F ||
    n = 0x3000 || n = 0xFEFF

/-- `s.trim()`. -/
def trim (s : JSString) : JSString :=
  ((s.dropWhile isWhiteSpace).reverse.dropWhile isWhiteSpace).reverse

/-- One character of `s.toLowerCase()`.  Only the letters `A`-`Z` are mapped;
the case tables for characters outside ASCII are not modelled.  The expected
column names are ASCII and contain no `k`, the only ASCII letter that is the
lower case of a character outside ASCII, so the outcome of column validation
does not depend on those tables. -/
def toLowerChar (c : Char) : Char :=
  if 65 ≤ c.toNat ∧ c.toNat ≤ 90 then Char.ofNat (c.toNat + 32) else c

/-- `s.toLowerCase()`. -/
def toLowerCase (s : JSString) : JSString := s.map toLowerChar

/-- `xs.join(sep)` on an array of strings. -/
def join (sep : JSString) : List JSString → JSString
  | [] => []
  | [x] => x
  | x :: y :: rest => x ++ sep ++ join sep (y :: rest)

/-- `s.replace(a, b)` with a one-character string pattern `a`: only the first
occurrence is replaced. -/
def replaceFirst (a b : Char) : JSString → JSString
  | [] => []
  | c :: cs => if c = a then b :: cs else c :: replaceFirst a b cs

/-- Rounding of a rational to the nearest integer, a tie going to the even
one. -/
def roundHalfEven (q : ℚ) : ℤ :=
  let f := ⌊q⌋
  let r := q - (f : ℚ)
  if r < 1 / 2 then f else if 1 / 2 < r then f + 1 else if f % 2 = 0 then f else f + 1

/-- The exponent of the unit in the last place of the doubles next to a
positive `x`: 53 significant bits, and never below the exponent `-1074` of the
subnormal numbers. -/
def ulpExponent (x : ℚ) : ℤ := max (Int.log 2 x - 52) (-1074)

/-- The IEEE 754 binary64 rounding of an exact result, round to nearest with
ties to even, before the test for overflow: the nearest multiple of the unit in
the last place. -/
def roundToDouble (x : ℚ) : ℚ :=
  if x < 0 then
    -((roundHalfEven (-x / (2 : ℚ) ^ ulpExponent (-x)) : ℚ) * (2 : ℚ) ^ ulpExponent (-x))
  else
    (roundHalfEven (x / (2 : ℚ) ^ ulpExponent x) : ℚ) * (2 : ℚ) ^ ulpExponent x

/-- A JavaScript number: a finite value, carried as the rational it denotes,
`NaN`, or one of the two infinities.  The sign of zero is not modelled: no
expression of the embedded code divides by a zero that an operation produced. -/
inductive JSNumber where
  | nan
  | negInf
  | num (q : ℚ)
  | posInf
  deriving DecidableEq

namespace JSNumber

/-- Truthiness of a number: `NaN` and `0` are falsy. -/
def toBoolean : JSNumber → Bool
  | nan => false
  | num q => decide (q ≠ 0)
  | _ => true

/-- The expression `x || 0`. -/
def orZero (x : JSNumber) : JSNumber :=
  if x.toBoolean then x else num 0

/-- The comparison `x <= y`. -/
def le : JSNumber → JSNumber → Bool
  | nan, _ => false
  | _, nan => false
  | negInf, _ => true
  | _, posInf => true
  | num a, num b => decide (a ≤ b)
  | _, _ => false

/-- The comparison `x > y`. -/
def gt : JSNumber → JSNumber → Bool
  | nan, _ => false
  | _, nan => false
  | posInf, posInf => false
  | posInf, _ => true
  | negInf, _ => false
  | num _, negInf => true
  | num _, posInf => false
  | num a, num b => decide (a > b)

/-- Whether a number is negative. -/
def isNeg : JSNumber → Bool
  | negInf => true
  | num q => decide (q < 0)
  | _ => false

/-- The infinity of the given sign. -/
def infinity (neg : Bool) : JSNumber :=
  if neg then negInf else posInf

/-- The double that an arithmetic operation returns for the exact result `q`:
the rounded value, or an infinity when the rounded value is `2^1024` or more in
absolute value. -/
def ofRat (q : ℚ) : JSNumber :=
  let r := roundToDouble q
  if (2 : ℚ) ^ 1024 ≤ r then posInf else if r ≤ -(2 : ℚ) ^ 1024 then negInf else num r

/-- The negation `-x`. -/
def neg : JSNumber → JSNumber
  | nan => nan
  | negInf => posInf
  | num q => num (-q)
  | posInf => negInf

/-- The sum `x + y`. -/
def add : JSNumber → JSNumber → JSNumber
  | nan, _ => nan
  | _, nan => nan
  | num a, num b => ofRat (a + b)
  | posInf, negInf => nan
  | negInf, posInf => nan
  | posInf, _ => posInf
  | _, posInf => posInf
  | negInf, _ => negInf
  | _, negInf => negInf

/-- The difference `x - y`. -/
def sub (x y : JSNumber) : JSNumber := x.add y.neg

/-- The product `x * y`. -/
def mul : JSNumber → JSNumber → JSNumber
  | nan, _ => nan
  | _, nan => nan
  | num a, num b => ofRat (a * b)
  | x, y =>
    if x = num 0 ∨ y = num 0 then nan else infinity (x.isNeg != y.isNeg)

/-- The quotient `x / y`. -/
def div : JSNumber → JSNumber → JSNumber
  | nan, _ => nan
  | _, nan => nan
  | num a, num b =>
    if b = 0 then (if a = 0 then nan else infinity (decide (a < 0))) else ofRat (a / b)
  | num _, _ => num 0
  | x, num b => infinity (x.isNeg != decide (b < 0))
  | _, _ => nan

/-- The value of `Math.max(x, y)`: `NaN` when an argument is `NaN`, the larger
argument otherwise. -/
def max : JSNumber → JSNumber → JSNumber
  | nan, _ => nan
  | _, nan => nan
  | x, y => if x.le y then y else x

end JSNumber

/-- Value of a string of decimal digits. -/
def digitsValue (ds : JSString) : ℕ :=
  ds.foldl (fun acc c => 10 * acc + (c.toNat - 48)) 0

/-- An optional sign at the head of `s`: whether it is a minus, and the rest. -/
def takeSign : JSString → Bool × JSString
  | '-' :: t => (true, t)
  | '+' :: t => (false, t)
  | s => (false, s)

/-- The exponent denoted by the text after the mantissa: `e` or `E`, an
optional sign and at least one digit; anything else is not part of the number. -/
def exponentOf : JSString → ℤ
  | c :: t =>
    if c = 'e' ∨ c = 'E' then
      let (eneg, t1) := takeSign t
      let ed := t1.takeWhile Char.isDigit
      if ed = [] then 0 else if eneg then -(digitsValue ed : ℤ) else (digitsValue ed : ℤ)
    else 0
  | [] => 0

/-- The global `parseFloat(s)`: leading white space is skipped and the longest
prefix that is a decimal literal (sign, digits, fraction, exponent, or
`Infinity`) is read; `NaN` when there is none.  The result is the double
nearest to the value that the literal denotes, an infinity when that value is
beyond the range of the doubles. -/
def parseFloat (s : JSString) : JSNumber :=
  let (neg, body) := takeSign (s.dropWhile isWhiteSpace)
  if "Infinity".toList.isPrefixOf body then JSNumber.infinity neg
  else
    let intPart := body.takeWhile Char.isDigit
    let rest := body.dropWhile Char.isDigit
    let fracPart := match rest with
      | '.' :: t => t.takeWhile Char.isDigit
      | _ => []
    let afterMantissa := match rest with
      | '.' :: t => t.dropWhile Char.isDigit
      | _ => rest
    if intPart = [] ∧ fracPart = [] then JSNumber.nan
    else
      let mantissa : ℚ := (digitsValue (intPart ++ fracPart) : ℚ) / (10 : ℚ) ^ fracPart.length
      let value : ℚ := mantissa * (10 : ℚ) ^ (exponentOf afterMantissa)
      JSNumber.ofRat (if neg then -value else value)

/-- Value of a hexadecimal digit. -/
def hexDigitValue (c : Char) : ℕ :=
  if c.isDigit then c.toNat - 48
  else if 97 ≤ c.toNat ∧ c.toNat ≤ 102 then c.toNat - 87
  else c.toNat - 55

/-- Whether `c` is a hexadecimal digit. -/
def isHexDigit (c : Char) : Bool :=
  c.isDigit || (97 ≤ c.toNat && c.toNat ≤ 102) || (65 ≤ c.toNat && c.toNat ≤ 70)

/-- The global `parseInt(s)` with no radix: leading white space is skipped, then
an optional sign, then either `0x`/`0X` and hexadecimal digits or decimal
digits; `none` is `NaN`. -/
def parseInt (s : JSString) : Option ℤ :=
  let (neg, body) := takeSign (s.dropWhile isWhiteSpace)
  let signed : ℕ → ℤ := fun n => if neg then -(n : ℤ) else (n : ℤ)
  match body with
  | '0' :: x :: t =>
    if x = 'x' ∨ x = 'X' then
      let hs := t.takeWhile isHexDigit
      if hs = [] then none
      else some (signed (hs.foldl (fun acc c => 16 * acc + hexDigitValue c) 0))
    else some (signed (digitsValue (body.takeWhile Char.isDigit)))
  | _ =>
    let ds := body.takeWhile Char.isDigit
    if ds = [] then none else some (signed (digitsValue ds))

/-! ## CSVUpload.js -/

/-- A parsed row: an object whose keys are header names and whose values are
the cell strings.  An absent key reads as `undefined`. -/
abbrev RawRow := List (JSString × JSString)

/-- Property access `row[key]`; `none` is `undefined`. -/
def RawRow.get (row : RawRow) (key : JSString) : Option JSString :=
  row.lookup key

/-- The expression `v || dflt` on a cell: `undefined` and the empty string are
falsy. -/
def orDefault (v : Option JSString) (dflt : JSString) : JSString :=
  match v with
  | none => dflt
  | some [] => dflt
  | some s => s

/-- The constant `expectedColumns`. -/
def expectedColumns : List JSString :=
  ["Month".toList, "Year".toList, "Generation_MW".toList, "Gas_Consumption_m3".toList,
    "CO2_Emissions_tonns".toList]

/-- The characters matched by the class `[\s\-_]`. -/
def isSeparator (c : Char) : Bool :=
  isWhiteSpace c || c = '-' || c = '_'

/-- The expression `col.trim().replace(/[\s\-_]/g, '_').toLowerCase()`: every
single match of the class is replaced by one underscore. -/
def normalizeColumn (col : JSString) : JSString :=
  toLowerCase ((trim col).map (fun c => if isSeparator c then '_' else c))

/-- The result object of `validateColumns`. -/
inductive ValidationResult where
  | valid
  | invalid (error : JSString)
  deriving DecidableEq

/-- The array `missingColumns` computed by `validateColumns`. -/
def missingColumns (columns : List JSString) : List JSString :=
  let normalizedColumns := columns.map normalizeColumn
  expectedColumns.filter (fun expectedCol =>
    let normalizedExpectedCol := normalizeColumn expectedCol
    !(normalizedColumns.any (fun col => decide (col = normalizedExpectedCol))))

/-- The function `validateColumns` (lines 19-43). -/
def validateColumns (columns : List JSString) : ValidationResult :=
  let missing := missingColumns columns
  if missing.length > 0 then
    ValidationResult.invalid
      ("Missing required columns: ".toList ++ join ", ".toList missing ++
        ". Expected columns: ".toList ++ join ", ".toList expectedColumns ++
        ". Found columns: ".toList ++ join ", ".toList columns)
  else ValidationResult.valid

/-- A record produced by `cleanAndProcessData`. -/
structure CleanedRow where
  Month : JSString
  Year : ℤ
  Generation_MW : JSNumber
  Gas_Consumption_m3 : JSNumber
  CO2_Emissions_tonns : JSNumber
  Carbon_Intensity_kgCO2_MWh : JSNumber
  _originalRow : RawRow
  _rowIndex : ℕ
  deriving DecidableEq

/-- The text handed to `parseFloat` for a numeric cell (lines 119-121):
`String(cell || '0').replace(/[\t\n\r\s]/g, '').replace(',', '.')`. -/
def numericText (cell : Option JSString) : JSString :=
  replaceFirst ',' '.' ((orDefault cell "0".toList).filter (fun c => !isWhiteSpace c))

/-- The cleaning applied to each of the three numeric cells (lines 118-134):
`parseFloat(text) || 0` on the text above. -/
def cleanNumber (cell : Option JSString) : JSNumber :=
  (parseFloat (numericText cell)).orZero

/-- The callback of `rawData.map` in `cleanAndProcessData` (lines 107-152);
`none` is the `null` of the `catch` branch.  No step of the `try` block throws
on a row object with string cells, so the record is always returned. -/
def cleanRow (row : RawRow) (index : ℕ) : Option CleanedRow :=
  let month := (trim (orDefault (row.get "Month".toList) [])).filter
    (fun c => !(c = '\t' || c = '\n' || c = '\r'))
  let year := (parseInt ((orDefault (row.get "Year".toList) "0".toList).filter
    (fun c => !isWhiteSpace c))).getD 0
  let generation := cleanNumber (row.get "Generation_MW".toList)
  let gas := cleanNumber (row.get "Gas_Consumption_m3".toList)
  let co2 := cleanNumber (row.get "CO2_Emissions_tonns".toList)
  let intensity :=
    if generation.gt (JSNumber.num 0) then (co2.mul (JSNumber.num 1000)).div generation
    else JSNumber.num 0
  some
    { Month := month
      Year := year
      Generation_MW := generation
      Gas_Consumption_m3 := gas
      CO2_Emissions_tonns := co2
      Carbon_Intensity_kgCO2_MWh := intensity
      _originalRow := row
      _rowIndex := index }

/-- The function `cleanAndProcessData` (lines 106-154): map every row, then drop
the `null` results. -/
def cleanAndProcessData (rawData : List RawRow) : List CleanedRow :=
  (rawData.enum.map (fun p => cleanRow p.2 p.1)).filterMap id

/-- Whether two characters agree up to ASCII letter case, any two characters of
the class `[\s\-_]` counting as equal. -/
def sameColumnChar (a b : Char) : Bool :=
  (isSeparator a && isSeparator b) ||
    (!isSeparator a && !isSeparator b && decide (toLowerChar a = toLowerChar b))

/-- Whether two names have the same length and agree character by character in
the sense of `sameColumnChar`. -/
def sameColumnName : JSString → JSString → Bool
  | [], [] => true
  | a :: as, b :: bs => sameColumnChar a b && sameColumnName as bs
  | _, _ => false

/-! ## ComplianceStatus.js -/

/-- The object returned by `calculateCompliance`. -/
structure ComplianceSummary where
  averageIntensity : ℚ
  maxIntensity : WithBot ℚ
  minIntensity : WithTop ℚ
  complianceRate : ℚ
  compliantMonths : ℕ
  totalMonths : ℕ
  overallStatus : JSString
  statusColor : JSString
  statusText : JSString
  euThreshold : ℚ

/-- The band assigned to a compliance rate by the `if` chain of
`calculateCompliance` (lines 26-43): `overallStatus`, `statusColor` and
`statusText`, initialised to the compliant band and overwritten by the first
branch that applies. -/
def statusBand (complianceRate : ℚ) : JSString × JSString × JSString :=
  if complianceRate < 50 then
    ("non-compliant".toList, "red".toList, "Non-Compliant".toList)
  else if complianceRate < 80 then
    ("warning".toList, "orange".toList, "At Risk".toList)
  else if complianceRate < 100 then
    ("partial".toList, "yellow".toList, "Mostly Compliant".toList)
  else
    ("compliant".toList, "green".toList, "Fully Compliant".toList)

/-- The function `calculateCompliance` of `ComplianceStatus` (lines 14-56) on
the records of its `data` prop, of which only `Carbon_Intensity_kgCO2_MWh` is
read.  The component calls it on non-empty data only. -/
def calculateCompliance (data : List Row) : ComplianceSummary :=
  let carbonIntensities := data.map (fun row => row.Carbon_Intensity_kgCO2_MWh)
  let averageIntensity := carbonIntensities.sum / (carbonIntensities.length : ℚ)
  let maxIntensity := carbonIntensities.maximum
  let minIntensity := carbonIntensities.minimum
  let compliantMonths :=
    (carbonIntensities.filter (fun intensity => decide (intensity ≤ 350))).length
  let totalMonths := carbonIntensities.length
  let complianceRate := ((compliantMonths : ℚ) / (totalMonths : ℚ)) * 100
  let band := statusBand complianceRate
  { averageIntensity := averageIntensity
    maxIntensity := maxIntensity
    minIntensity := minIntensity
    complianceRate := complianceRate
    compliantMonths := compliantMonths
    totalMonths := totalMonths
    overallStatus := band.1
    statusColor := band.2.1
    statusText := band.2.2
    euThreshold := 350 }

/-! ## CSVUpload.js: the upload handler -/

/-- `s.split(sep)` with a one-character separator. -/
def splitOn (sep : Char) : JSString → List JSString
  | [] => [[]]
  | c :: cs =>
    if c = sep then [] :: splitOn sep cs
    else
      match splitOn sep cs with
      | [] => [[c]]
      | piece :: pieces => (c :: piece) :: pieces

/-- The uploaded `File`: its name, its MIME type and the text that
`FileReader.readAsText` delivers. -/
structure File where
  name : JSString
  type : JSString
  text : JSString

/-- An element of `parseConfigs`. -/
structure ParseConfig where
  header : Bool
  skipEmptyLines : Bool
  delimiter : JSString
  quotes : Bool
  escapeChar : JSString
  deriving DecidableEq, Inhabited

/-- The constant `parseConfigs` (lines 180-209). -/
def parseConfigs : List ParseConfig :=
  [ { header := true, skipEmptyLines := true, delimiter := ";".toList, quotes := false,
      escapeChar := "\"".toList },
    { header := true, skipEmptyLines := true, delimiter := ",".toList, quotes := false,
      escapeChar := "\"".toList },
    { header := true, skipEmptyLines := true, delimiter := "\t".toList, quotes := false,
      escapeChar := "\"".toList },
    { header := true, skipEmptyLines := true, delimiter := [], quotes := false,
      escapeChar := "\"".toList } ]

/-- The element `parseConfigs[i]`; the index is in range wherever the handler
evaluates it. -/
def configAt (i : ℕ) : ParseConfig := parseConfigs[i]?.getD default

/-- The `results` object that Papa Parse hands to `complete`: the parsed rows
(`none` for an entry that is not an object) and `meta.fields` (`none` when it
is undefined). -/
structure ParseResults where
  data : List (Option RawRow)
  fields : Option (List JSString)

/-- What `Papa.parse` does with one configuration: it calls `complete` or it
calls `error`. -/
inductive PapaOutcome where
  | complete (results : ParseResults)
  | error (message : JSString)

/-- The object passed to `onDataUpload`. -/
structure Dataset where
  data : List CleanedRow
  columns : List JSString
  fileName : JSString
  rowCount : ℕ
  dataType : JSString
  deriving DecidableEq

/-- What the upload handler does, in order: calls of `Papa.parse`, the call of
`tryManualParsing`, calls of `alert` and calls of `onDataUpload`. -/
inductive Event where
  | papaParse (config : ParseConfig)
  | manualParsing
  | alert (message : JSString)
  | onDataUpload (dataset : Dataset)
  deriving DecidableEq

/-- The test `Object.values(row).some(value => value !== '' && ...)` on a row
object whose values are strings. -/
def hasValue (row : RawRow) : Bool :=
  row.any (fun kv => decide (kv.2 ≠ []))

/-- The array `data` of the `complete` callback (lines 223-226): the entries of
`results.data` that are objects with at least one non-empty value. -/
def liveRows (data : List (Option RawRow)) : List RawRow :=
  data.filterMap (fun row =>
    match row with
    | none => none
    | some r => if hasValue r then some r else none)

/-- `Object.keys(row)`. -/
def RawRow.keys (row : RawRow) : List JSString := row.map (fun kv => kv.1)

/-- The array `columns` of the `complete` callback (lines 231-242), for the
filtered `data`. -/
def detectColumns (results : ParseResults) (data : List RawRow) : List JSString :=
  let columns := match results.fields with
    | some fields => fields
    | none => match data with
      | firstRow :: _ => firstRow.keys
      | [] => []
  if columns.length = 0 ∧ data.length > 0 then
    match data with
    | firstRow :: _ => firstRow.keys
    | [] => columns
  else columns

/-- The array `processedColumns`. -/
def processedColumns : List JSString :=
  expectedColumns ++ ["Carbon_Intensity_kgCO2_MWh".toList]

/-- The object handed to `onDataUpload` on both paths. -/
def uploadOf (file : File) (data : List RawRow) : Dataset :=
  let cleanedData := cleanAndProcessData data
  { data := cleanedData
    columns := processedColumns
    fileName := file.name
    rowCount := cleanedData.length
    dataType := "power_plant".toList }

/-- The array `lines` of `tryManualParsing` (line 53). -/
def manualLines (text : JSString) : List JSString :=
  (splitOn '\n' text).filter (fun line => decide (trim line ≠ []))

/-- The callback of `lines.slice(1).map` (lines 74-80): the row object built
from one line. -/
def manualRow (line : JSString) : RawRow :=
  let values := (splitOn ';' line).map trim
  expectedColumns.enum.map (fun p => (p.2, orDefault values[p.1]? []))

/-- The array `data` of `tryManualParsing` (lines 74-81). -/
def manualRows (lines : List JSString) : List RawRow :=
  ((lines.drop 1).map manualRow).filter hasValue

/-- The `onload` handler of `tryManualParsing` (lines 48-101) on the text of the
file.  No step of the `try` block throws on a string, so the `catch` branch is
not taken. -/
def tryManualParsing (file : File) : List Event :=
  let lines := manualLines file.text
  if lines.length < 2 then [Event.alert "File appears to be empty or invalid".toList]
  else
    let headerLine := lines.headD []
    let headers := (splitOn ';' headerLine).map trim
    match validateColumns headers with
    | ValidationResult.invalid error => [Event.alert error]
    | ValidationResult.valid => [Event.onDataUpload (uploadOf file (manualRows lines))]

/-- The function `tryParse` (lines 213-301) together with the variable
`currentConfigIndex`; `papa` is the behaviour of `Papa.parse` on the file for
each configuration. -/
def tryParse (papa : ParseConfig → PapaOutcome) (file : File) (config : ParseConfig)
    (currentConfigIndex : ℕ) : List Event :=
  Event.papaParse config ::
    match papa config with
    | PapaOutcome.complete results =>
      let data := liveRows results.data
      let columns := detectColumns results data
      if data.length > 0 ∧ columns.length > 0 then
        match validateColumns columns with
        | ValidationResult.invalid error => [Event.alert error]
        | ValidationResult.valid => [Event.onDataUpload (uploadOf file data)]
      else if currentConfigIndex < parseConfigs.length - 1 then
        tryParse papa file (configAt (currentConfigIndex + 1)) (currentConfigIndex + 1)
      else
        Event.manualParsing :: tryManualParsing file
    | PapaOutcome.error message =>
      if currentConfigIndex < parseConfigs.length - 1 then
        tryParse papa file (configAt (currentConfigIndex + 1)) (currentConfigIndex + 1)
      else
        [Event.alert ("Error reading CSV file: ".toList ++ message ++
          ". Please try a different file or check the file format.".toList)]
termination_by parseConfigs.length - currentConfigIndex
decreasing_by
  all_goals simp_wf
  all_goals omega

/-- An attempt that does not end the search: `Papa.parse` reports an error, or
it completes without a live row or without a column. -/
def attemptFails : PapaOutcome → Prop
  | PapaOutcome.complete results =>
    ¬ ((liveRows results.data).length > 0 ∧
      (detectColumns results (liveRows results.data)).length > 0)
  | PapaOutcome.error _ => True

/-- The function `handleFileUpload` (lines 163-305); `none` is an event without
a file. -/
def handleFileUpload (papa : ParseConfig → PapaOutcome) (file : Option File) : List Event :=
  match file with
  | none => []
  | some file =>
    if file.type ≠ "text/csv".toList ∧ ¬ (".csv".toList.isSuffixOf file.name = true) then
      [Event.alert "Please upload a CSV file".toList]
    else
      tryParse papa file (configAt 0) 0

/-- The number of times the body of the `while (left <= right)` loop of
`findMinBlendForCompliance` runs from the state `left`, `right`: the loop of
`searchLoop`, with the same guard, the same midpoint and the same test, counting
one for each pass. -/
def searchIterations (data : List Row) (left right : ℤ) : ℕ :=
  if left ≤ right then
    let mid := (left + right) / 2
    if testCompliant data mid then
      1 + searchIterations data left (mid - 1)
    else
      1 + searchIterations data (mid + 1) right
  else
    0
termination_by (right + 1 - left).toNat
decreasing_by
  all_goals simp_wf
  all_goals omega

/-! ## ComplianceReportGenerator.js -/

/-- The number formatting built-ins that the report texts go through:
conversion of an integer in a template literal, `toFixed(1)` and
`toLocaleString()`.  They belong to the JavaScript engine and are parameters
here. -/
structure NumberFormat where
  toString : ℤ → JSString
  toFixed1 : ℚ → JSString
  toLocaleString : ℚ → JSString

/-- The props of `ComplianceReportGenerator`; `none` is `null`. -/
structure ReportProps where
  data : List Row
  simulatedData : Option (List SimulatedRow)
  hydrogenBlend : ℤ
  complianceStatus : Option ComplianceData

/-- The fields of a simulated record that the report reads. -/
def SimulatedRow.toRow (s : SimulatedRow) : Row :=
  { Month := s.Month
    Year := s.Year
    Generation_MW := s.Generation_MW
    Gas_Consumption_m3 := s.Gas_Consumption_m3
    CO2_Emissions_tonns := s.CO2_Emissions_tonns
    Carbon_Intensity_kgCO2_MWh := s.Carbon_Intensity_kgCO2_MWh }

/-- The object returned by `calculateComprehensiveMetrics`. -/
structure Metrics where
  totalGeneration : ℚ
  totalEmissions : ℚ
  averageCarbonIntensity : ℚ
  euComplianceRate : ℚ
  csrdComplianceRate : ℚ
  mrvComplianceRate : ℚ
  emissionsReduction : ℚ
  reductionPercentage : ℚ
  hydrogenBlend : ℤ
  dataPoints : ℕ
  yearRange : JSString

/-- The function `getYearRange` (lines 64-67): the distinct years in order of
first occurrence, sorted by the default `sort`, which compares the string
forms. -/
def getYearRange (fmt : NumberFormat) (data : List Row) : JSString :=
  let years := ((data.map (fun row => row.Year)).eraseDups).mergeSort
    (fun a b => decide (fmt.toString a ≤ fmt.toString b))
  if years.length > 1 then
    fmt.toString (years.headD 0) ++ "-".toList ++ fmt.toString (years.getLastD 0)
  else
    match years.head? with
    | some year => if fmt.toString year = [] then "N/A".toList else fmt.toString year
    | none => "N/A".toList

/-- The truthiness test `row.Month && row.Year && row.Generation_MW &&
row.CO2_Emissions_tonns` of the completeness check: the empty string and the
number `0` are falsy. -/
def hasAllFields (row : Row) : Bool :=
  decide (row.Month ≠ []) && decide (row.Year ≠ 0) && decide (row.Generation_MW ≠ 0) &&
    decide (row.CO2_Emissions_tonns ≠ 0)

/-- The array `currentData = simulatedData || data`; an array, also an empty
one, is truthy. -/
def currentData (props : ReportProps) : List Row :=
  match props.simulatedData with
  | some simulated => simulated.map SimulatedRow.toRow
  | none => props.data

/-- The function `calculateComprehensiveMetrics` (lines 19-62).  `generateReport`
calls it on non-empty `data` only. -/
def calculateComprehensiveMetrics (fmt : NumberFormat) (props : ReportProps) : Metrics :=
  let currentData := currentData props
  let totalGeneration := (currentData.map (fun row => row.Generation_MW)).sum
  let totalEmissions := (currentData.map (fun row => row.CO2_Emissions_tonns)).sum
  let averageCarbonIntensity :=
    (currentData.map (fun row => row.Carbon_Intensity_kgCO2_MWh)).sum / (currentData.length : ℚ)
  let euThreshold : ℚ := 350
  let euCompliantMonths :=
    (currentData.filter (fun row => decide (row.Carbon_Intensity_kgCO2_MWh ≤ euThreshold))).length
  let euComplianceRate := ((euCompliantMonths : ℚ) / (currentData.length : ℚ)) * 100
  let csrdThreshold : ℚ := 300
  let csrdCompliantMonths :=
    (currentData.filter
      (fun row => decide (row.Carbon_Intensity_kgCO2_MWh ≤ csrdThreshold))).length
  let csrdComplianceRate := ((csrdCompliantMonths : ℚ) / (currentData.length : ℚ)) * 100
  let hasCompleteData := currentData.all hasAllFields
  let mrvComplianceRate : ℚ := if hasCompleteData then 100 else 0
  let originalEmissions := (props.data.map (fun row => row.CO2_Emissions_tonns)).sum
  let currentEmissions := totalEmissions
  let emissionsReduction := originalEmissions - currentEmissions
  let reductionPercentage :=
    if originalEmissions > 0 then (emissionsReduction / originalEmissions) * 100 else 0
  { totalGeneration := totalGeneration
    totalEmissions := totalEmissions
    averageCarbonIntensity := averageCarbonIntensity
    euComplianceRate := euComplianceRate
    csrdComplianceRate := csrdComplianceRate
    mrvComplianceRate := mrvComplianceRate
    emissionsReduction := emissionsReduction
    reductionPercentage := reductionPercentage
    hydrogenBlend := props.hydrogenBlend
    dataPoints := currentData.length
    yearRange := getYearRange fmt currentData }

/-- An element of the array returned by `generateRecommendations`. -/
structure Recommendation where
  priority : JSString
  category : JSString
  action : JSString
  impact : JSString
  timeline : JSString
  deriving DecidableEq

/-- The function `generateRecommendations` (lines 101-149); each `if` pushes one
recommendation. -/
def generateRecommendations (fmt : NumberFormat) (props : ReportProps) (metrics : Metrics) :
    List Recommendation :=
  let minBlend : ℤ := match props.complianceStatus with
    | some status => status.minBlendForCompliance
    | none => 0
  (if metrics.euComplianceRate < 80 then
    [{ priority := "High".toList
       category := "EU ETS Compliance".toList
       action := "Increase hydrogen blend to ".toList ++ fmt.toString minBlend ++
         "% to achieve compliance".toList
       impact := "Will improve compliance rate from ".toList ++
         fmt.toFixed1 metrics.euComplianceRate ++ "% to 100%".toList
       timeline := "6-12 months".toList }]
  else []) ++
  (if metrics.csrdComplianceRate < 80 then
    [{ priority := "Medium".toList
       category := "CSRD Compliance".toList
       action := "Implement additional efficiency measures beyond hydrogen blending".toList
       impact := "Will improve sustainability reporting compliance".toList
       timeline := "12-18 months".toList }]
  else []) ++
  (if metrics.hydrogenBlend > 0 then
    [{ priority := "High".toList
       category := "Hydrogen Integration".toList
       action := "Current ".toList ++ fmt.toString metrics.hydrogenBlend ++
         "% hydrogen blend is reducing emissions by ".toList ++
         fmt.toFixed1 metrics.reductionPercentage ++ "%".toList
       impact := "Annual CO2 savings: ".toList ++
         fmt.toLocaleString metrics.emissionsReduction ++ " tonnes".toList
       timeline := "Ongoing".toList }]
  else []) ++
  (if metrics.mrvComplianceRate < 100 then
    [{ priority := "Medium".toList
       category := "Data Quality".toList
       action := "Improve data collection and reporting processes".toList
       impact := "Will ensure complete MRV compliance".toList
       timeline := "3-6 months".toList }]
  else [])

/-- One entry of `complianceStatus` in the report data. -/
structure RegimeStatus where
  status : JSString
  rate : ℚ
  threshold : ℚ
  description : JSString

/-- The object returned by `generateReportData`, with the three entries of its
`complianceStatus` as fields. -/
structure ReportData where
  title : JSString
  generatedDate : JSString
  facility : JSString
  metrics : Metrics
  euEts : RegimeStatus
  csrd : RegimeStatus
  mrv : RegimeStatus
  recommendations : List Recommendation

/-- The function `generateReportData` (lines 69-99); `currentDate` is the text of
`new Date().toLocaleDateString()`. -/
def generateReportData (fmt : NumberFormat) (props : ReportProps) (currentDate : JSString)
    (metrics : Metrics) : ReportData :=
  { title := "Power Plant Compliance Report - ".toList ++ currentDate
    generatedDate := currentDate
    facility := "Power Plant Facility".toList
    metrics := metrics
    euEts :=
      { status := if metrics.euComplianceRate ≥ 80 then "Compliant".toList
          else "Non-Compliant".toList
        rate := metrics.euComplianceRate
        threshold := 350
        description := "EU Emissions Trading System".toList }
    csrd :=
      { status := if metrics.csrdComplianceRate ≥ 80 then "Compliant".toList
          else "Non-Compliant".toList
        rate := metrics.csrdComplianceRate
        threshold := 300
        description := "Corporate Sustainability Reporting Directive".toList }
    mrv :=
      { status := if metrics.mrvComplianceRate ≥ 100 then "Compliant".toList
          else "Non-Compliant".toList
        rate := metrics.mrvComplianceRate
        threshold := 100
        description := "Monitoring, Reporting, Verification".toList }
    recommendations := generateRecommendations fmt props metrics }

/-- The function `generateReport` (lines 5-17): the alert on empty data, or the
report data handed to `createPDFReport`. -/
def generateReport (fmt : NumberFormat) (props : ReportProps) (currentDate : JSString) :
    Except JSString ReportData :=
  if props.data.length = 0 then Except.error "No data available to generate report".toList
  else
    let metrics := calculateComprehensiveMetrics fmt props
    Except.ok (generateReportData fmt props currentDate metrics)

/-! ## Dashboard.js -/

/-- The four state variables of `Dashboard`; `none` is `null`. -/
structure DashboardState where
  csvData : Option Dataset
  simulatedData : Option (List SimulatedRow)
  hydrogenBlend : ℤ
  complianceStatus : Option ComplianceData

/-- The initial values given to `useState` (lines 13-16). -/
def DashboardState.initial : DashboardState :=
  { csvData := none, simulatedData := none, hydrogenBlend := 0, complianceStatus := none }

/-- The function `handleDataUpload` (lines 18-24). -/
def handleDataUpload (s : DashboardState) (uploadData : Dataset) : DashboardState :=
  { s with
    csvData := some uploadData
    simulatedData := none
    hydrogenBlend := 0
    complianceStatus := none }

/-- The function `handleSimulationUpdate` (lines 26-28). -/
def handleSimulationUpdate (s : DashboardState) (newSimulatedData : List SimulatedRow) :
    DashboardState :=
  { s with simulatedData := some newSimulatedData }

/-- The function `handleComplianceUpdate` (lines 30-32). -/
def handleComplianceUpdate (s : DashboardState) (status : ComplianceData) : DashboardState :=
  { s with complianceStatus := some status }

/-- The callbacks through which the state of `Dashboard` changes. -/
inductive DashboardAction where
  | dataUpload (uploadData : Dataset)
  | simulationUpdate (newSimulatedData : List SimulatedRow)
  | complianceUpdate (status : ComplianceData)

/-- One state change of `Dashboard`. -/
def DashboardState.step (s : DashboardState) : DashboardAction → DashboardState
  | DashboardAction.dataUpload uploadData => handleDataUpload s uploadData
  | DashboardAction.simulationUpdate newSimulatedData => handleSimulationUpdate s newSimulatedData
  | DashboardAction.complianceUpdate status => handleComplianceUpdate s status

/-- The state after a sequence of callbacks, from the initial state. -/
def DashboardState.run (actions : List DashboardAction) : DashboardState :=
  actions.foldl DashboardState.step DashboardState.initial

/-- The props that `Dashboard` passes to `ComplianceReportGenerator`
(lines 57-65); `data` stands for `csvData.data` read as simulation records. -/
def reportProps (s : DashboardState) (data : List Row) : ReportProps :=
  { data := data
    simulatedData := s.simulatedData
    hydrogenBlend := s.hydrogenBlend
    complianceStatus := s.complianceStatus }

/-! ## HydrogenSimulation.js in double-precision arithmetic

The same function on the records that `cleanAndProcessData` hands to the
dashboard, whose numeric fields are JavaScript numbers: every operation rounds
to a double, and a field can be an infinity or `NaN`.  `parseFloat` applied to a
number returns that number, so `parseFloat(x) || 0` is `x || 0`. -/

namespace Binary64

/-- An element of `newData`: the spread `...row` with two fields overwritten
and two fields added. -/
structure SimulatedRow where
  Month : JSString
  Year : ℤ
  Generation_MW : JSNumber
  Gas_Consumption_m3 : JSNumber
  CO2_Emissions_tonns : JSNumber
  Carbon_Intensity_kgCO2_MWh : JSNumber
  _originalRow : RawRow
  _rowIndex : ℕ
  Original_Emissions : JSNumber
  Emissions_Reduction : JSNumber
  deriving DecidableEq

/-- The object `complianceData` built by `calculateSimulation`. -/
structure ComplianceData where
  isCompliant : Bool
  complianceRate : JSNumber
  averageCarbonIntensity : JSNumber
  maxCarbonIntensity : JSNumber
  minBlendForCompliance : ℤ
  euThreshold : JSNumber

/-- What one run of `calculateSimulation` hands to its callbacks. -/
structure SimulationOutput where
  newData : List SimulatedRow
  annualSavings : JSNumber
  complianceData : ComplianceData

/-- The constant `euThreshold` (kgCO2/MWh), declared in both functions. -/
def euThreshold : JSNumber := JSNumber.num 350

/-- The value of `Math.max(...xs)`: `-Infinity` on no argument, `NaN` when an
argument is `NaN`. -/
def mathMax : List JSNumber → JSNumber
  | [] => JSNumber.negInf
  | x :: xs => JSNumber.max x (mathMax xs)

/-- The value of `xs.reduce((sum, val) => sum + val, 0)`. -/
def sum (xs : List JSNumber) : JSNumber :=
  xs.foldl (fun acc val => acc.add val) (JSNumber.num 0)

/-- Callback of `data.map` inside the search loop (lines 27-33): the carbon
intensity of `row` under blend `mid`. -/
def testIntensity (mid : ℤ) (row : CleanedRow) : JSNumber :=
  let currentEmissions := row.CO2_Emissions_tonns.orZero
  let generation := row.Generation_MW.orZero
  let newEmissions := currentEmissions.mul
    ((JSNumber.num 1).sub ((JSNumber.num (mid : ℚ)).div (JSNumber.num 100)))
  if generation.gt (JSNumber.num 0) then (newEmissions.mul (JSNumber.num 1000)).div generation
  else JSNumber.num 0

/-- The test of line 38 on `testData = data.map(...)`. -/
def testCompliant (data : List CleanedRow) (mid : ℤ) : Bool :=
  let testData := data.map (testIntensity mid)
  let maxIntensity := mathMax testData
  let avgIntensity := (sum testData).div (JSNumber.num (testData.length : ℚ))
  maxIntensity.le euThreshold && avgIntensity.le euThreshold

/-- The `while (left <= right)` loop of `findMinBlendForCompliance`; the value
is `minBlend` at loop exit. -/
def searchLoop (data : List CleanedRow) (left right minBlend : ℤ) : ℤ :=
  if left ≤ right then
    let mid := (left + right) / 2
    if testCompliant data mid then
      searchLoop data left (mid - 1) mid
    else
      searchLoop data (mid + 1) right minBlend
  else
    minBlend
termination_by (right + 1 - left).toNat
decreasing_by
  all_goals simp_wf
  all_goals omega

/-- The inner function `findMinBlendForCompliance` (lines 13-47). -/
def findMinBlendForCompliance (data : List CleanedRow) : ℤ :=
  if data.length = 0 then 0
  else searchLoop data 0 100 100

/-- Callback of `data.map` building `newData` (lines 50-67). -/
def simulateRow (hydrogenBlend : ℤ) (row : CleanedRow) : SimulatedRow :=
  let currentEmissions := row.CO2_Emissions_tonns.orZero
  let generation := row.Generation_MW.orZero
  let newEmissions := currentEmissions.mul
    ((JSNumber.num 1).sub ((JSNumber.num (hydrogenBlend : ℚ)).div (JSNumber.num 100)))
  let newCarbonIntensity :=
    if generation.gt (JSNumber.num 0) then (newEmissions.mul (JSNumber.num 1000)).div generation
    else JSNumber.num 0
  { Month := row.Month
    Year := row.Year
    Generation_MW := row.Generation_MW
    Gas_Consumption_m3 := row.Gas_Consumption_m3
    CO2_Emissions_tonns := newEmissions
    Carbon_Intensity_kgCO2_MWh := newCarbonIntensity
    _originalRow := row._originalRow
    _rowIndex := row._rowIndex
    Original_Emissions := currentEmissions
    Emissions_Reduction := currentEmissions.sub newEmissions }

/-- The body of `calculateSimulation` (lines 9-106) for the current `data` and
`hydrogenBlend`; `none` is the early `return` on empty data, which calls no
callback. -/
def calculateSimulation (data : List CleanedRow) (hydrogenBlend : ℤ) :
    Option SimulationOutput :=
  if data.length = 0 then none
  else
    let newData := data.map (simulateRow hydrogenBlend)
    let totalOriginalEmissions := sum (data.map (fun row => row.CO2_Emissions_tonns.orZero))
    let totalNewEmissions := sum (newData.map (fun row => row.CO2_Emissions_tonns))
    let totalSavings := totalOriginalEmissions.sub totalNewEmissions
    let averageCarbonIntensity :=
      (sum (newData.map (fun row => row.Carbon_Intensity_kgCO2_MWh))).div
        (JSNumber.num (newData.length : ℚ))
    let maxCarbonIntensity := mathMax (newData.map (fun row => row.Carbon_Intensity_kgCO2_MWh))
    let isCompliant := averageCarbonIntensity.le euThreshold && maxCarbonIntensity.le euThreshold
    let complianceRate :=
      ((JSNumber.num ((newData.filter
          (fun row => row.Carbon_Intensity_kgCO2_MWh.le euThreshold)).length : ℚ)).div
        (JSNumber.num (newData.length : ℚ))).mul (JSNumber.num 100)
    let minBlendForCompliance := findMinBlendForCompliance data
    some
      { newData := newData
        annualSavings := totalSavings
        complianceData :=
          { isCompliant := isCompliant
            complianceRate := complianceRate
            averageCarbonIntensity := averageCarbonIntensity
            maxCarbonIntensity := maxCarbonIntensity
            minBlendForCompliance := minBlendForCompliance
            euThreshold := euThreshold } }

/-- The flag `isCompliant` that the simulation reports at blend `b`
(`false` when no result is produced). -/
def isCompliant (data : List CleanedRow) (b : ℤ) : Bool :=
  match calculateSimulation data b with
  | some out => out.complianceData.isCompliant
  | none => false

end Binary64

/-- A raw row with a decimal comma, an empty cell and an unparsable cell. -/
def exRawRow : RawRow :=
  [("Month".toList, " March ".toList), ("Year".toList, "2023".toList),
    ("Generation_MW".toList, "1250,5".toList), ("Gas_Consumption_m3".toList, [])
    , ("CO2_Emissions_tonns".toList, "n/a".toList)]

/-- A raw row whose emissions cell carries a minus sign. -/
def negRawRow : RawRow :=
  [("Month".toList, "May".toList), ("Year".toList, "2023".toList),
    ("Generation_MW".toList, "10".toList), ("Gas_Consumption_m3".toList, "7".toList),
    ("CO2_Emissions_tonns".toList, "-5".toList)]

/-- The record of the worked scenario: 1000 MW generated, 400 t of CO2. -/
def exRow : Row :=
  { Month := "January".toList, Year := 2023, Generation_MW := 1000, Gas_Consumption_m3 := 0,
    CO2_Emissions_tonns := 400, Carbon_Intensity_kgCO2_MWh := 400 }

/-- Two records with carbon intensities 300 and 400, whose mean is 350. -/
def meanBoundaryRows : List Row :=
  [ { Month := "January".toList, Year := 2023, Generation_MW := 1000, Gas_Consumption_m3 := 0,
      CO2_Emissions_tonns := 300, Carbon_Intensity_kgCO2_MWh := 300 },
    { Month := "February".toList, Year := 2023, Generation_MW := 1000, Gas_Consumption_m3 := 0,
      CO2_Emissions_tonns := 400, Carbon_Intensity_kgCO2_MWh := 400 } ]

/-- A record whose carbon intensity is exactly 350. -/
def boundaryRow : Row :=
  { Month := "March".toList, Year := 2023, Generation_MW := 1000, Gas_Consumption_m3 := 0,
    CO2_Emissions_tonns := 350, Carbon_Intensity_kgCO2_MWh := 350 }

/-- A file named `plant.csv` with a header line and one data line. -/
def exFile : File :=
  { name := "plant.csv".toList
    type := "text/csv".toList
    text := "Month;Year;Generation_MW;Gas_Consumption_m3;CO2_Emissions_tonns\nMarch;2023;1250,5;;n/a".toList }

/-- A parser behaviour: every configuration completes with the row `exRawRow`
under the expected header. -/
def papaOk : ParseConfig → PapaOutcome :=
  fun _ => PapaOutcome.complete { data := [some exRawRow], fields := some expectedColumns }

/-- A parser behaviour: every configuration completes with the row `exRawRow`
under a header that lacks `Year`. -/
def papaNoYear : ParseConfig → PapaOutcome :=
  fun _ => PapaOutcome.complete
    { data := [some exRawRow]
      fields := some ["Month".toList, "Generation_MW".toList, "Gas_Consumption_m3".toList,
        "CO2_Emissions_tonns".toList] }

/-- A parser behaviour: every configuration reports the error `boom`. -/
def papaError : ParseConfig → PapaOutcome :=
  fun _ => PapaOutcome.error "boom".toList

/-- A parser behaviour: every configuration completes without rows or fields. -/
def papaEmpty : ParseConfig → PapaOutcome :=
  fun _ => PapaOutcome.complete { data := [], fields := some [] }

/-- A parsed row whose two values consist of white space only. -/
def blankRow : RawRow :=
  [("Month".toList, " ".toList), ("Year".toList, "\t".toList)]

/-- A file whose text has three lines, of which only the header is not
blank. -/
def blankLinesFile : File :=
  { name := "plant.csv".toList
    type := "text/csv".toList
    text := "Month;Year;Generation_MW;Gas_Consumption_m3;CO2_Emissions_tonns\n\n".toList }

/-- The expected header in lower case. -/
def lowerHeader : List JSString :=
  ["month".toList, "year".toList, "generation_mw".toList, "gas_consumption_m3".toList,
    "co2_emissions_tonns".toList]

/-- A parsed row keyed by the lower-case header. -/
def lowerRow : RawRow :=
  [("month".toList, "March".toList), ("year".toList, "2023".toList),
    ("generation_mw".toList, "1000".toList), ("gas_consumption_m3".toList, "7".toList),
    ("co2_emissions_tonns".toList, "400".toList)]

/-- A parser behaviour: every configuration completes with the row `lowerRow`
under the lower-case header. -/
def papaLower : ParseConfig → PapaOutcome :=
  fun _ => PapaOutcome.complete { data := [some lowerRow], fields := some lowerHeader }

/-- A file whose header has `Year` and `Month` exchanged, with one data line in
the order of that header. -/
def swappedFile : File :=
  { name := "plant.csv".toList
    type := "text/csv".toList
    text := "Year;Month;Generation_MW;Gas_Consumption_m3;CO2_Emissions_tonns\n2023;March;1000;7;400".toList }

/-- The row that the manual parser builds from the data line of `swappedFile`. -/
def swappedRow : RawRow :=
  [("Month".toList, "2023".toList), ("Year".toList, "March".toList),
    ("Generation_MW".toList, "1000".toList), ("Gas_Consumption_m3".toList, "7".toList),
    ("CO2_Emissions_tonns".toList, "400".toList)]

/-- A record with every field filled in and zero generation. -/
def zeroGenerationRow : Row :=
  { Month := "April".toList, Year := 2023, Generation_MW := 0, Gas_Consumption_m3 := 5,
    CO2_Emissions_tonns := 10, Carbon_Intensity_kgCO2_MWh := 0 }

/-- A rational in decimal digits with one fractional digit, rounded half up in
absolute value. -/
def oneDecimal (q : ℚ) : JSString :=
  let tenths : ℕ := (q.num.natAbs * 20 + q.den) / (2 * q.den)
  (if q < 0 then ['-'] else []) ++ Nat.toDigits 10 (tenths / 10) ++ ['.'] ++
    Nat.toDigits 10 (tenths % 10)

/-- An example of the engine's number formatting, for the places where a
concrete one is needed: integers in decimal digits, and one fractional digit
for `toFixed(1)` and `toLocaleString()`.  No result depends on it. -/
def exFormat : NumberFormat :=
  { toString := fun n => (if n < 0 then ['-'] else []) ++ Nat.toDigits 10 n.natAbs
    toFixed1 := oneDecimal
    toLocaleString := oneDecimal }

/-- The props of the report for a record list without simulation. -/
def plainProps (data : List Row) : ReportProps :=
  { data := data, simulatedData := none, hydrogenBlend := 0, complianceStatus := none }

/-- A raw row whose emissions cell is the text `Infinity`. -/
def infiniteRawRow : RawRow :=
  [("Month".toList, "June".toList), ("Year".toList, "2023".toList),
    ("Generation_MW".toList, "10".toList), ("Gas_Consumption_m3".toList, "7".toList),
    ("CO2_Emissions_tonns".toList, "Infinity".toList)]

/-- The record that `cleanAndProcessData` stores for `infiniteRawRow`. -/
def infiniteRecord : CleanedRow :=
  { Month := "June".toList, Year := 2023, Generation_MW := JSNumber.num 10,
    Gas_Consumption_m3 := JSNumber.num 7, CO2_Emissions_tonns := JSNumber.posInf,
    Carbon_Intensity_kgCO2_MWh := JSNumber.posInf, _originalRow := infiniteRawRow,
    _rowIndex := 0 }

/-- The record of the worked scenario as the dashboard holds it: 1000 MW
generated, 400 t of CO2. -/
def scenarioRecord : CleanedRow :=
  { Month := "January".toList, Year := 2023, Generation_MW := JSNumber.num 1000,
    Gas_Consumption_m3 := JSNumber.num 0, CO2_Emissions_tonns := JSNumber.num 400,
    Carbon_Intensity_kgCO2_MWh := JSNumber.num 400, _originalRow := [], _rowIndex := 0 }

/-- A record with 40000 MW generated and 25000 t of CO2: carbon intensity 625,
for which `100 * (1 - 350 / 625)` is exactly 44. -/
def roundingRecord : CleanedRow :=
  { Month := "January".toList, Year := 2023, Generation_MW := JSNumber.num 40000,
    Gas_Consumption_m3 := JSNumber.num 0, CO2_Emissions_tonns := JSNumber.num 25000,
    Carbon_Intensity_kgCO2_MWh := JSNumber.num 625, _originalRow := [], _rowIndex := 0 }

/-! ## Rounding to the nearest double -/

theorem roundHalfEven_floor_le (q : ℚ) : ⌊q⌋ ≤ roundHalfEven q := by
  unfold roundHalfEven
  simp only
  split_ifs <;> omega

theorem roundHalfEven_le_floor_succ (q : ℚ) : roundHalfEven q ≤ ⌊q⌋ + 1 := by
  unfold roundHalfEven
  simp only
  split_ifs <;> omega

theorem roundHalfEven_intCast (n : ℤ) : roundHalfEven (n : ℚ) = n := by
  unfold roundHalfEven
  simp

theorem roundHalfEven_mono {q q' : ℚ} (h : q ≤ q') : roundHalfEven q ≤ roundHalfEven q' := by
  have hf : ⌊q⌋ ≤ ⌊q'⌋ := Int.floor_le_floor h
  rcases lt_or_eq_of_le hf with hlt | heq
  · calc roundHalfEven q ≤ ⌊q⌋ + 1 := roundHalfEven_le_floor_succ q
      _ ≤ ⌊q'⌋ := hlt
      _ ≤ roundHalfEven q' := roundHalfEven_floor_le q'
  · unfold roundHalfEven
    simp only
    rw [← heq]
    have hr : q - (⌊q⌋ : ℚ) ≤ q' - (⌊q⌋ : ℚ) := by linarith
    split_ifs <;> first | omega | linarith

theorem roundHalfEven_eq_of_near (q : ℚ) (m : ℤ) (h1 : (m : ℚ) - 1 / 2 < q)
    (h2 : q < (m : ℚ) + 1 / 2) : roundHalfEven q = m := by
  unfold roundHalfEven
  simp only
  by_cases hq : (m : ℚ) ≤ q
  · have hf : ⌊q⌋ = m := by
      rw [Int.floor_eq_iff]
      constructor
      · exact hq
      · linarith
    rw [hf, if_pos (by linarith)]
  · push_neg at hq
    have hf : ⌊q⌋ = m - 1 := by
      rw [Int.floor_eq_iff]
      push_cast
      constructor
      · linarith
      · linarith
    rw [hf]
    push_cast
    rw [if_neg (by linarith), if_pos (by linarith)]
    ring

theorem roundHalfEven_eq_of_tie (q : ℚ) (m n : ℤ) (hq : q = (m : ℚ) + 1 / 2)
    (hn : n = m ∨ n = m + 1) (heven : n % 2 = 0) : roundHalfEven q = n := by
  have hf : ⌊q⌋ = m := by
    rw [Int.floor_eq_iff, hq]
    constructor <;> linarith
  unfold roundHalfEven
  simp only
  rw [hf, hq]
  have h1 : ¬ ((m : ℚ) + 1 / 2 - (m : ℚ) < 1 / 2) := by
    rw [add_sub_cancel_left]
    exact lt_irrefl _
  have h2 : ¬ ((1 : ℚ) / 2 < (m : ℚ) + 1 / 2 - (m : ℚ)) := by
    rw [add_sub_cancel_left]
    exact lt_irrefl _
  rw [if_neg h1, if_neg h2]
  split_ifs <;> omega

/-! ### Rounding to a double -/

theorem two_zpow_pos (e : ℤ) : (0 : ℚ) < (2 : ℚ) ^ e := zpow_pos (by norm_num) e

theorem two_zpow_log_le {x : ℚ} (hx : 0 < x) : (2 : ℚ) ^ Int.log 2 x ≤ x := by
  have h := Int.zpow_log_le_self (b := 2) (by norm_num) hx
  simpa using h

theorem lt_two_zpow_log_succ (x : ℚ) : x < (2 : ℚ) ^ (Int.log 2 x + 1) := by
  have h := Int.lt_zpow_succ_log_self (b := 2) (by norm_num) x
  simpa using h

theorem ulpExponent_mono {x y : ℚ} (hx : 0 < x) (h : x ≤ y) :
    ulpExponent x ≤ ulpExponent y := by
  unfold ulpExponent
  have := Int.log_mono_right (b := 2) hx h
  omega

theorem lt_two_zpow_ulpExponent (x : ℚ) : x < (2 : ℚ) ^ (ulpExponent x + 53) := by
  refine lt_of_lt_of_le (lt_two_zpow_log_succ x) ?_
  apply zpow_le_zpow_right₀ (by norm_num)
  unfold ulpExponent
  omega

theorem two_zpow_ulpExponent_le {x : ℚ} (hx : 0 < x) (he : -1074 < ulpExponent x) :
    (2 : ℚ) ^ (ulpExponent x + 52) ≤ x := by
  refine le_trans ?_ (two_zpow_log_le hx)
  apply zpow_le_zpow_right₀ (by norm_num)
  unfold ulpExponent at he ⊢
  omega

/-- The rounding of a positive rational, as in the second branch of
`roundToDouble`. -/
theorem roundToDouble_of_nonneg {x : ℚ} (hx : 0 ≤ x) :
    roundToDouble x =
      (roundHalfEven (x / (2 : ℚ) ^ ulpExponent x) : ℚ) * (2 : ℚ) ^ ulpExponent x := by
  unfold roundToDouble
  rw [if_neg (not_lt.mpr hx)]

theorem roundToDouble_of_neg {x : ℚ} (hx : x < 0) :
    roundToDouble x = -roundToDouble (-x) := by
  have h : (0 : ℚ) ≤ -x := by linarith
  rw [roundToDouble_of_nonneg h]
  unfold roundToDouble
  rw [if_pos hx]

theorem roundToDouble_zero : roundToDouble 0 = 0 := by
  rw [roundToDouble_of_nonneg (le_refl 0)]
  simp [roundHalfEven]

theorem roundToDouble_nonneg {x : ℚ} (hx : 0 ≤ x) : 0 ≤ roundToDouble x := by
  rw [roundToDouble_of_nonneg hx]
  apply mul_nonneg _ (two_zpow_pos _).le
  have h0 : (0 : ℚ) ≤ x / (2 : ℚ) ^ ulpExponent x := div_nonneg hx (two_zpow_pos _).le
  have h1 : (0 : ℤ) ≤ ⌊x / (2 : ℚ) ^ ulpExponent x⌋ := Int.floor_nonneg.mpr h0
  have h2 := roundHalfEven_floor_le (x / (2 : ℚ) ^ ulpExponent x)
  exact_mod_cast le_trans h1 h2

theorem roundToDouble_le_top {x : ℚ} (hx : 0 ≤ x) :
    roundToDouble x ≤ (2 : ℚ) ^ (ulpExponent x + 53) := by
  rw [roundToDouble_of_nonneg hx, zpow_add₀ (by norm_num : (2 : ℚ) ≠ 0), mul_comm _ ((2 : ℚ) ^ (53 : ℤ))]
  apply mul_le_mul_of_nonneg_right _ (two_zpow_pos _).le
  have h1 : x / (2 : ℚ) ^ ulpExponent x ≤ (((2 : ℤ) ^ 53 : ℤ) : ℚ) := by
    rw [div_le_iff₀ (two_zpow_pos _)]
    have := lt_two_zpow_ulpExponent x
    rw [zpow_add₀ (by norm_num : (2 : ℚ) ≠ 0), mul_comm] at this
    have h53 : (((2 : ℤ) ^ 53 : ℤ) : ℚ) = (2 : ℚ) ^ (53 : ℤ) := by norm_num
    rw [h53]
    exact this.le
  have h2 := roundHalfEven_mono h1
  rw [roundHalfEven_intCast] at h2
  have h3 : ((roundHalfEven (x / (2 : ℚ) ^ ulpExponent x) : ℤ) : ℚ) ≤ (((2 : ℤ) ^ 53 : ℤ) : ℚ) := by
    exact_mod_cast h2
  refine le_trans h3 ?_
  norm_num

theorem bottom_le_roundToDouble {x : ℚ} (hx : 0 < x) (he : -1074 < ulpExponent x) :
    (2 : ℚ) ^ (ulpExponent x + 52) ≤ roundToDouble x := by
  rw [roundToDouble_of_nonneg hx.le, zpow_add₀ (by norm_num : (2 : ℚ) ≠ 0),
    mul_comm _ ((2 : ℚ) ^ (52 : ℤ))]
  apply mul_le_mul_of_nonneg_right _ (two_zpow_pos _).le
  have h1 : (((2 : ℤ) ^ 52 : ℤ) : ℚ) ≤ x / (2 : ℚ) ^ ulpExponent x := by
    rw [le_div_iff₀ (two_zpow_pos _)]
    have := two_zpow_ulpExponent_le hx he
    rw [zpow_add₀ (by norm_num : (2 : ℚ) ≠ 0), mul_comm] at this
    have h52 : (((2 : ℤ) ^ 52 : ℤ) : ℚ) = (2 : ℚ) ^ (52 : ℤ) := by norm_num
    rw [h52]
    exact this
  have h2 := roundHalfEven_mono h1
  rw [roundHalfEven_intCast] at h2
  have h3 : (((2 : ℤ) ^ 52 : ℤ) : ℚ) ≤ ((roundHalfEven (x / (2 : ℚ) ^ ulpExponent x) : ℤ) : ℚ) := by
    exact_mod_cast h2
  refine le_trans ?_ h3
  norm_num

theorem roundToDouble_mono_pos {x y : ℚ} (hx : 0 < x) (h : x ≤ y) :
    roundToDouble x ≤ roundToDouble y := by
  have hy : 0 < y := lt_of_lt_of_le hx h
  rcases lt_or_eq_of_le (ulpExponent_mono hx h) with hlt | heq
  · have hey : -1074 < ulpExponent y := by
      have : -1074 ≤ ulpExponent x := by unfold ulpExponent; omega
      omega
    refine le_trans (roundToDouble_le_top hx.le) (le_trans ?_ (bottom_le_roundToDouble hy hey))
    apply zpow_le_zpow_right₀ (by norm_num)
    omega
  · rw [roundToDouble_of_nonneg hx.le, roundToDouble_of_nonneg hy.le, heq]
    apply mul_le_mul_of_nonneg_right _ (two_zpow_pos _).le
    have h1 : x / (2 : ℚ) ^ ulpExponent y ≤ y / (2 : ℚ) ^ ulpExponent y :=
      div_le_div_of_nonneg_right h (two_zpow_pos _).le
    exact_mod_cast roundHalfEven_mono h1

theorem roundToDouble_mono {x y : ℚ} (h : x ≤ y) : roundToDouble x ≤ roundToDouble y := by
  rcases lt_trichotomy x 0 with hx | hx | hx
  · rcases lt_trichotomy y 0 with hy | hy | hy
    · rw [roundToDouble_of_neg hx, roundToDouble_of_neg hy]
      have := roundToDouble_mono_pos (by linarith : (0 : ℚ) < -y) (by linarith : -y ≤ -x)
      linarith
    · rw [roundToDouble_of_neg hx, hy, roundToDouble_zero]
      have := roundToDouble_nonneg (by linarith : (0 : ℚ) ≤ -x)
      linarith
    · rw [roundToDouble_of_neg hx]
      have h1 := roundToDouble_nonneg (by linarith : (0 : ℚ) ≤ -x)
      have h2 := roundToDouble_nonneg hy.le
      linarith
  · rw [hx, roundToDouble_zero]
    exact roundToDouble_nonneg (by linarith)
  · exact roundToDouble_mono_pos hx h

theorem roundToDouble_neg (x : ℚ) : roundToDouble (-x) = -roundToDouble x := by
  rcases lt_trichotomy x 0 with hx | hx | hx
  · rw [roundToDouble_of_neg hx, neg_neg]
  · rw [hx, neg_zero, roundToDouble_zero, neg_zero]
  · rw [roundToDouble_of_neg (by linarith : -x < 0), neg_neg]

/-- An integer below `2^53` in absolute value is a double. -/
theorem roundToDouble_intCast (n : ℤ) (h : |n| < 2 ^ 53) : roundToDouble (n : ℚ) = n := by
  have key : ∀ m : ℤ, 0 < m → m < 2 ^ 53 → roundToDouble (m : ℚ) = m := by
    intro m h0 h1
    have hm : (0 : ℚ) < (m : ℚ) := by exact_mod_cast h0
    rw [roundToDouble_of_nonneg hm.le]
    have he : ulpExponent (m : ℚ) ≤ 0 := by
      unfold ulpExponent
      have hlog : Int.log 2 (m : ℚ) < 53 := by
        rw [← Int.lt_zpow_iff_log_lt (by norm_num) hm]
        have : (m : ℚ) < (((2 : ℤ) ^ 53 : ℤ) : ℚ) := by exact_mod_cast h1
        refine lt_of_lt_of_le this ?_
        norm_num
      omega
    obtain ⟨k, hk⟩ : ∃ k : ℕ, ulpExponent (m : ℚ) = -(k : ℤ) :=
      ⟨(-ulpExponent (m : ℚ)).toNat, by omega⟩
    rw [hk, zpow_neg, zpow_natCast]
    have h2 : (m : ℚ) / ((2 : ℚ) ^ k)⁻¹ = ((m * 2 ^ k : ℤ) : ℚ) := by
      rw [div_inv_eq_mul]
      push_cast
      ring
    rw [h2, roundHalfEven_intCast]
    push_cast
    have h3 : ((2 : ℚ) ^ k) ≠ 0 := pow_ne_zero _ (by norm_num)
    field_simp
  rcases lt_trichotomy n 0 with hn | hn | hn
  · have h1 : -n < 2 ^ 53 := by
      have := abs_of_neg hn
      omega
    have h2 := key (-n) (by omega) h1
    have h3 : ((n : ℤ) : ℚ) = -(((-n : ℤ)) : ℚ) := by push_cast; ring
    rw [h3, roundToDouble_neg, h2]
  · rw [hn]
    simpa using roundToDouble_zero
  · have h1 : n < 2 ^ 53 := by
      have := abs_of_pos hn
      omega
    exact key n hn h1

/-- A certificate for the rounding of a positive rational in the normal range:
the exponent `e` of the unit in the last place and the integer `m` nearest to
`x / 2^e`. -/
theorem roundToDouble_eq_of_near (x : ℚ) (m e : ℤ) (he : -1074 ≤ e)
    (hlo : (2 : ℚ) ^ (e + 52) ≤ x) (hhi : x < (2 : ℚ) ^ (e + 53))
    (h1 : ((m : ℚ) - 1 / 2) * (2 : ℚ) ^ e < x) (h2 : x < ((m : ℚ) + 1 / 2) * (2 : ℚ) ^ e) :
    roundToDouble x = (m : ℚ) * (2 : ℚ) ^ e := by
  have hx : 0 < x := lt_of_lt_of_le (two_zpow_pos _) hlo
  have hlog : Int.log 2 x = e + 52 := by
    apply le_antisymm
    · have : Int.log 2 x < e + 53 := by
        rw [← Int.lt_zpow_iff_log_lt (by norm_num) hx]
        simpa using hhi
      omega
    · rw [← Int.zpow_le_iff_le_log (by norm_num) hx]
      simpa using hlo
  have hulp : ulpExponent x = e := by
    unfold ulpExponent
    rw [hlog]
    omega
  rw [roundToDouble_of_nonneg hx.le, hulp]
  congr 1
  have hr : roundHalfEven (x / (2 : ℚ) ^ e) = m := by
    apply roundHalfEven_eq_of_near
    · rw [lt_div_iff₀ (two_zpow_pos _)]
      exact h1
    · rw [div_lt_iff₀ (two_zpow_pos _)]
      exact h2
  rw [hr]

/-- A certificate for the rounding of a positive rational that lies halfway
between two neighbouring doubles: the even one is taken. -/
theorem roundToDouble_eq_of_tie (x : ℚ) (m n e : ℤ) (he : -1074 ≤ e)
    (hlo : (2 : ℚ) ^ (e + 52) ≤ x) (hhi : x < (2 : ℚ) ^ (e + 53))
    (hx : x = ((m : ℚ) + 1 / 2) * (2 : ℚ) ^ e) (hn : n = m ∨ n = m + 1) (heven : n % 2 = 0) :
    roundToDouble x = (n : ℚ) * (2 : ℚ) ^ e := by
  have hpos : 0 < x := lt_of_lt_of_le (two_zpow_pos _) hlo
  have hlog : Int.log 2 x = e + 52 := by
    apply le_antisymm
    · have : Int.log 2 x < e + 53 := by
        rw [← Int.lt_zpow_iff_log_lt (by norm_num) hpos]
        simpa using hhi
      omega
    · rw [← Int.zpow_le_iff_le_log (by norm_num) hpos]
      simpa using hlo
  have hulp : ulpExponent x = e := by
    unfold ulpExponent
    rw [hlog]
    omega
  rw [roundToDouble_of_nonneg hpos.le, hulp]
  congr 1
  have hr : roundHalfEven (x / (2 : ℚ) ^ e) = n := by
    apply roundHalfEven_eq_of_tie _ m n _ hn heven
    rw [hx, mul_div_assoc, div_self (ne_of_gt (two_zpow_pos e)), mul_one]
  rw [hr]

/-! ## Arithmetic on JavaScript numbers -/

theorem ofRat_ne_nan (q : ℚ) : JSNumber.ofRat q ≠ JSNumber.nan := by
  unfold JSNumber.ofRat
  simp only
  split_ifs <;> simp

theorem ofRat_eq_num (q : ℚ) (h1 : roundToDouble q < (2 : ℚ) ^ 1024)
    (h2 : -(2 : ℚ) ^ 1024 < roundToDouble q) :
    JSNumber.ofRat q = JSNumber.num (roundToDouble q) := by
  unfold JSNumber.ofRat
  simp only
  rw [if_neg (not_le.mpr h1), if_neg (not_le.mpr h2)]

theorem ofRat_zero : JSNumber.ofRat 0 = JSNumber.num 0 := by
  rw [ofRat_eq_num 0 (by rw [roundToDouble_zero]; positivity)
    (by rw [roundToDouble_zero]; norm_num), roundToDouble_zero]

theorem ofRat_intCast (n : ℤ) (h : |n| < 2 ^ 53) : JSNumber.ofRat (n : ℚ) = JSNumber.num n := by
  have hr := roundToDouble_intCast n h
  have h1 : ((n : ℤ) : ℚ) < (2 : ℚ) ^ 53 := by
    have : n < 2 ^ 53 := lt_of_le_of_lt (le_abs_self n) h
    exact_mod_cast this
  have h2 : -(2 : ℚ) ^ 53 < ((n : ℤ) : ℚ) := by
    have : -(2 ^ 53) < n := by
      have := neg_abs_le n
      omega
    exact_mod_cast this
  rw [ofRat_eq_num, hr]
  · rw [hr]
    refine lt_trans h1 ?_
    norm_num
  · rw [hr]
    refine lt_trans ?_ h2
    norm_num

theorem ofRat_mono {x y : ℚ} (h : x ≤ y) : (JSNumber.ofRat x).le (JSNumber.ofRat y) = true := by
  have hr := roundToDouble_mono h
  have hpos : (0 : ℚ) < (2 : ℚ) ^ 1024 := by positivity
  unfold JSNumber.ofRat
  simp only
  split_ifs with h1 h2 h3 h4 h5 h6 <;> simp only [JSNumber.le, decide_eq_true_eq] <;>
    first | rfl | linarith

theorem ofRat_nonneg {q : ℚ} (h : 0 ≤ q) :
    JSNumber.ofRat q = JSNumber.posInf ∨ ∃ r : ℚ, 0 ≤ r ∧ JSNumber.ofRat q = JSNumber.num r := by
  have hr := roundToDouble_nonneg h
  have hpos : (0 : ℚ) < (2 : ℚ) ^ 1024 := by positivity
  unfold JSNumber.ofRat
  simp only
  split_ifs with h1 h2
  · exact Or.inl rfl
  · linarith
  · exact Or.inr ⟨_, hr, rfl⟩

/-- A certificate for the double that an operation returns on a positive exact
result in the normal range. -/
theorem ofRat_eq_of_near (x y : ℚ) (m e : ℤ) (hy : y = (m : ℚ) * (2 : ℚ) ^ e) (he : -1074 ≤ e)
    (hlo : (2 : ℚ) ^ (e + 52) ≤ x) (hhi : x < (2 : ℚ) ^ (e + 53))
    (h1 : ((m : ℚ) - 1 / 2) * (2 : ℚ) ^ e < x) (h2 : x < ((m : ℚ) + 1 / 2) * (2 : ℚ) ^ e)
    (htop : y < (2 : ℚ) ^ 1024) : JSNumber.ofRat x = JSNumber.num y := by
  have hr := roundToDouble_eq_of_near x m e he hlo hhi h1 h2
  rw [← hy] at hr
  have hx : 0 < x := lt_of_lt_of_le (two_zpow_pos _) hlo
  have hnn := roundToDouble_nonneg hx.le
  rw [ofRat_eq_num x (by rw [hr]; exact htop) (by
    have : (0 : ℚ) < (2 : ℚ) ^ 1024 := by positivity
    linarith), hr]

/-- A certificate for the double that an operation returns on a positive exact
result halfway between two neighbouring doubles. -/
theorem ofRat_eq_of_tie (x y : ℚ) (m n e : ℤ) (hy : y = (n : ℚ) * (2 : ℚ) ^ e) (he : -1074 ≤ e)
    (hlo : (2 : ℚ) ^ (e + 52) ≤ x) (hhi : x < (2 : ℚ) ^ (e + 53))
    (hx : x = ((m : ℚ) + 1 / 2) * (2 : ℚ) ^ e) (hn : n = m ∨ n = m + 1) (heven : n % 2 = 0)
    (htop : y < (2 : ℚ) ^ 1024) : JSNumber.ofRat x = JSNumber.num y := by
  have hr := roundToDouble_eq_of_tie x m n e he hlo hhi hx hn heven
  rw [← hy] at hr
  have hpos : 0 < x := lt_of_lt_of_le (two_zpow_pos _) hlo
  have hnn := roundToDouble_nonneg hpos.le
  rw [ofRat_eq_num x (by rw [hr]; exact htop) (by
    have : (0 : ℚ) < (2 : ℚ) ^ 1024 := by positivity
    linarith), hr]

theorem le_trans_js {a b c : JSNumber} (h1 : a.le b = true) (h2 : b.le c = true) :
    a.le c = true := by
  cases a <;> cases b <;> cases c <;> simp_all [JSNumber.le]
  exact le_trans h1 h2

theorem le_of_ne_nan_negInf {b : JSNumber} (h : b ≠ JSNumber.nan) :
    JSNumber.negInf.le b = true := by
  cases b <;> simp_all [JSNumber.le]

theorem le_posInf_of_ne_nan {a : JSNumber} (h : a ≠ JSNumber.nan) :
    a.le JSNumber.posInf = true := by
  cases a <;> simp_all [JSNumber.le]

theorem mul_num_mono {a b : JSNumber} {k : ℚ} (hk : 0 < k) (h : a.le b = true) :
    (a.mul (JSNumber.num k)).le (b.mul (JSNumber.num k)) = true := by
  have hk0 : k ≠ 0 := ne_of_gt hk
  have hkn : ¬ k < 0 := not_lt.mpr hk.le
  cases a <;> cases b <;> simp [JSNumber.le] at h <;>
    simp only [JSNumber.mul, JSNumber.isNeg, JSNumber.infinity, hk0, hkn, JSNumber.num.injEq,
      or_false, false_or, reduceCtorEq, if_false, decide_False, decide_True, bne_self_eq_false,
      Bool.true_bne, Bool.false_bne, Bool.not_false, Bool.not_true, if_true, Bool.false_eq_true]
  all_goals first
    | rfl
    | exact le_of_ne_nan_negInf (ofRat_ne_nan _)
    | exact le_posInf_of_ne_nan (ofRat_ne_nan _)
    | exact ofRat_mono (mul_le_mul_of_nonneg_right h hk.le)

theorem div_num_mono {a b : JSNumber} {g : ℚ} (hg : 0 < g) (h : a.le b = true) :
    (a.div (JSNumber.num g)).le (b.div (JSNumber.num g)) = true := by
  have hg0 : g ≠ 0 := ne_of_gt hg
  have hgn : ¬ g < 0 := not_lt.mpr hg.le
  cases a <;> cases b <;> simp [JSNumber.le] at h <;>
    simp only [JSNumber.div, JSNumber.isNeg, JSNumber.infinity, hg0, hgn, JSNumber.num.injEq,
      or_false, false_or, reduceCtorEq, if_false, decide_False, decide_True, bne_self_eq_false,
      Bool.true_bne, Bool.false_bne, Bool.not_false, Bool.not_true, if_true, Bool.false_eq_true]
  all_goals first
    | rfl
    | exact le_of_ne_nan_negInf (ofRat_ne_nan _)
    | exact le_posInf_of_ne_nan (ofRat_ne_nan _)
    | exact ofRat_mono (div_le_div_of_nonneg_right h hg.le)

theorem intensity_of_le {a b : JSNumber} {g : ℚ} (hg : 0 < g) (h : a.le b = true) :
    ((a.mul (JSNumber.num 1000)).div (JSNumber.num g)).le
      ((b.mul (JSNumber.num 1000)).div (JSNumber.num g)) = true :=
  div_num_mono hg (mul_num_mono (by norm_num) h)

theorem intensity_zero {g : ℚ} (hg : 0 < g) :
    ((JSNumber.num 0).mul (JSNumber.num 1000)).div (JSNumber.num g) = JSNumber.num 0 := by
  have hg0 : g ≠ 0 := ne_of_gt hg
  simp only [JSNumber.mul, zero_mul, ofRat_zero, JSNumber.div, if_neg hg0, zero_div]

theorem posInf_mul_pos {k : ℚ} (hk : 0 < k) :
    JSNumber.posInf.mul (JSNumber.num k) = JSNumber.posInf := by
  have h1 : k ≠ 0 := ne_of_gt hk
  have h2 : ¬ k < 0 := not_lt.mpr hk.le
  simp [JSNumber.mul, JSNumber.isNeg, JSNumber.infinity, h1, h2]

theorem posInf_div_pos {g : ℚ} (hg : 0 < g) :
    JSNumber.posInf.div (JSNumber.num g) = JSNumber.posInf := by
  have h2 : ¬ g < 0 := not_lt.mpr hg.le
  simp [JSNumber.div, JSNumber.isNeg, JSNumber.infinity, h2]

theorem nan_le (x : JSNumber) : JSNumber.nan.le x = false := by
  cases x <;> rfl

theorem div_num_num (a b : ℚ) (hb : b ≠ 0) :
    (JSNumber.num a).div (JSNumber.num b) = JSNumber.ofRat (a / b) := by
  simp only [JSNumber.div, if_neg hb]

theorem mul_num_num (a b : ℚ) :
    (JSNumber.num a).mul (JSNumber.num b) = JSNumber.ofRat (a * b) := rfl

theorem sub_num_num (a b : ℚ) :
    (JSNumber.num a).sub (JSNumber.num b) = JSNumber.ofRat (a + -b) := rfl

theorem ofRat_of_eq_int (x y : ℚ) (n : ℤ) (hx : x = (n : ℚ)) (hy : y = (n : ℚ))
    (h : |n| < 2 ^ 53) : JSNumber.ofRat x = JSNumber.num y := by
  rw [hx, hy]
  exact ofRat_intCast n h

theorem le_false_of_gt {x : JSNumber} {t : ℚ} (h : x.gt (JSNumber.num t) = true) :
    x.le (JSNumber.num t) = false := by
  cases x with
  | nan => rfl
  | negInf => simp [JSNumber.gt] at h
  | posInf => rfl
  | num q =>
    have h1 : t < q := by simpa [JSNumber.gt] using h
    simp [JSNumber.le, h1]

/-! ## Auxiliary facts about the simulation -/

theorem maximum_le_coe_iff (xs : List ℚ) (t : ℚ) :
    xs.maximum ≤ ((t : ℚ) : WithBot ℚ) ↔ ∀ x ∈ xs, x ≤ t := by
  constructor
  · intro h x hx
    have h1 : ((x : ℚ) : WithBot ℚ) ≤ xs.maximum := List.le_maximum_of_mem' hx
    exact WithBot.coe_le_coe.mp (le_trans h1 h)
  · intro h
    induction xs with
    | nil => simp
    | cons a as ih =>
      rw [List.maximum_cons]
      apply max_le
      · exact WithBot.coe_le_coe.mpr (h a (List.mem_cons_self a as))
      · exact ih (fun x hx => h x (List.mem_cons_of_mem a hx))

theorem sum_le_length_mul (xs : List ℚ) (t : ℚ) (h : ∀ x ∈ xs, x ≤ t) :
    xs.sum ≤ (xs.length : ℚ) * t := by
  induction xs with
  | nil => simp
  | cons a as ih =>
    have h1 := h a (List.mem_cons_self a as)
    have h2 := ih (fun x hx => h x (List.mem_cons_of_mem a hx))
    simp only [List.sum_cons, List.length_cons, Nat.cast_succ]
    linarith

theorem avg_le_of_forall_le (xs : List ℚ) (t : ℚ) (h : ∀ x ∈ xs, x ≤ t) (hne : xs ≠ []) :
    xs.sum / (xs.length : ℚ) ≤ t := by
  have hpos : (0 : ℚ) < (xs.length : ℚ) := by
    have : 0 < xs.length := List.length_pos.mpr hne
    exact_mod_cast this
  rw [div_le_iff₀ hpos]
  have := sum_le_length_mul xs t h
  linarith

/-! ## Auxiliary facts about ingestion -/

theorem cleanRow_eq (row : RawRow) (index : ℕ) :
    ∃ rec, cleanRow row index = some rec ∧ rec._originalRow = row ∧ rec._rowIndex = index ∧
      rec.Generation_MW = cleanNumber (row.get "Generation_MW".toList) ∧
      rec.Gas_Consumption_m3 = cleanNumber (row.get "Gas_Consumption_m3".toList) ∧
      rec.CO2_Emissions_tonns = cleanNumber (row.get "CO2_Emissions_tonns".toList) ∧
      rec.Carbon_Intensity_kgCO2_MWh =
        (if rec.Generation_MW.gt (JSNumber.num 0) then
          (rec.CO2_Emissions_tonns.mul (JSNumber.num 1000)).div rec.Generation_MW
        else JSNumber.num 0) :=
  ⟨_, rfl, rfl, rfl, rfl, rfl, rfl, rfl⟩

theorem filterMap_cleanRow_originalRow (l : List (ℕ × RawRow)) :
    ((l.map (fun p => cleanRow p.2 p.1)).filterMap id).map (fun rec => rec._originalRow) =
      l.map (fun p => p.2) := by
  induction l with
  | nil => rfl
  | cons a as ih =>
    simp only [List.map_cons, List.filterMap_cons, cleanRow, id] at ih ⊢
    rw [ih]

theorem cleanAndProcessData_originalRow (rawData : List RawRow) :
    (cleanAndProcessData rawData).map (fun rec => rec._originalRow) = rawData := by
  unfold cleanAndProcessData
  rw [filterMap_cleanRow_originalRow]
  exact List.enum_map_snd rawData

theorem cleanAndProcessData_length (rawData : List RawRow) :
    (cleanAndProcessData rawData).length = rawData.length := by
  have h := congrArg List.length (cleanAndProcessData_originalRow rawData)
  simpa using h

theorem mem_cleanAndProcessData (rawData : List RawRow) (rec : CleanedRow)
    (h : rec ∈ cleanAndProcessData rawData) :
    rec._originalRow ∈ rawData ∧ cleanRow rec._originalRow rec._rowIndex = some rec := by
  unfold cleanAndProcessData at h
  rw [List.mem_filterMap] at h
  obtain ⟨o, ho, hid⟩ := h
  rw [List.mem_map] at ho
  obtain ⟨p, hp, rfl⟩ := ho
  simp only [id] at hid
  have hrow : p.2 ∈ rawData := by
    have := List.mem_map_of_mem (fun q : ℕ × RawRow => q.2) hp
    rwa [List.enum_map_snd] at this
  simp only [cleanRow, Option.some.injEq] at hid
  subst hid
  exact ⟨hrow, rfl⟩

theorem filterMap_map_getElem? {α β : Type} (f : α → Option β) (hf : ∀ a, ∃ b, f a = some b)
    (l : List α) (i : ℕ) : ((l.map f).filterMap id)[i]? = l[i]?.bind f := by
  induction l generalizing i with
  | nil => simp
  | cons a as ih =>
    obtain ⟨b, hb⟩ := hf a
    simp only [List.map_cons, List.filterMap_cons, id, hb]
    cases i with
    | zero => simp [hb]
    | succ n => simpa using ih n

theorem cleanAndProcessData_getElem? (rawData : List RawRow) (i : ℕ) (row : RawRow)
    (h : rawData[i]? = some row) : (cleanAndProcessData rawData)[i]? = cleanRow row i := by
  unfold cleanAndProcessData
  rw [filterMap_map_getElem? (fun p : ℕ × RawRow => cleanRow p.2 p.1) (fun p => ⟨_, rfl⟩)]
  rw [List.getElem?_enum, h]
  rfl

/-! ## Claims about ingestion -/

/-- C4: the record produced for a raw row has its carbon intensity computed
from that row's own cleaned cells: it is `CO2 * 1000 / Generation` when the
cleaned generation is greater than zero and exactly `0` otherwise, in particular
whenever the cleaned generation is `0`; the division is only evaluated with a
non-zero divisor. -/
theorem cleanAndProcessData_carbon_intensity (rawData : List RawRow) (i : ℕ) (row : RawRow)
    (h : rawData[i]? = some row) :
    ∃ rec, (cleanAndProcessData rawData)[i]? = some rec ∧
      rec.Generation_MW = cleanNumber (row.get "Generation_MW".toList) ∧
      rec.CO2_Emissions_tonns = cleanNumber (row.get "CO2_Emissions_tonns".toList) ∧
      (rec.Generation_MW.gt (JSNumber.num 0) = true →
        rec.Generation_MW ≠ JSNumber.num 0 ∧
        rec.Carbon_Intensity_kgCO2_MWh =
          (rec.CO2_Emissions_tonns.mul (JSNumber.num 1000)).div rec.Generation_MW) ∧
      (rec.Generation_MW.gt (JSNumber.num 0) = false →
        rec.Carbon_Intensity_kgCO2_MWh = JSNumber.num 0) ∧
      (rec.Generation_MW = JSNumber.num 0 → rec.Carbon_Intensity_kgCO2_MWh = JSNumber.num 0) := by
  obtain ⟨rec, hrec, _, _, hgen, _, hco2, hci⟩ := cleanRow_eq row i
  refine ⟨rec, ?_, hgen, hco2, ?_, ?_, ?_⟩
  · rw [cleanAndProcessData_getElem? rawData i row h, hrec]
  · intro hgt
    refine ⟨?_, ?_⟩
    · intro hz
      rw [hz] at hgt
      simp [JSNumber.gt] at hgt
    · rw [hci, if_pos hgt]
  · intro hgt
    rw [hci, hgt]
    rfl
  · intro hz
    rw [hci, hz]
    simp [JSNumber.gt]

/-- Witness for C4: the first record of a one-row upload. -/
theorem cleanAndProcessData_carbon_intensity_witness :
    ∃ rec, (cleanAndProcessData [exRawRow])[0]? = some rec ∧
      rec.Generation_MW = cleanNumber (exRawRow.get "Generation_MW".toList) ∧
      rec.CO2_Emissions_tonns = cleanNumber (exRawRow.get "CO2_Emissions_tonns".toList) ∧
      (rec.Generation_MW.gt (JSNumber.num 0) = true →
        rec.Generation_MW ≠ JSNumber.num 0 ∧
        rec.Carbon_Intensity_kgCO2_MWh =
          (rec.CO2_Emissions_tonns.mul (JSNumber.num 1000)).div rec.Generation_MW) ∧
      (rec.Generation_MW.gt (JSNumber.num 0) = false →
        rec.Carbon_Intensity_kgCO2_MWh = JSNumber.num 0) ∧
      (rec.Generation_MW = JSNumber.num 0 → rec.Carbon_Intensity_kgCO2_MWh = JSNumber.num 0) :=
  cleanAndProcessData_carbon_intensity [exRawRow] 0 exRawRow rfl

/-- C8: cleaning never drops a row and never fails on a numeric field: the
cleaned list has one record per raw row, in order, and each of the three numeric
fields whose cell is absent, empty, or not readable by `parseFloat` is `0`. -/
theorem cleanAndProcessData_numeric_default (rawData : List RawRow) (i : ℕ) (row : RawRow)
    (h : rawData[i]? = some row) :
    (cleanAndProcessData rawData).length = rawData.length ∧
    ∃ rec, (cleanAndProcessData rawData)[i]? = some rec ∧ rec._originalRow = row ∧
      (∀ cell : Option JSString,
        cell = none ∨ cell = some [] ∨ parseFloat (numericText cell) = JSNumber.nan →
        (row.get "Generation_MW".toList = cell → rec.Generation_MW = JSNumber.num 0) ∧
        (row.get "Gas_Consumption_m3".toList = cell → rec.Gas_Consumption_m3 = JSNumber.num 0) ∧
        (row.get "CO2_Emissions_tonns".toList = cell →
          rec.CO2_Emissions_tonns = JSNumber.num 0)) := by
  have hclean : ∀ cell : Option JSString,
      cell = none ∨ cell = some [] ∨ parseFloat (numericText cell) = JSNumber.nan →
      cleanNumber cell = JSNumber.num 0 := by
    intro cell hc
    rcases hc with rfl | rfl | hc
    · simp [cleanNumber, numericText, orDefault, replaceFirst, parseFloat, takeSign,
        isWhiteSpace, digitsValue, exponentOf, JSNumber.orZero, JSNumber.toBoolean, ofRat_zero]
    · simp [cleanNumber, numericText, orDefault, replaceFirst, parseFloat, takeSign,
        isWhiteSpace, digitsValue, exponentOf, JSNumber.orZero, JSNumber.toBoolean, ofRat_zero]
    · rw [cleanNumber, hc]
      rfl
  obtain ⟨rec, hrec, horig, _, hgen, hgas, hco2, _⟩ := cleanRow_eq row i
  refine ⟨cleanAndProcessData_length rawData, rec, ?_, horig, ?_⟩
  · rw [cleanAndProcessData_getElem? rawData i row h, hrec]
  · intro cell hc
    refine ⟨?_, ?_, ?_⟩
    · intro hcell
      rw [hgen, hcell]
      exact hclean cell hc
    · intro hcell
      rw [hgas, hcell]
      exact hclean cell hc
    · intro hcell
      rw [hco2, hcell]
      exact hclean cell hc

/-- Witness for C8: a row with an empty gas cell and an unreadable emissions
cell is emitted with both fields `0`. -/
theorem cleanAndProcessData_numeric_default_witness :
    ∃ rec, (cleanAndProcessData [exRawRow])[0]? = some rec ∧
      rec.Gas_Consumption_m3 = JSNumber.num 0 ∧ rec.CO2_Emissions_tonns = JSNumber.num 0 :=
  have h := (cleanAndProcessData_numeric_default [exRawRow] 0 exRawRow rfl).2
  h.elim (fun rec hr =>
    ⟨rec, hr.1, (hr.2.2 (some []) (Or.inr (Or.inl rfl))).2.1 rfl,
      (hr.2.2 (some "n/a".toList) (Or.inr (Or.inr (by decide)))).2.2 rfl⟩)


theorem missingColumns_eq (columns : List JSString) :
    missingColumns columns = expectedColumns.filter
      (fun e => decide (∀ c ∈ columns, normalizeColumn c ≠ normalizeColumn e)) := by
  unfold missingColumns
  apply List.filter_congr
  intro e _
  simp only [List.any_map, Function.comp]
  rw [Bool.eq_iff_iff]
  simp

theorem validateColumns_eq (columns : List JSString) :
    validateColumns columns =
      if missingColumns columns = [] then ValidationResult.valid
      else ValidationResult.invalid
        ("Missing required columns: ".toList ++ join ", ".toList (missingColumns columns) ++
          ". Expected columns: ".toList ++ join ", ".toList expectedColumns ++
          ". Found columns: ".toList ++ join ", ".toList columns) := by
  unfold validateColumns
  by_cases h : missingColumns columns = []
  · simp [h]
  · have : (missingColumns columns).length > 0 := List.length_pos.mpr h
    simp [h, this]

/-- C5: validation fails exactly when some expected column has no source
column with the same canonical form; the error then lists the missing expected
columns (all of them, in expected order), the full expected list and the
columns found; when every expected column but `Year` is matched, the missing
list is `[Year]`. -/
theorem validateColumns_missing (columns : List JSString) :
    (validateColumns columns ≠ ValidationResult.valid ↔
      ∃ e ∈ expectedColumns, ∀ c ∈ columns, normalizeColumn c ≠ normalizeColumn e) ∧
    (validateColumns columns ≠ ValidationResult.valid →
      validateColumns columns = ValidationResult.invalid
        ("Missing required columns: ".toList ++
          join ", ".toList (expectedColumns.filter
            (fun e => decide (∀ c ∈ columns, normalizeColumn c ≠ normalizeColumn e))) ++
          ". Expected columns: ".toList ++ join ", ".toList expectedColumns ++
          ". Found columns: ".toList ++ join ", ".toList columns)) ∧
    ((∀ e ∈ expectedColumns, e ≠ "Year".toList →
        ∃ c ∈ columns, normalizeColumn c = normalizeColumn e) →
      (∀ c ∈ columns, normalizeColumn c ≠ normalizeColumn "Year".toList) →
      expectedColumns.filter
          (fun e => decide (∀ c ∈ columns, normalizeColumn c ≠ normalizeColumn e)) =
        ["Year".toList] ∧
      validateColumns columns = ValidationResult.invalid
        ("Missing required columns: Year. Expected columns: Month, Year, Generation_MW, Gas_Consumption_m3, CO2_Emissions_tonns. Found columns: ".toList
          ++ join ", ".toList columns)) := by
  have hmiss := missingColumns_eq columns
  have hval := validateColumns_eq columns
  refine ⟨?_, ?_, ?_⟩
  · rw [hval]
    by_cases h : missingColumns columns = []
    · rw [if_pos h]
      simp only [ne_eq, not_true_eq_false, false_iff, not_exists, not_and]
      intro e he hall
      have : e ∈ missingColumns columns := by
        rw [hmiss, List.mem_filter]
        exact ⟨he, by simpa using hall⟩
      rw [h] at this
      exact absurd this (List.not_mem_nil e)
    · rw [if_neg h]
      simp only [ne_eq, reduceCtorEq, not_false_eq_true, true_iff]
      obtain ⟨e, he⟩ := List.exists_mem_of_ne_nil _ h
      rw [hmiss, List.mem_filter] at he
      exact ⟨e, he.1, by simpa using he.2⟩
  · intro hne
    rw [hval] at hne ⊢
    by_cases h : missingColumns columns = []
    · rw [if_pos h] at hne
      exact absurd rfl hne
    · rw [if_neg h, hmiss]
  · intro hpres hyear
    have hM := hpres "Month".toList (by decide) (by decide)
    have hG := hpres "Generation_MW".toList (by decide) (by decide)
    have hC := hpres "Gas_Consumption_m3".toList (by decide) (by decide)
    have hE := hpres "CO2_Emissions_tonns".toList (by decide) (by decide)
    have hfilter : expectedColumns.filter
        (fun e => decide (∀ c ∈ columns, normalizeColumn c ≠ normalizeColumn e)) =
        ["Year".toList] := by
      have d1 : decide (∀ c ∈ columns, normalizeColumn c ≠ normalizeColumn "Month".toList)
          = false := by
        rw [decide_eq_false_iff_not]; push_neg; exact hM
      have d2 : decide (∀ c ∈ columns, normalizeColumn c ≠ normalizeColumn "Year".toList)
          = true := by
        rw [decide_eq_true_iff]; exact hyear
      have d3 : decide (∀ c ∈ columns, normalizeColumn c ≠
          normalizeColumn "Generation_MW".toList) = false := by
        rw [decide_eq_false_iff_not]; push_neg; exact hG
      have d4 : decide (∀ c ∈ columns, normalizeColumn c ≠
          normalizeColumn "Gas_Consumption_m3".toList) = false := by
        rw [decide_eq_false_iff_not]; push_neg; exact hC
      have d5 : decide (∀ c ∈ columns, normalizeColumn c ≠
          normalizeColumn "CO2_Emissions_tonns".toList) = false := by
        rw [decide_eq_false_iff_not]; push_neg; exact hE
      simp only [expectedColumns, List.filter_cons, List.filter_nil, d1, d2, d3, d4, d5]
      rfl
    refine ⟨hfilter, ?_⟩
    rw [hval, hmiss, hfilter, if_neg (by decide)]
    have : join ", ".toList expectedColumns =
      "Month, Year, Generation_MW, Gas_Consumption_m3, CO2_Emissions_tonns".toList := by decide
    rw [this]
    simp [join]

/-- Witness for C5: a header without `Year`. -/
theorem validateColumns_missing_witness :
    validateColumns ["Month".toList, "Generation_MW".toList, "Gas_Consumption_m3".toList,
      "CO2_Emissions_tonns".toList] = ValidationResult.invalid
        ("Missing required columns: Year. Expected columns: Month, Year, Generation_MW, Gas_Consumption_m3, CO2_Emissions_tonns. Found columns: Month, Generation_MW, Gas_Consumption_m3, CO2_Emissions_tonns".toList) :=
  ((validateColumns_missing ["Month".toList, "Generation_MW".toList,
    "Gas_Consumption_m3".toList, "CO2_Emissions_tonns".toList]).2.2 (by decide) (by decide)).2

theorem normalizeColumn_eq_map (col : JSString) :
    normalizeColumn col =
      (trim col).map (fun c => if isSeparator c then '_' else toLowerChar c) := by
  unfold normalizeColumn toLowerCase
  rw [List.map_map]
  apply List.map_congr_left
  intro c _
  by_cases h : isSeparator c = true
  · simp only [Function.comp, h, if_true]
    decide
  · simp only [Function.comp, h]
    rfl

theorem map_eq_of_sameColumnName (xs ys : JSString) (h : sameColumnName xs ys = true) :
    xs.map (fun c => if isSeparator c then '_' else toLowerChar c) =
      ys.map (fun c => if isSeparator c then '_' else toLowerChar c) := by
  induction xs generalizing ys with
  | nil =>
    cases ys with
    | nil => rfl
    | cons b bs => simp [sameColumnName] at h
  | cons a as ih =>
    cases ys with
    | nil => simp [sameColumnName] at h
    | cons b bs =>
      simp only [sameColumnName, Bool.and_eq_true] at h
      simp only [List.map_cons, List.cons.injEq]
      refine ⟨?_, ih bs h.2⟩
      have h1 := h.1
      simp only [sameColumnChar, Bool.or_eq_true, Bool.and_eq_true, Bool.not_eq_true',
        decide_eq_true_eq] at h1
      rcases h1 with ⟨ha, hb⟩ | ⟨⟨ha, hb⟩, hab⟩
      · simp [ha, hb]
      · simp [ha, hb, hab]

theorem trim_expected : ∀ e ∈ expectedColumns, trim e = e := by decide

theorem missingColumns_nil_of_all (columns : List JSString)
    (h : ∀ e ∈ expectedColumns, ∃ c ∈ columns, normalizeColumn c = normalizeColumn e) :
    missingColumns columns = [] := by
  rw [missingColumns_eq, List.filter_eq_nil_iff]
  intro e he
  obtain ⟨c, hc, hce⟩ := h e he
  simp only [decide_eq_true_eq]
  intro hall
  exact hall c hc hce

/-- C6 (counterexample): a header that differs from the expected one only by a
run of two spaces, or by the run ` - `, in place of the underscore of
`Generation_MW` is rejected, because each character of the run yields its own
underscore. -/
theorem validateColumns_run_rejected :
    normalizeColumn "Generation  MW".toList = "generation__mw".toList ∧
    normalizeColumn "Generation - MW".toList = "generation___mw".toList ∧
    normalizeColumn "Generation_MW".toList = "generation_mw".toList ∧
    validateColumns ["Month".toList, "Year".toList, "Generation  MW".toList,
      "Gas_Consumption_m3".toList, "CO2_Emissions_tonns".toList] ≠ ValidationResult.valid ∧
    validateColumns ["Month".toList, "Year".toList, "Generation - MW".toList,
      "Gas_Consumption_m3".toList, "CO2_Emissions_tonns".toList] ≠ ValidationResult.valid := by
  decide

/-- C6 (amended): canonicalization trims the name, replaces every single
white-space, hyphen or underscore character by one underscore (so the length of
the trimmed name is kept and runs are not collapsed) and lowercases the letters
`A`-`Z`; validation succeeds for every header in which each expected name is
matched, after trimming, character for character up to letter case and up to
the choice of separator character. -/
theorem validateColumns_separator_insensitive (columns : List JSString)
    (h : ∀ e ∈ expectedColumns, ∃ c ∈ columns, sameColumnName (trim c) e = true) :
    validateColumns columns = ValidationResult.valid ∧
    (∀ col : JSString, normalizeColumn col =
      (trim col).map (fun c => if isSeparator c then '_' else toLowerChar c)) ∧
    (∀ col : JSString, (normalizeColumn col).length = (trim col).length) := by
  refine ⟨?_, normalizeColumn_eq_map, ?_⟩
  · rw [validateColumns_eq, if_pos]
    apply missingColumns_nil_of_all
    intro e he
    obtain ⟨c, hc, hce⟩ := h e he
    refine ⟨c, hc, ?_⟩
    rw [normalizeColumn_eq_map, normalizeColumn_eq_map, trim_expected e he]
    exact map_eq_of_sameColumnName _ _ hce
  · intro col
    rw [normalizeColumn_eq_map, List.length_map]

/-- Witness for C6 (amended): single separator characters and letter case may
differ from the expected names. -/
theorem validateColumns_separator_insensitive_witness :
    validateColumns ["month".toList, "YEAR".toList, " Generation MW".toList,
      "gas-consumption-m3".toList, "CO2 Emissions_tonns ".toList] = ValidationResult.valid :=
  (validateColumns_separator_insensitive _ (by decide)).1

theorem digit_props (c : Char) (h : c.isDigit = true) :
    c ≠ ',' ∧ c ≠ '.' ∧ c ≠ '-' ∧ c ≠ '+' ∧ c ≠ 'I' ∧ isWhiteSpace c = false := by
  refine ⟨?_, ?_, ?_, ?_, ?_, ?_⟩
  · rintro rfl; exact absurd h (by decide)
  · rintro rfl; exact absurd h (by decide)
  · rintro rfl; exact absurd h (by decide)
  · rintro rfl; exact absurd h (by decide)
  · rintro rfl; exact absurd h (by decide)
  · have h1 : 48 ≤ c.toNat ∧ c.toNat ≤ 57 := by
      simp only [Char.isDigit, Bool.and_eq_true, decide_eq_true_eq] at h
      exact ⟨h.1, h.2⟩
    simp only [isWhiteSpace, Bool.or_eq_false_iff, decide_eq_false_iff_not, Bool.and_eq_false_iff]
    omega

theorem replaceFirst_digits (ip rest : JSString) (hip : ∀ c ∈ ip, c.isDigit = true) :
    replaceFirst ',' '.' (ip ++ ',' :: rest) = ip ++ '.' :: rest := by
  induction ip with
  | nil => simp [replaceFirst]
  | cons a as ih =>
    have ha := (digit_props a (hip a (List.mem_cons_self a as))).1
    have ih2 := ih (fun c hc => hip c (List.mem_cons_of_mem a hc))
    rw [List.cons_append, replaceFirst, if_neg ha, ih2]
    rfl

theorem takeWhile_digits_append (ds rest : JSString) (hds : ∀ c ∈ ds, c.isDigit = true)
    (hrest : rest.head?.all (fun c => !c.isDigit) = true) :
    (ds ++ rest).takeWhile Char.isDigit = ds ∧ (ds ++ rest).dropWhile Char.isDigit = rest := by
  induction ds with
  | nil =>
    cases rest with
    | nil => simp
    | cons b bs =>
      have hb : b.isDigit = false := by simpa using hrest
      simp [List.takeWhile, List.dropWhile, hb]
  | cons a as ih =>
    have ha : a.isDigit = true := hds a (List.mem_cons_self a as)
    obtain ⟨h1, h2⟩ := ih (fun c hc => hds c (List.mem_cons_of_mem a hc))
    simp [List.takeWhile, List.dropWhile, ha, h1, h2]

theorem digitsValue_foldl (ds : JSString) (acc : ℕ) :
    ds.foldl (fun acc c => 10 * acc + (c.toNat - 48)) acc =
      acc * 10 ^ ds.length + digitsValue ds := by
  induction ds generalizing acc with
  | nil => simp [digitsValue]
  | cons a as ih =>
    unfold digitsValue
    simp only [List.foldl_cons, List.length_cons]
    rw [ih, ih (10 * 0 + (a.toNat - 48))]
    ring

theorem digitsValue_append (xs ys : JSString) :
    digitsValue (xs ++ ys) = digitsValue xs * 10 ^ ys.length + digitsValue ys := by
  unfold digitsValue
  rw [List.foldl_append, digitsValue_foldl]
  rfl

theorem takeSign_plain (c : Char) (t : JSString) (hm : c ≠ '-') (hp : c ≠ '+') :
    takeSign (c :: t) = (false, c :: t) := by
  unfold takeSign
  split
  · rename_i heq
    simp only [List.cons.injEq] at heq
    exact absurd heq.1 hm
  · rename_i heq
    simp only [List.cons.injEq] at heq
    exact absurd heq.1 hp
  · rfl

theorem head_plain (c : Char) (t : JSString) (hws : isWhiteSpace c = false) (hI : c ≠ 'I') :
    (c :: t).dropWhile isWhiteSpace = c :: t ∧
      "Infinity".toList.isPrefixOf (c :: t) = false := by
  refine ⟨by simp [List.dropWhile, hws], ?_⟩
  have : "Infinity".toList = 'I' :: "nfinity".toList := by decide
  rw [this]
  simp [List.isPrefixOf, Ne.symm hI]

theorem parseFloat_plain (s : JSString) (hd : s.dropWhile isWhiteSpace = s)
    (hs : takeSign s = (false, s)) (hi : "Infinity".toList.isPrefixOf s = false)
    (ip fp : JSString) (hip : s.takeWhile Char.isDigit = ip)
    (hrest : s.dropWhile Char.isDigit = '.' :: fp)
    (hfp : fp.takeWhile Char.isDigit = fp) (hfp2 : fp.dropWhile Char.isDigit = [])
    (hne : ip ≠ [] ∨ fp ≠ []) :
    parseFloat s =
      JSNumber.ofRat ((digitsValue (ip ++ fp) : ℚ) / (10 : ℚ) ^ fp.length) := by
  have hcond : ¬ (ip = [] ∧ fp = []) := by
    rintro ⟨h1, h2⟩
    rcases hne with h | h
    · exact h h1
    · exact h h2
  simp only [parseFloat, hd, hs, hi, hip, hrest, hfp, hfp2, exponentOf, hcond, if_false,
    Bool.false_eq_true, zpow_zero, mul_one]

theorem parseFloat_decimal (ip fp : JSString) (hip : ∀ c ∈ ip, c.isDigit = true)
    (hfp : ∀ c ∈ fp, c.isDigit = true) (hne : ip ≠ [] ∨ fp ≠ []) :
    parseFloat (ip ++ '.' :: fp) =
      JSNumber.ofRat ((digitsValue ip : ℚ) + (digitsValue fp : ℚ) / (10 : ℚ) ^ fp.length) := by
  have hsplit := takeWhile_digits_append ip ('.' :: fp) hip (by rfl)
  have hfrac := takeWhile_digits_append fp [] hfp (by rfl)
  rw [List.append_nil] at hfrac
  have hhead : ∃ c t, ip ++ '.' :: fp = c :: t ∧ isWhiteSpace c = false ∧ c ≠ 'I' ∧
      c ≠ '-' ∧ c ≠ '+' := by
    cases ip with
    | nil => exact ⟨'.', fp, rfl, by decide, by decide, by decide, by decide⟩
    | cons a as =>
      have ha := digit_props a (hip a (List.mem_cons_self a as))
      exact ⟨a, as ++ '.' :: fp, rfl, ha.2.2.2.2.2, ha.2.2.2.2.1, ha.2.2.1, ha.2.2.2.1⟩
  obtain ⟨c, t, hct, hws, hI, hm, hp⟩ := hhead
  have h1 := head_plain c t hws hI
  have h2 := takeSign_plain c t hm hp
  rw [← hct] at h1 h2
  rw [parseFloat_plain _ h1.1 h2 h1.2 ip fp hsplit.1 hsplit.2 hfrac.1 hfrac.2 hne,
    digitsValue_append]
  congr 1
  have h10 : ((10 : ℚ) ^ fp.length) ≠ 0 := pow_ne_zero _ (by norm_num)
  push_cast
  field_simp

theorem orZero_num (q : ℚ) : (JSNumber.num q).orZero = JSNumber.num q := by
  unfold JSNumber.orZero JSNumber.toBoolean
  by_cases h : q = 0
  · simp [h]
  · simp [h]

theorem orZero_ofRat (q : ℚ) : (JSNumber.ofRat q).orZero = JSNumber.ofRat q := by
  unfold JSNumber.ofRat
  simp only
  split_ifs
  · rfl
  · rfl
  · exact orZero_num _

/-- C7: a numeric cell whose characters, white space apart, are decimal digits
with one comma between the integer and the fractional digits (at least one
digit in all) is cleaned to the number read with the comma as decimal point,
as the double nearest to it; this is the value stored in each of the three
numeric fields. -/
theorem cleanNumber_decimal_comma (cell ip fp : JSString) (hip : ∀ c ∈ ip, c.isDigit = true)
    (hfp : ∀ c ∈ fp, c.isDigit = true) (hne : ip ≠ [] ∨ fp ≠ [])
    (hcell : cell.filter (fun c => !isWhiteSpace c) = ip ++ ',' :: fp) :
    cleanNumber (some cell) =
        JSNumber.ofRat ((digitsValue ip : ℚ) + (digitsValue fp : ℚ) / (10 : ℚ) ^ fp.length) ∧
    ∀ (rawData : List RawRow) (i : ℕ) (row : RawRow), rawData[i]? = some row →
      ∃ rec, (cleanAndProcessData rawData)[i]? = some rec ∧
        (row.get "Generation_MW".toList = some cell →
          rec.Generation_MW = cleanNumber (some cell)) ∧
        (row.get "Gas_Consumption_m3".toList = some cell →
          rec.Gas_Consumption_m3 = cleanNumber (some cell)) ∧
        (row.get "CO2_Emissions_tonns".toList = some cell →
          rec.CO2_Emissions_tonns = cleanNumber (some cell)) := by
  constructor
  · have hcne : cell ≠ [] := by
      rintro rfl
      simp at hcell
    have hor : orDefault (some cell) "0".toList = cell := by
      cases cell with
      | nil => exact absurd rfl hcne
      | cons a as => rfl
    rw [cleanNumber, numericText, hor, hcell, replaceFirst_digits ip fp hip,
      parseFloat_decimal ip fp hip hfp hne, orZero_ofRat]
  · intro rawData i row h
    obtain ⟨rec, hrec, _, _, hgen, hgas, hco2, _⟩ := cleanRow_eq row i
    refine ⟨rec, ?_, ?_, ?_, ?_⟩
    · rw [cleanAndProcessData_getElem? rawData i row h, hrec]
    · intro hc; rw [hgen, hc]
    · intro hc; rw [hgas, hc]
    · intro hc; rw [hco2, hc]

/-- Witness for C7: `1250,5` is cleaned to 1250.5, also with white space, a tab
and a newline in between. -/
theorem cleanNumber_decimal_comma_witness :
    cleanNumber (some "1250,5".toList) = JSNumber.num (1250.5 : ℚ) ∧
      cleanNumber (some " 1 250,\t5\n".toList) = JSNumber.num (1250.5 : ℚ) :=
  ⟨by
    have h := (cleanNumber_decimal_comma "1250,5".toList "1250".toList "5".toList
      (by decide) (by decide) (by decide) (by decide)).1
    have d1 : digitsValue "1250".toList = 1250 := by decide
    have d2 : digitsValue "5".toList = 5 := by decide
    have d3 : "5".toList.length = 1 := by decide
    rw [h, d1, d2, d3]
    exact ofRat_eq_of_near _ _ 5499757162135552 (-42) (by norm_num) (by norm_num)
      (by norm_num) (by norm_num) (by norm_num) (by norm_num) (by norm_num),
   by
    have h := (cleanNumber_decimal_comma " 1 250,\t5\n".toList "1250".toList "5".toList
      (by decide) (by decide) (by decide) (by decide)).1
    have d1 : digitsValue "1250".toList = 1250 := by decide
    have d2 : digitsValue "5".toList = 5 := by decide
    have d3 : "5".toList.length = 1 := by decide
    rw [h, d1, d2, d3]
    exact ofRat_eq_of_near _ _ 5499757162135552 (-42) (by norm_num) (by norm_num)
      (by norm_num) (by norm_num) (by norm_num) (by norm_num) (by norm_num)⟩

theorem takeSign_fst (s : JSString) (h : s.head? ≠ some '-') : (takeSign s).1 = false := by
  unfold takeSign
  split
  · simp at h
  · rfl
  · rfl

theorem numericText_dropWhile (cell : Option JSString) :
    (numericText cell).dropWhile isWhiteSpace = numericText cell := by
  unfold numericText
  generalize hl : (orDefault cell "0".toList).filter (fun c => !isWhiteSpace c) = l
  cases l with
  | nil => rfl
  | cons a as =>
    have ha : a ∈ (orDefault cell "0".toList).filter (fun c => !isWhiteSpace c) := by
      rw [hl]
      exact List.mem_cons_self a as
    have hws : isWhiteSpace a = false := by
      have := (List.mem_filter.mp ha).2
      simpa using this
    unfold replaceFirst
    by_cases hc : a = ','
    · rw [if_pos hc]
      rfl
    · rw [if_neg hc]
      simp [List.dropWhile, hws]

theorem parseFloat_nonneg (s : JSString)
    (h : (takeSign (s.dropWhile isWhiteSpace)).1 = false) :
    parseFloat s = JSNumber.nan ∨ parseFloat s = JSNumber.posInf ∨
      ∃ q : ℚ, 0 ≤ q ∧ parseFloat s = JSNumber.num q := by
  rcases hts : takeSign (s.dropWhile isWhiteSpace) with ⟨neg, body⟩
  rw [hts] at h
  simp only at h
  subst h
  simp only [parseFloat, hts, Bool.false_eq_true, if_false]
  split_ifs with h1 h2
  · exact Or.inr (Or.inl rfl)
  · exact Or.inl rfl
  · have key : ∀ v : ℚ, 0 ≤ v → (JSNumber.ofRat v = JSNumber.nan ∨
        JSNumber.ofRat v = JSNumber.posInf ∨
        ∃ q : ℚ, 0 ≤ q ∧ JSNumber.ofRat v = JSNumber.num q) := by
      intro v hv
      rcases ofRat_nonneg hv with h | ⟨r, hr, h⟩
      · exact Or.inr (Or.inl h)
      · exact Or.inr (Or.inr ⟨r, hr, h⟩)
    apply key
    apply mul_nonneg
    · apply div_nonneg
      · exact Nat.cast_nonneg _
      · positivity
    · exact zpow_nonneg (by norm_num) _

theorem cleanNumber_nonneg (cell : Option JSString)
    (h : (numericText cell).head? ≠ some '-') :
    cleanNumber cell = JSNumber.posInf ∨ ∃ q : ℚ, 0 ≤ q ∧ cleanNumber cell = JSNumber.num q := by
  have hs : (takeSign ((numericText cell).dropWhile isWhiteSpace)).1 = false := by
    rw [numericText_dropWhile]
    exact takeSign_fst _ h
  unfold cleanNumber
  rcases parseFloat_nonneg _ hs with h1 | h1 | ⟨q, hq, h1⟩
  · right
    exact ⟨0, le_refl 0, by rw [h1]; rfl⟩
  · left
    rw [h1]; rfl
  · right
    exact ⟨q, hq, by rw [h1, orZero_num]⟩

theorem zero_le_of_nonneg (x : JSNumber)
    (h : x = JSNumber.posInf ∨ ∃ q : ℚ, 0 ≤ q ∧ x = JSNumber.num q) :
    (JSNumber.num 0).le x = true := by
  rcases h with rfl | ⟨q, hq, rfl⟩
  · rfl
  · simp [JSNumber.le, hq]

theorem nonneg_of_zero_le (x : JSNumber) (h : (JSNumber.num 0).le x = true) :
    x = JSNumber.posInf ∨ ∃ q : ℚ, 0 ≤ q ∧ x = JSNumber.num q := by
  cases x with
  | nan => simp [JSNumber.le] at h
  | negInf => simp [JSNumber.le] at h
  | num q => exact Or.inr ⟨q, by simpa [JSNumber.le] using h, rfl⟩
  | posInf => exact Or.inl rfl

theorem intensity_nonneg (gen co2 : JSNumber) (hco2 : (JSNumber.num 0).le co2 = true)
    (hinf : gen ≠ JSNumber.posInf) :
    (JSNumber.num 0).le
      (if gen.gt (JSNumber.num 0) then (co2.mul (JSNumber.num 1000)).div gen
        else JSNumber.num 0) = true := by
  by_cases hg : gen.gt (JSNumber.num 0) = true
  · rw [if_pos hg]
    cases gen with
    | nan => simp [JSNumber.gt] at hg
    | negInf => simp [JSNumber.gt] at hg
    | posInf => exact absurd rfl hinf
    | num g =>
      have hgpos : 0 < g := by simpa [JSNumber.gt] using hg
      have h := intensity_of_le hgpos hco2
      rwa [intensity_zero hgpos] at h
  · rw [if_neg hg]
    simp [JSNumber.le]

/-- C9 (counterexample): a row whose emissions cell is `-5` and whose
generation cell is `10` is stored with emissions `-5` and carbon intensity
`-500`, both below zero. -/
theorem cleanAndProcessData_negative_field :
    ∃ rec, (cleanAndProcessData [negRawRow])[0]? = some rec ∧
      rec.CO2_Emissions_tonns = JSNumber.num (-5) ∧
      rec.Carbon_Intensity_kgCO2_MWh = JSNumber.num (-500) ∧
      (JSNumber.num 0).le rec.CO2_Emissions_tonns = false ∧
      (JSNumber.num 0).le rec.Carbon_Intensity_kgCO2_MWh = false := by
  obtain ⟨rec, hrec, _, _, hgen, _, hco2, hci⟩ := cleanRow_eq negRawRow 0
  have e10 : JSNumber.ofRat 10 = JSNumber.num 10 :=
    ofRat_of_eq_int _ _ 10 (by norm_num) (by norm_num) (by norm_num)
  have e5 : JSNumber.ofRat (-5) = JSNumber.num (-5) :=
    ofRat_of_eq_int _ _ (-5) (by norm_num) (by norm_num) (by norm_num)
  have hg : cleanNumber (negRawRow.get "Generation_MW".toList) = JSNumber.num 10 := by
    simp [cleanNumber, numericText, negRawRow, RawRow.get, List.lookup, orDefault, replaceFirst,
      parseFloat, takeSign, isWhiteSpace, digitsValue, exponentOf, JSNumber.orZero,
      JSNumber.toBoolean, e10]
  have hc : cleanNumber (negRawRow.get "CO2_Emissions_tonns".toList) = JSNumber.num (-5) := by
    simp [cleanNumber, numericText, negRawRow, RawRow.get, List.lookup, orDefault, replaceFirst,
      parseFloat, takeSign, isWhiteSpace, digitsValue, exponentOf, JSNumber.orZero,
      JSNumber.toBoolean, e5]
  rw [hg] at hgen
  rw [hc] at hco2
  have hci2 : rec.Carbon_Intensity_kgCO2_MWh = JSNumber.num (-500) := by
    have hgt : (JSNumber.num 10).gt (JSNumber.num 0) = true := by simp [JSNumber.gt]
    have h1 : JSNumber.ofRat (-5 * 1000) = JSNumber.num (-5000) :=
      ofRat_of_eq_int _ _ (-5000) (by norm_num) (by norm_num) (by norm_num)
    have h2 : JSNumber.ofRat (-5000 / 10) = JSNumber.num (-500) :=
      ofRat_of_eq_int _ _ (-500) (by norm_num) (by norm_num) (by norm_num)
    rw [hci, hgen, hco2, if_pos hgt, mul_num_num, h1,
      div_num_num _ _ (by norm_num : (10 : ℚ) ≠ 0), h2]
  refine ⟨rec, ?_, hco2, hci2, ?_, ?_⟩
  · rw [cleanAndProcessData_getElem? [negRawRow] 0 negRawRow rfl, hrec]
  · rw [hco2]
    simp [JSNumber.le]
  · rw [hci2]
    simp [JSNumber.le]

/-- C9 (amended): each of the three numeric fields is non-negative whenever
the text of its cell, white space removed, does not begin with a minus sign;
the carbon intensity is non-negative whenever the cleaned emissions are
non-negative and the cleaned generation is not `Infinity` (with an infinite
generation the quotient is `NaN` as soon as the emissions, or their product
with 1000, are infinite). -/
theorem cleanAndProcessData_nonneg (rawData : List RawRow) (i : ℕ) (row : RawRow)
    (h : rawData[i]? = some row) :
    ∃ rec, (cleanAndProcessData rawData)[i]? = some rec ∧
      ((numericText (row.get "Generation_MW".toList)).head? ≠ some '-' →
        (JSNumber.num 0).le rec.Generation_MW = true) ∧
      ((numericText (row.get "Gas_Consumption_m3".toList)).head? ≠ some '-' →
        (JSNumber.num 0).le rec.Gas_Consumption_m3 = true) ∧
      ((numericText (row.get "CO2_Emissions_tonns".toList)).head? ≠ some '-' →
        (JSNumber.num 0).le rec.CO2_Emissions_tonns = true) ∧
      ((JSNumber.num 0).le rec.CO2_Emissions_tonns = true →
        rec.Generation_MW ≠ JSNumber.posInf →
        (JSNumber.num 0).le rec.Carbon_Intensity_kgCO2_MWh = true) := by
  obtain ⟨rec, hrec, _, _, hgen, hgas, hco2, hci⟩ := cleanRow_eq row i
  refine ⟨rec, ?_, ?_, ?_, ?_, ?_⟩
  · rw [cleanAndProcessData_getElem? rawData i row h, hrec]
  · intro hh
    rw [hgen]
    exact zero_le_of_nonneg _ (cleanNumber_nonneg _ hh)
  · intro hh
    rw [hgas]
    exact zero_le_of_nonneg _ (cleanNumber_nonneg _ hh)
  · intro hh
    rw [hco2]
    exact zero_le_of_nonneg _ (cleanNumber_nonneg _ hh)
  · intro h1 h2
    rw [hci]
    exact intensity_nonneg _ _ h1 h2

/-- Witness for C9 (amended): a row without minus signs. -/
theorem cleanAndProcessData_nonneg_witness :
    ∃ rec, (cleanAndProcessData [exRawRow])[0]? = some rec ∧
      (JSNumber.num 0).le rec.Generation_MW = true ∧
      (JSNumber.num 0).le rec.Gas_Consumption_m3 = true ∧
      (JSNumber.num 0).le rec.CO2_Emissions_tonns = true :=
  (cleanAndProcessData_nonneg [exRawRow] 0 exRawRow rfl).elim (fun rec hr =>
    ⟨rec, hr.1, hr.2.1 (by decide), hr.2.2.1 (by decide), hr.2.2.2.1 (by decide)⟩)

/-! ## Auxiliary facts about the upload handler -/

theorem parseConfigs_length : parseConfigs.length = 4 := rfl

theorem tryParse_advance (papa : ParseConfig → PapaOutcome) (file : File) (config : ParseConfig)
    (idx : ℕ) (hidx : idx < 3) (hfail : attemptFails (papa config)) :
    tryParse papa file config idx =
      Event.papaParse config :: tryParse papa file (configAt (idx + 1)) (idx + 1) := by
  have hlt : idx < parseConfigs.length - 1 := by
    rw [parseConfigs_length]
    omega
  rw [tryParse]
  cases hp : papa config with
  | complete results =>
    rw [hp] at hfail
    simp only [attemptFails] at hfail
    simp only [hfail, if_false, hlt, if_true]
  | error message =>
    simp only [hlt, if_true]

theorem tryParse_last_error (papa : ParseConfig → PapaOutcome) (file : File)
    (config : ParseConfig) (idx : ℕ) (hidx : 3 ≤ idx) (message : JSString)
    (hp : papa config = PapaOutcome.error message) :
    tryParse papa file config idx =
      [Event.papaParse config,
        Event.alert ("Error reading CSV file: ".toList ++ message ++
          ". Please try a different file or check the file format.".toList)] := by
  have hlt : ¬ idx < parseConfigs.length - 1 := by
    rw [parseConfigs_length]
    omega
  rw [tryParse, hp]
  simp only [hlt, if_false]

theorem tryParse_last_nodata (papa : ParseConfig → PapaOutcome) (file : File)
    (config : ParseConfig) (idx : ℕ) (hidx : 3 ≤ idx) (results : ParseResults)
    (hp : papa config = PapaOutcome.complete results)
    (hfail : attemptFails (PapaOutcome.complete results)) :
    tryParse papa file config idx =
      Event.papaParse config :: Event.manualParsing :: tryManualParsing file := by
  have hlt : ¬ idx < parseConfigs.length - 1 := by
    rw [parseConfigs_length]
    omega
  simp only [attemptFails] at hfail
  rw [tryParse, hp]
  simp only [hfail, hlt, if_false]

theorem tryParse_accept (papa : ParseConfig → PapaOutcome) (file : File)
    (config : ParseConfig) (idx : ℕ) (results : ParseResults)
    (hp : papa config = PapaOutcome.complete results)
    (hlive : (liveRows results.data).length > 0)
    (hcols : (detectColumns results (liveRows results.data)).length > 0) :
    tryParse papa file config idx =
      Event.papaParse config ::
        (match validateColumns (detectColumns results (liveRows results.data)) with
        | ValidationResult.invalid error => [Event.alert error]
        | ValidationResult.valid =>
          [Event.onDataUpload (uploadOf file (liveRows results.data))]) := by
  rw [tryParse, hp]
  simp only [hlive, hcols, and_self, if_true]

theorem tryParse_prefix (papa : ParseConfig → PapaOutcome) (file : File) (k : ℕ) (hk : k < 4)
    (hprev : ∀ j < k, attemptFails (papa (configAt j))) :
    tryParse papa file (configAt 0) 0 =
      (List.range k).map (fun j => Event.papaParse (configAt j)) ++
        tryParse papa file (configAt k) k := by
  induction k with
  | zero => simp
  | succ n ih =>
    have h1 := ih (by omega) (fun j hj => hprev j (by omega))
    rw [h1, tryParse_advance papa file (configAt n) n (by omega) (hprev n (by omega)),
      List.range_succ, List.map_append]
    simp

theorem handleFileUpload_accepted (papa : ParseConfig → PapaOutcome) (file : File)
    (hfile : file.type = "text/csv".toList ∨ ".csv".toList.isSuffixOf file.name = true) :
    handleFileUpload papa (some file) = tryParse papa file (configAt 0) 0 := by
  have hcond : ¬ (file.type ≠ "text/csv".toList ∧ ¬ (".csv".toList.isSuffixOf file.name = true)) := by
    rintro ⟨h1, h2⟩
    rcases hfile with h | h
    · exact h1 h
    · exact h2 h
  simp only [handleFileUpload, hcond, if_false]

theorem tryParse_upload (papa : ParseConfig → PapaOutcome) (file : File) (d : Dataset)
    (config : ParseConfig) (idx : ℕ)
    (h : Event.onDataUpload d ∈ tryParse papa file config idx) :
    (∃ config results, papa config = PapaOutcome.complete results ∧
        (liveRows results.data).length > 0 ∧
        validateColumns (detectColumns results (liveRows results.data)) = ValidationResult.valid ∧
        d = uploadOf file (liveRows results.data)) ∨
      (Event.onDataUpload d ∈ tryManualParsing file) := by
  induction config, idx using tryParse.induct papa file with
  | case1 config idx ih =>
    rw [tryParse] at h
    simp only [List.mem_cons, reduceCtorEq, false_or] at h
    cases hp : papa config with
    | complete results =>
      rw [hp] at h
      simp only at h
      by_cases hacc : (liveRows results.data).length > 0 ∧
          (detectColumns results (liveRows results.data)).length > 0
      · rw [if_pos hacc] at h
        cases hv : validateColumns (detectColumns results (liveRows results.data)) with
        | valid =>
          rw [hv] at h
          simp only [List.mem_singleton, Event.onDataUpload.injEq] at h
          exact Or.inl ⟨config, results, hp, hacc.1, hv, h⟩
        | invalid error =>
          rw [hv] at h
          simp at h
      · rw [if_neg hacc] at h
        by_cases hlt : idx < parseConfigs.length - 1
        · rw [if_pos hlt] at h
          exact ih hlt h
        · rw [if_neg hlt] at h
          simp only [List.mem_cons, reduceCtorEq, false_or] at h
          exact Or.inr h
    | error message =>
      rw [hp] at h
      simp only at h
      by_cases hlt : idx < parseConfigs.length - 1
      · rw [if_pos hlt] at h
        exact ih hlt h
      · rw [if_neg hlt] at h
        simp at h

theorem tryManualParsing_upload (file : File) (d : Dataset)
    (h : Event.onDataUpload d ∈ tryManualParsing file) :
    d = uploadOf file (manualRows (manualLines file.text)) := by
  unfold tryManualParsing at h
  simp only at h
  split_ifs at h with hlen
  · simp at h
  · cases hv : validateColumns (List.map trim (splitOn ';' ((manualLines file.text).headD [])))
      with
    | valid =>
      rw [hv] at h
      simpa using h
    | invalid error =>
      rw [hv] at h
      simp at h

theorem uploadOf_shape (file : File) (live : List RawRow) :
    (uploadOf file live).columns = expectedColumns ++ ["Carbon_Intensity_kgCO2_MWh".toList] ∧
      (uploadOf file live).data = cleanAndProcessData live ∧
      (uploadOf file live).rowCount = (uploadOf file live).data.length ∧
      (uploadOf file live).data.map (fun rec => rec._originalRow) = live ∧
      (uploadOf file live).data.length = live.length :=
  ⟨rfl, rfl, rfl, cleanAndProcessData_originalRow live, cleanAndProcessData_length live⟩

/-! ## Further facts about the simulation -/

theorem calculateSimulation_some (data : List Row) (b : ℤ) (hne : data ≠ []) :
    ∃ out, calculateSimulation data b = some out ∧
      out.newData = data.map (simulateRow b) ∧
      out.complianceData.averageCarbonIntensity =
        (out.newData.map (fun s => s.Carbon_Intensity_kgCO2_MWh)).sum /
          (out.newData.length : ℚ) ∧
      out.complianceData.maxCarbonIntensity =
        (out.newData.map (fun s => s.Carbon_Intensity_kgCO2_MWh)).maximum ∧
      out.complianceData.complianceRate =
        ((out.newData.filter
          (fun s => decide (s.Carbon_Intensity_kgCO2_MWh ≤ 350))).length : ℚ) /
            (out.newData.length : ℚ) * 100 ∧
      out.complianceData.isCompliant =
        (decide (out.complianceData.averageCarbonIntensity ≤ 350) &&
          decide (out.complianceData.maxCarbonIntensity ≤ ((350 : ℚ) : WithBot ℚ))) ∧
      out.complianceData.minBlendForCompliance = findMinBlendForCompliance data := by
  have hlen : data.length ≠ 0 := fun h => hne (List.length_eq_zero.mp h)
  refine ⟨_, by simp only [calculateSimulation, hlen, if_false]; rfl, rfl, rfl, rfl, rfl, rfl, rfl⟩

/-! ## Further claims about the simulation -/

/-- C11 (counterexample): for two records with intensities 300 and 400 the
simulated average at blend 0 is exactly 350, yet `isCompliant` is false, because
the maximum 400 exceeds the threshold. -/
theorem average_boundary_not_compliant :
    ∃ out, calculateSimulation meanBoundaryRows 0 = some out ∧
      out.complianceData.averageCarbonIntensity = 350 ∧
      out.complianceData.maxCarbonIntensity = ((400 : ℚ) : WithBot ℚ) ∧
      out.complianceData.isCompliant = false := by
  obtain ⟨out, hout, hnew, havg, hmax, _, hflag, _⟩ :=
    calculateSimulation_some meanBoundaryRows 0 (by simp [meanBoundaryRows])
  have hci : out.newData.map (fun s => s.Carbon_Intensity_kgCO2_MWh) = [300, 400] := by
    rw [hnew]
    simp only [meanBoundaryRows, List.map_cons, List.map_nil, simulateRow]
    norm_num
  have hlen : out.newData.length = 2 := by
    rw [hnew]
    rfl
  have havg2 : out.complianceData.averageCarbonIntensity = 350 := by
    rw [havg, hci, hlen]
    norm_num
  have hmax2 : out.complianceData.maxCarbonIntensity = ((400 : ℚ) : WithBot ℚ) := by
    rw [hmax, hci, List.maximum_cons, List.maximum_cons, List.maximum_nil]
    simp only [max_bot_right]
    rw [← WithBot.coe_max]
    norm_num
  refine ⟨out, hout, havg2, hmax2, ?_⟩
  rw [hflag, hmax2, Bool.and_eq_false_iff]
  right
  rw [decide_eq_false_iff_not, WithBot.coe_le_coe]
  norm_num

/-- C11 (amended): when the simulated average intensity is exactly 350 and the
maximum intensity does not exceed 350, `isCompliant` is true: both comparisons
with the threshold are inclusive. -/
theorem average_boundary_compliant (data : List Row) (b : ℤ) (out : SimulationOutput)
    (hout : calculateSimulation data b = some out)
    (havg : out.complianceData.averageCarbonIntensity = 350)
    (hmax : out.complianceData.maxCarbonIntensity ≤ ((350 : ℚ) : WithBot ℚ)) :
    out.complianceData.isCompliant = true := by
  have hne : data ≠ [] := by
    rintro rfl
    simp [calculateSimulation] at hout
  obtain ⟨out2, hout2, _, _, _, _, hflag, _⟩ := calculateSimulation_some data b hne
  rw [hout] at hout2
  cases Option.some.inj hout2
  rw [hflag, Bool.and_eq_true, decide_eq_true_eq, decide_eq_true_eq]
  exact ⟨le_of_eq havg, hmax⟩

/-- Witness for C11 (amended): one record of intensity exactly 350, at blend 0. -/
theorem average_boundary_compliant_witness :
    ∃ out, calculateSimulation [boundaryRow] 0 = some out ∧
      out.complianceData.averageCarbonIntensity = 350 ∧
      out.complianceData.isCompliant = true := by
  obtain ⟨out, hout, hnew, havg, hmax, _, _, _⟩ :=
    calculateSimulation_some [boundaryRow] 0 (by simp)
  have hci : out.newData.map (fun s => s.Carbon_Intensity_kgCO2_MWh) = [350] := by
    rw [hnew]
    simp only [boundaryRow, List.map_cons, List.map_nil, simulateRow]
    norm_num
  have hlen : out.newData.length = 1 := by
    rw [hnew]
    rfl
  have havg2 : out.complianceData.averageCarbonIntensity = 350 := by
    rw [havg, hci, hlen]
    norm_num
  have hmax2 : out.complianceData.maxCarbonIntensity ≤ ((350 : ℚ) : WithBot ℚ) := by
    rw [hmax, hci, List.maximum_cons, List.maximum_nil]
    simp
  exact ⟨out, hout, havg2, average_boundary_compliant [boundaryRow] 0 out hout havg2 hmax2⟩

/-- C12: the classifier of `calculateCompliance` assigns one band per rate with
inclusive lower bounds: `Fully Compliant` from 100, `Mostly Compliant` on
`[80,100)`, `At Risk` on `[50,80)` and `Non-Compliant` below 50; rate 80 is
`Mostly Compliant` and rate 50 is `At Risk`; the status text reported for a
record list is the band of its compliance rate. -/
theorem statusBand_bands (rate : ℚ) :
    (100 ≤ rate → (statusBand rate).2.2 = "Fully Compliant".toList) ∧
    (80 ≤ rate → rate < 100 → (statusBand rate).2.2 = "Mostly Compliant".toList) ∧
    (50 ≤ rate → rate < 80 → (statusBand rate).2.2 = "At Risk".toList) ∧
    (rate < 50 → (statusBand rate).2.2 = "Non-Compliant".toList) ∧
    (statusBand 80).2.2 = "Mostly Compliant".toList ∧
    (statusBand 50).2.2 = "At Risk".toList ∧
    (∀ data : List Row,
      (calculateCompliance data).statusText =
        (statusBand (calculateCompliance data).complianceRate).2.2) := by
  refine ⟨?_, ?_, ?_, ?_, ?_, ?_, fun _ => rfl⟩
  · intro h
    unfold statusBand
    rw [if_neg (by linarith), if_neg (by linarith), if_neg (by linarith)]
  · intro h1 h2
    unfold statusBand
    rw [if_neg (by linarith), if_neg (by linarith), if_pos h2]
  · intro h1 h2
    unfold statusBand
    rw [if_neg (by linarith), if_pos h2]
  · intro h
    unfold statusBand
    rw [if_pos h]
  · unfold statusBand
    rw [if_neg (by norm_num), if_neg (by norm_num), if_pos (by norm_num)]
  · unfold statusBand
    rw [if_neg (by norm_num), if_pos (by norm_num)]

/-- C13: for a non-empty record list the result of `calculateSimulation` has
`averageCarbonIntensity` equal to the unweighted mean of the simulated
intensities, `maxCarbonIntensity` equal to their maximum (attained by a record
and not exceeded by any), `complianceRate` equal to 100 times the fraction of
records whose simulated intensity is at most 350, hence within `[0,100]`, and
`isCompliant` true exactly when both the average and the maximum are at most
350. -/
theorem calculateSimulation_metrics (data : List Row) (b : ℤ) (hne : data ≠ []) :
    ∃ out, calculateSimulation data b = some out ∧
      out.newData.map (fun s => s.Carbon_Intensity_kgCO2_MWh) = data.map (testIntensity b) ∧
      out.complianceData.averageCarbonIntensity =
        (data.map (testIntensity b)).sum / (data.length : ℚ) ∧
      out.complianceData.maxCarbonIntensity = (data.map (testIntensity b)).maximum ∧
      (∃ m ∈ data.map (testIntensity b),
        out.complianceData.maxCarbonIntensity = ((m : ℚ) : WithBot ℚ) ∧
          ∀ x ∈ data.map (testIntensity b), x ≤ m) ∧
      out.complianceData.complianceRate =
        ((data.filter (fun r => decide (testIntensity b r ≤ 350))).length : ℚ) /
          (data.length : ℚ) * 100 ∧
      0 ≤ out.complianceData.complianceRate ∧ out.complianceData.complianceRate ≤ 100 ∧
      (out.complianceData.isCompliant = true ↔
        out.complianceData.averageCarbonIntensity ≤ 350 ∧
          out.complianceData.maxCarbonIntensity ≤ ((350 : ℚ) : WithBot ℚ)) := by
  obtain ⟨out, hout, hnew, havg, hmax, hrate, hflag, _⟩ := calculateSimulation_some data b hne
  have hci : out.newData.map (fun s => s.Carbon_Intensity_kgCO2_MWh) =
      data.map (testIntensity b) := by
    rw [hnew, List.map_map]
    rfl
  have hlen : out.newData.length = data.length := by
    rw [hnew, List.length_map]
  have hpos : (0 : ℚ) < (data.length : ℚ) := by
    have : 0 < data.length := List.length_pos.mpr hne
    exact_mod_cast this
  have hfilter : (out.newData.filter
      (fun s => decide (s.Carbon_Intensity_kgCO2_MWh ≤ 350))).length =
      (data.filter (fun r => decide (testIntensity b r ≤ 350))).length := by
    rw [hnew, List.filter_map, List.length_map]
    rfl
  have hrate2 : out.complianceData.complianceRate =
      ((data.filter (fun r => decide (testIntensity b r ≤ 350))).length : ℚ) /
        (data.length : ℚ) * 100 := by
    rw [hrate, hfilter, hlen]
  have hcount : ((data.filter (fun r => decide (testIntensity b r ≤ 350))).length : ℚ) ≤
      (data.length : ℚ) := by
    exact_mod_cast List.length_filter_le _ data
  have hmaxmem : ∃ m ∈ data.map (testIntensity b),
      (data.map (testIntensity b)).maximum = ((m : ℚ) : WithBot ℚ) := by
    have hne2 : data.map (testIntensity b) ≠ [] := by simpa using hne
    cases hm : (data.map (testIntensity b)).maximum with
    | bot => exact absurd (List.maximum_eq_bot.mp hm) hne2
    | coe m => exact ⟨m, List.maximum_mem hm, rfl⟩
  refine ⟨out, hout, hci, ?_, ?_, ?_, hrate2, ?_, ?_, ?_⟩
  · rw [havg, hci, hlen]
  · rw [hmax, hci]
  · obtain ⟨m, hm, hmeq⟩ := hmaxmem
    refine ⟨m, hm, ?_, ?_⟩
    · rw [hmax, hci, hmeq]
    · intro x hx
      have := List.le_maximum_of_mem' hx
      rw [hmeq] at this
      exact WithBot.coe_le_coe.mp this
  · rw [hrate2]
    positivity
  · rw [hrate2]
    have : ((data.filter (fun r => decide (testIntensity b r ≤ 350))).length : ℚ) /
        (data.length : ℚ) ≤ 1 := by
      rw [div_le_one hpos]
      exact hcount
    linarith
  · rw [hflag, Bool.and_eq_true, decide_eq_true_eq, decide_eq_true_eq]

/-- Witness for C13 at the one-record list of the worked scenario, blend 13. -/
theorem calculateSimulation_metrics_witness :
    ∃ out, calculateSimulation [exRow] 13 = some out ∧
      out.complianceData.averageCarbonIntensity =
        ([exRow].map (testIntensity 13)).sum / (([exRow].length : ℕ) : ℚ) ∧
      0 ≤ out.complianceData.complianceRate ∧ out.complianceData.complianceRate ≤ 100 :=
  (calculateSimulation_metrics [exRow] 13 (by simp)).elim (fun out h =>
    ⟨out, h.1, h.2.2.1, h.2.2.2.2.2.2.1, h.2.2.2.2.2.2.2.1⟩)

/-- C14: for a non-empty record list the simulation produces a result with
exactly one simulated record per input record, in the same order; the record at
each position keeps `Month`, `Year`, `Generation_MW` and `Gas_Consumption_m3`
of its input, has `CO2_Emissions_tonns = co2 * (1 - b/100)` and the intensity
recomputed from it, `Original_Emissions` equal to the input emissions and
`Emissions_Reduction = Original_Emissions - CO2_Emissions_tonns`. -/
theorem calculateSimulation_frame (data : List Row) (b : ℤ) (hne : data ≠ []) :
    ∃ out, calculateSimulation data b = some out ∧
      out.newData.length = data.length ∧
      ∀ (i : ℕ) (r : Row), data[i]? = some r →
        ∃ s, out.newData[i]? = some s ∧
          s.Month = r.Month ∧ s.Year = r.Year ∧ s.Generation_MW = r.Generation_MW ∧
          s.Gas_Consumption_m3 = r.Gas_Consumption_m3 ∧
          s.CO2_Emissions_tonns = r.CO2_Emissions_tonns * (1 - (b : ℚ) / 100) ∧
          s.Carbon_Intensity_kgCO2_MWh =
            (if r.Generation_MW > 0 then s.CO2_Emissions_tonns * 1000 / r.Generation_MW
              else 0) ∧
          s.Original_Emissions = r.CO2_Emissions_tonns ∧
          s.Emissions_Reduction = s.Original_Emissions - s.CO2_Emissions_tonns := by
  obtain ⟨out, hout, hnew, _⟩ := calculateSimulation_some data b hne
  refine ⟨out, hout, by rw [hnew, List.length_map], ?_⟩
  intro i r hr
  refine ⟨simulateRow b r, ?_, rfl, rfl, rfl, rfl, rfl, rfl, rfl, rfl⟩
  rw [hnew, List.getElem?_map, hr]
  rfl

/-- Witness for C14 at the one-record list of the worked scenario, blend 13. -/
theorem calculateSimulation_frame_witness :
    ∃ out, calculateSimulation [exRow] 13 = some out ∧ out.newData.length = 1 :=
  (calculateSimulation_frame [exRow] 13 (by simp)).elim (fun out h => ⟨out, h.1, h.2.1⟩)

/-- C15 (counterexample): at blend 150, outside `[0,100]`, the simulation of the
scenario record does not fail: it produces a result whose simulated emissions
are `400 * (1 - 150/100) = -200`. -/
theorem calculateSimulation_out_of_range :
    ∃ out, calculateSimulation [exRow] 150 = some out ∧
      out.newData.map (fun s => s.CO2_Emissions_tonns) = [-200] := by
  obtain ⟨out, hout, hnew, _⟩ := calculateSimulation_some [exRow] 150 (by simp)
  refine ⟨out, hout, ?_⟩
  rw [hnew]
  simp only [exRow, List.map_cons, List.map_nil, simulateRow]
  norm_num

/-- C15 (amended): for a blend outside `[0,100]` the simulation neither fails
nor clamps: on a non-empty record list it produces the simulated records and
the compliance data by the same formulas, every simulated emission being
`co2 * (1 - b/100)` for the blend as given. -/
theorem calculateSimulation_unchecked_blend (data : List Row) (b : ℤ) (hne : data ≠ [])
    (_hb : b < 0 ∨ 100 < b) :
    ∃ out, calculateSimulation data b = some out ∧
      out.newData = data.map (simulateRow b) ∧
      (∀ (i : ℕ) (r : Row), data[i]? = some r →
        ∃ s : SimulatedRow, out.newData[i]? = some s ∧
          s.CO2_Emissions_tonns = r.CO2_Emissions_tonns * (1 - (b : ℚ) / 100)) ∧
      out.complianceData.minBlendForCompliance = findMinBlendForCompliance data := by
  obtain ⟨out, hout, hnew, _, _, _, _, hmin⟩ := calculateSimulation_some data b hne
  refine ⟨out, hout, hnew, ?_, hmin⟩
  intro i r hr
  refine ⟨simulateRow b r, ?_, rfl⟩
  rw [hnew, List.getElem?_map, hr]
  rfl

/-- Witness for C15 (amended): the scenario record at blend -50. -/
theorem calculateSimulation_unchecked_blend_witness :
    ∃ out, calculateSimulation [exRow] (-50) = some out ∧
      out.newData = [exRow].map (simulateRow (-50)) :=
  (calculateSimulation_unchecked_blend [exRow] (-50) (by simp) (Or.inl (by norm_num))).elim
    (fun out h => ⟨out, h.1, h.2.1⟩)

/-! ## Claims about the upload handler -/

/-- C16: every dataset handed to `onDataUpload`, on the delimiter path or on
the manual path, has as columns the five expected columns followed by
`Carbon_Intensity_kgCO2_MWh`, has `rowCount` equal to the length of `data`, and
its `data` is the cleaning of the live rows of the accepted attempt (or of the
manual parser), one record per live row in the same order. -/
theorem handleFileUpload_dataset (papa : ParseConfig → PapaOutcome) (file : Option File)
    (d : Dataset) (h : Event.onDataUpload d ∈ handleFileUpload papa file) :
    d.columns = ["Month".toList, "Year".toList, "Generation_MW".toList,
        "Gas_Consumption_m3".toList, "CO2_Emissions_tonns".toList,
        "Carbon_Intensity_kgCO2_MWh".toList] ∧
      d.rowCount = d.data.length ∧
      ∃ (f : File) (live : List RawRow), file = some f ∧
        ((∃ config results, papa config = PapaOutcome.complete results ∧
            live = liveRows results.data) ∨
          live = manualRows (manualLines f.text)) ∧
        d.data = cleanAndProcessData live ∧
        d.data.length = live.length ∧
        d.data.map (fun rec => rec._originalRow) = live := by
  cases file with
  | none => simp [handleFileUpload] at h
  | some f =>
    have hd : ∃ live : List RawRow,
        ((∃ config results, papa config = PapaOutcome.complete results ∧
            live = liveRows results.data) ∨
          live = manualRows (manualLines f.text)) ∧ d = uploadOf f live := by
      unfold handleFileUpload at h
      simp only at h
      split_ifs at h with hc
      · simp at h
      · rcases tryParse_upload papa f d _ _ h with ⟨config, results, hp, _, _, hd⟩ | hm
        · exact ⟨_, Or.inl ⟨config, results, hp, rfl⟩, hd⟩
        · exact ⟨_, Or.inr rfl, tryManualParsing_upload f d hm⟩
    obtain ⟨live, hlive, rfl⟩ := hd
    obtain ⟨h1, h2, h3, h4, h5⟩ := uploadOf_shape f live
    exact ⟨h1, h3, f, live, rfl, hlive, h2, h5, h4⟩

theorem handleFileUpload_papaOk :
    handleFileUpload papaOk (some exFile) =
      [Event.papaParse (configAt 0), Event.onDataUpload (uploadOf exFile [exRawRow])] := by
  rw [handleFileUpload_accepted papaOk exFile (Or.inl rfl),
    tryParse_accept papaOk exFile (configAt 0) 0 _ rfl (by decide) (by decide)]
  have hv : validateColumns (detectColumns { data := [some exRawRow], fields := some expectedColumns }
      (liveRows [some exRawRow])) = ValidationResult.valid := by decide
  simp only [hv]
  rfl

/-- Witness for C16: the dataset delivered when the first configuration
completes with one live row under the expected header. -/
theorem handleFileUpload_dataset_witness :
    (uploadOf exFile [exRawRow]).rowCount = (uploadOf exFile [exRawRow]).data.length ∧
      (uploadOf exFile [exRawRow]).data.length = 1 :=
  have h := handleFileUpload_dataset papaOk (some exFile) (uploadOf exFile [exRawRow])
    (by rw [handleFileUpload_papaOk]; simp)
  ⟨h.2.1, cleanAndProcessData_length [exRawRow]⟩

theorem mem_liveRows (data : List (Option RawRow)) (row : RawRow) :
    row ∈ liveRows data ↔ some row ∈ data ∧ ∃ kv ∈ row, kv.2 ≠ [] := by
  unfold liveRows
  rw [List.mem_filterMap]
  constructor
  · rintro ⟨o, ho, h⟩
    cases o with
    | none => simp at h
    | some r =>
      simp only at h
      split_ifs at h with hv
      cases Option.some.inj h
      refine ⟨ho, ?_⟩
      simpa [hasValue] using hv
  · rintro ⟨hmem, hv⟩
    refine ⟨some row, hmem, ?_⟩
    have : hasValue row = true := by simpa [hasValue] using hv
    simp [this]

theorem mem_manualRows (lines : List JSString) (row : RawRow) :
    row ∈ manualRows lines ↔
      ∃ line ∈ lines.drop 1, manualRow line = row ∧ hasValue row = true := by
  unfold manualRows
  rw [List.mem_filter, List.mem_map]
  constructor
  · rintro ⟨⟨line, hl, rfl⟩, hv⟩
    exact ⟨line, hl, rfl, hv⟩
  · rintro ⟨line, hl, rfl, hv⟩
    exact ⟨⟨line, hl, rfl⟩, hv⟩

theorem orDefault_ne_nil (v : Option JSString) :
    orDefault v [] ≠ [] ↔ ∃ s, v = some s ∧ s ≠ [] := by
  cases v with
  | none => simp [orDefault]
  | some s =>
    cases s with
    | nil => simp [orDefault]
    | cons a as => simp [orDefault]

theorem hasValue_manualRow (line : JSString) :
    hasValue (manualRow line) = true ↔
      ∃ i < 5, ∃ cell, (splitOn ';' line)[i]? = some cell ∧ trim cell ≠ [] := by
  have henum : expectedColumns.enum =
      [(0, "Month".toList), (1, "Year".toList), (2, "Generation_MW".toList),
        (3, "Gas_Consumption_m3".toList), (4, "CO2_Emissions_tonns".toList)] := by decide
  unfold hasValue manualRow
  simp only [henum, List.map_cons, List.map_nil, List.any_cons, List.any_nil, Bool.or_false,
    Bool.or_eq_true, decide_eq_true_eq, orDefault_ne_nil, List.getElem?_map, Option.map_eq_some']
  constructor
  · intro h
    rcases h with ⟨s, ⟨c, hc, rfl⟩, hs⟩ | ⟨s, ⟨c, hc, rfl⟩, hs⟩ | ⟨s, ⟨c, hc, rfl⟩, hs⟩ |
      ⟨s, ⟨c, hc, rfl⟩, hs⟩ | ⟨s, ⟨c, hc, rfl⟩, hs⟩
    · exact ⟨0, by norm_num, c, hc, hs⟩
    · exact ⟨1, by norm_num, c, hc, hs⟩
    · exact ⟨2, by norm_num, c, hc, hs⟩
    · exact ⟨3, by norm_num, c, hc, hs⟩
    · exact ⟨4, by norm_num, c, hc, hs⟩
  · rintro ⟨i, hi, c, hc, hs⟩
    interval_cases i
    · exact Or.inl ⟨_, ⟨c, hc, rfl⟩, hs⟩
    · exact Or.inr (Or.inl ⟨_, ⟨c, hc, rfl⟩, hs⟩)
    · exact Or.inr (Or.inr (Or.inl ⟨_, ⟨c, hc, rfl⟩, hs⟩))
    · exact Or.inr (Or.inr (Or.inr (Or.inl ⟨_, ⟨c, hc, rfl⟩, hs⟩)))
    · exact Or.inr (Or.inr (Or.inr (Or.inr ⟨_, ⟨c, hc, rfl⟩, hs⟩)))

/-- C17 (code bug): a parsed row whose values are a space and a tab, all
empty after trimming, is kept by the filter of the `complete` callback, which
tests the untrimmed values; the manual parser, which trims every cell before the
same filter, reads the text with the data line ` ;` followed by a tab, made of
the same two cells, as two lines and drops the row of the data line. -/
theorem liveRows_keeps_blank_row :
    liveRows [some blankRow] = [blankRow] ∧ (∀ kv ∈ blankRow, trim kv.2 = []) ∧
      manualLines "Month;Year\n ;\t".toList = ["Month;Year".toList, " ;\t".toList] ∧
      manualRows (manualLines "Month;Year\n ;\t".toList) = [] := by
  decide

/-- The rule that each parser applies: in a delimiter attempt a parsed row is
kept exactly when at least one of its values is not the empty string (values
are not trimmed, so a white-space-only value keeps the row); the manual parser
keeps the row built from a data line exactly when one of its values is
non-empty, that is when one of the first five semicolon-separated cells of the
line is non-empty after trimming; dropping a row is a filter step and fails
nothing. -/
theorem liveRows_rule (data : List (Option RawRow)) (lines : List JSString) :
    (∀ row : RawRow, row ∈ liveRows data ↔ some row ∈ data ∧ ∃ kv ∈ row, kv.2 ≠ []) ∧
    (∀ row : RawRow, row ∈ manualRows lines ↔
      ∃ line ∈ lines.drop 1, manualRow line = row ∧ hasValue row = true) ∧
    (∀ line : JSString, hasValue (manualRow line) = true ↔
      ∃ i < 5, ∃ cell, (splitOn ';' line)[i]? = some cell ∧ trim cell ≠ []) :=
  ⟨mem_liveRows data, mem_manualRows lines, hasValue_manualRow⟩

/-- C18: when the first `k` delimiter attempts give no usable data and attempt
`k` completes with at least one live row and at least one column, a failed
column validation ends the upload: the whole run consists of the `k + 1` parse
attempts followed by the alert with the validation error; no dataset is
delivered, no further configuration is tried and the manual parser is not
called. -/
theorem handleFileUpload_validation_terminal (papa : ParseConfig → PapaOutcome) (file : File)
    (k : ℕ) (results : ParseResults) (error : JSString)
    (hfile : file.type = "text/csv".toList ∨ ".csv".toList.isSuffixOf file.name = true)
    (hk : k < 4) (hprev : ∀ j < k, attemptFails (papa (configAt j)))
    (hcur : papa (configAt k) = PapaOutcome.complete results)
    (hlive : (liveRows results.data).length > 0)
    (hcols : (detectColumns results (liveRows results.data)).length > 0)
    (hval : validateColumns (detectColumns results (liveRows results.data)) =
      ValidationResult.invalid error) :
    handleFileUpload papa (some file) =
        (List.range (k + 1)).map (fun j => Event.papaParse (configAt j)) ++
          [Event.alert error] ∧
      (∀ d, Event.onDataUpload d ∉ handleFileUpload papa (some file)) ∧
      Event.manualParsing ∉ handleFileUpload papa (some file) := by
  have htrace : handleFileUpload papa (some file) =
      (List.range (k + 1)).map (fun j => Event.papaParse (configAt j)) ++
        [Event.alert error] := by
    rw [handleFileUpload_accepted papa file hfile, tryParse_prefix papa file k hk hprev,
      tryParse_accept papa file (configAt k) k results hcur hlive hcols, hval,
      List.range_succ, List.map_append]
    simp
  refine ⟨htrace, ?_, ?_⟩
  · intro d hd
    rw [htrace] at hd
    simp at hd
  · intro hm
    rw [htrace] at hm
    simp at hm

set_option maxRecDepth 20000 in
/-- Witness for C18: the first configuration completes with a live row under a
header without `Year`. -/
theorem handleFileUpload_validation_terminal_witness :
    handleFileUpload papaNoYear (some exFile) =
      [Event.papaParse (configAt 0),
        Event.alert ("Missing required columns: Year. Expected columns: Month, Year, Generation_MW, Gas_Consumption_m3, CO2_Emissions_tonns. Found columns: Month, Generation_MW, Gas_Consumption_m3, CO2_Emissions_tonns".toList)] :=
  (handleFileUpload_validation_terminal papaNoYear exFile 0 _ _ (Or.inl rfl) (by norm_num)
    (fun j hj => absurd hj (by omega)) rfl (by decide) (by decide) (by decide)).1

/-- C19 (counterexample): when every configuration fails with a parse error,
the run ends after the fourth attempt with an alert that carries the parser's
error message; the manual parser is not called. -/
theorem handleFileUpload_error_surfaced :
    handleFileUpload papaError (some exFile) =
        [Event.papaParse (configAt 0), Event.papaParse (configAt 1),
          Event.papaParse (configAt 2), Event.papaParse (configAt 3),
          Event.alert ("Error reading CSV file: boom. Please try a different file or check the file format.".toList)] ∧
      Event.manualParsing ∉ handleFileUpload papaError (some exFile) := by
  have htrace : handleFileUpload papaError (some exFile) =
      [Event.papaParse (configAt 0), Event.papaParse (configAt 1),
        Event.papaParse (configAt 2), Event.papaParse (configAt 3),
        Event.alert ("Error reading CSV file: boom. Please try a different file or check the file format.".toList)] := by
    rw [handleFileUpload_accepted papaError exFile (Or.inl rfl),
      tryParse_prefix papaError exFile 3 (by norm_num) (fun _ _ => trivial),
      tryParse_last_error papaError exFile (configAt 3) 3 (le_refl 3) "boom".toList rfl]
    rfl
  refine ⟨htrace, ?_⟩
  rw [htrace]
  decide

/-- C19 (amended): the configurations are tried in the order semicolon, comma,
tab, auto-detect; an attempt that fails with a parse error, or that completes
without a live row or without a column, is followed by the next configuration
while one remains; when all four attempts fail, the manual parser is called if
the fourth attempt completed, and the parser's error is reported in an alert,
without calling the manual parser, if the fourth attempt failed with a parse
error. -/
theorem handleFileUpload_fallback (papa : ParseConfig → PapaOutcome) (file : File)
    (hfile : file.type = "text/csv".toList ∨ ".csv".toList.isSuffixOf file.name = true) :
    (List.range 4).map (fun j => (configAt j).delimiter) =
        [";".toList, ",".toList, "\t".toList, []] ∧
    (∀ k < 4, (∀ j < k, attemptFails (papa (configAt j))) →
      ∃ rest, handleFileUpload papa (some file) =
        (List.range (k + 1)).map (fun j => Event.papaParse (configAt j)) ++ rest) ∧
    ((∀ j < 4, attemptFails (papa (configAt j))) →
      handleFileUpload papa (some file) =
        (List.range 4).map (fun j => Event.papaParse (configAt j)) ++
          (match papa (configAt 3) with
          | PapaOutcome.complete _ => Event.manualParsing :: tryManualParsing file
          | PapaOutcome.error message =>
            [Event.alert ("Error reading CSV file: ".toList ++ message ++
              ". Please try a different file or check the file format.".toList)])) := by
  refine ⟨by decide, ?_, ?_⟩
  · intro k hk hprev
    refine ⟨(tryParse papa file (configAt k) k).tail, ?_⟩
    rw [handleFileUpload_accepted papa file hfile, tryParse_prefix papa file k hk hprev,
      List.range_succ, List.map_append, List.append_assoc]
    congr 1
    rw [tryParse]
    rfl
  · intro hall
    have h3 := hall 3 (by norm_num)
    rw [handleFileUpload_accepted papa file hfile,
      tryParse_prefix papa file 3 (by norm_num) (fun j hj => hall j (by omega))]
    have hr : List.range 4 = List.range 3 ++ [3] := by decide
    rw [hr, List.map_append, List.append_assoc]
    congr 1
    cases hp : papa (configAt 3) with
    | complete results =>
      rw [hp] at h3
      rw [tryParse_last_nodata papa file (configAt 3) 3 (le_refl 3) results hp h3]
      rfl
    | error message =>
      rw [tryParse_last_error papa file (configAt 3) 3 (le_refl 3) message hp]
      rfl

/-- Witness for C19 (amended): every configuration completes without rows, and
the manual parser is called after the fourth attempt. -/
theorem handleFileUpload_fallback_witness :
    handleFileUpload papaEmpty (some exFile) =
      (List.range 4).map (fun j => Event.papaParse (configAt j)) ++
        Event.manualParsing :: tryManualParsing exFile :=
  (handleFileUpload_fallback papaEmpty exFile (Or.inl rfl)).2.2
    (fun _ _ => by simp [papaEmpty, attemptFails, liveRows])

/-- C20: the upload is rejected before any parse attempt exactly when the MIME
type of the file is not `text/csv` and its name does not end with `.csv`: the
run is then the single alert `Please upload a CSV file`, with no call of
`Papa.parse` and no call of the manual parser; every other file goes to the
first parse attempt. -/
theorem handleFileUpload_file_type (papa : ParseConfig → PapaOutcome) (file : File) :
    (handleFileUpload papa (some file) = [Event.alert "Please upload a CSV file".toList] ↔
      (file.type ≠ "text/csv".toList ∧ ".csv".toList.isSuffixOf file.name = false)) ∧
    ((file.type ≠ "text/csv".toList ∧ ".csv".toList.isSuffixOf file.name = false) →
      (∀ config, Event.papaParse config ∉ handleFileUpload papa (some file)) ∧
        Event.manualParsing ∉ handleFileUpload papa (some file)) ∧
    (¬ (file.type ≠ "text/csv".toList ∧ ".csv".toList.isSuffixOf file.name = false) →
      ∃ rest, handleFileUpload papa (some file) = Event.papaParse (configAt 0) :: rest) := by
  have hrej : (file.type ≠ "text/csv".toList ∧ ".csv".toList.isSuffixOf file.name = false) →
      handleFileUpload papa (some file) = [Event.alert "Please upload a CSV file".toList] := by
    intro hc
    have hc2 : file.type ≠ "text/csv".toList ∧ ¬ (".csv".toList.isSuffixOf file.name = true) :=
      ⟨hc.1, Bool.eq_false_iff.mp hc.2⟩
    unfold handleFileUpload
    exact if_pos hc2
  have hacc : ¬ (file.type ≠ "text/csv".toList ∧ ".csv".toList.isSuffixOf file.name = false) →
      ∃ rest, handleFileUpload papa (some file) = Event.papaParse (configAt 0) :: rest := by
    intro hc
    have hfile : file.type = "text/csv".toList ∨ ".csv".toList.isSuffixOf file.name = true := by
      by_cases ht : file.type = "text/csv".toList
      · exact Or.inl ht
      · right
        by_contra hs
        exact hc ⟨ht, Bool.eq_false_iff.mpr hs⟩
    rw [handleFileUpload_accepted papa file hfile, tryParse]
    exact ⟨_, rfl⟩
  refine ⟨⟨?_, hrej⟩, ?_, hacc⟩
  · intro h
    by_contra hc
    obtain ⟨rest, hrest⟩ := hacc hc
    rw [hrest] at h
    simp at h
  · intro hc
    rw [hrej hc]
    simp

/-! ## Claims about termination and the shape of the compliance test -/

theorem searchIterations_le (data : List Row) (k : ℕ) :
    ∀ left right : ℤ, right + 1 - left < 2 ^ k → searchIterations data left right ≤ k := by
  induction k with
  | zero =>
    intro left right h
    rw [searchIterations, if_neg (by simp at h; omega)]
  | succ n ih =>
    intro left right h
    have hpow : (2 : ℤ) ^ (n + 1) = 2 * 2 ^ n := by ring
    rw [hpow] at h
    rw [searchIterations]
    by_cases hle : left ≤ right
    · rw [if_pos hle]
      simp only
      by_cases hc : testCompliant data ((left + right) / 2) = true
      · rw [if_pos hc]
        have := ih left ((left + right) / 2 - 1) (by omega)
        omega
      · rw [if_neg hc]
        have := ih ((left + right) / 2 + 1) right (by omega)
        omega
    · rw [if_neg hle]
      omega

/-- C24: the binary-search loop of `findMinBlendForCompliance`, started with
`left = 0` and `right = 100`, runs its body at most 7 times, for every record
list. -/
theorem searchIterations_at_most_seven (data : List Row) :
    searchIterations data 0 100 ≤ 7 :=
  searchIterations_le data 7 0 100 (by norm_num)

theorem filter_length_eq_iff {α : Type} (p : α → Bool) (l : List α) :
    (l.filter p).length = l.length ↔ ∀ x ∈ l, p x = true :=
  List.filter_length_eq_length

/-- C26: for a non-empty record list the flag `isCompliant` of the simulation
is true exactly when the maximum intensity is at most 350, and exactly when the
compliance rate is 100: the test on the average adds nothing, since the average
of intensities that are all at most 350 is at most 350. -/
theorem isCompliant_iff_max_iff_rate (data : List Row) (b : ℤ) (hne : data ≠ []) :
    ∃ out, calculateSimulation data b = some out ∧
      (out.complianceData.isCompliant = true ↔
        out.complianceData.maxCarbonIntensity ≤ ((350 : ℚ) : WithBot ℚ)) ∧
      (out.complianceData.isCompliant = true ↔ out.complianceData.complianceRate = 100) ∧
      (out.complianceData.maxCarbonIntensity ≤ ((350 : ℚ) : WithBot ℚ) →
        out.complianceData.averageCarbonIntensity ≤ 350) := by
  obtain ⟨out, hout, hnew, havg, hmax, hrate, hflag, _⟩ := calculateSimulation_some data b hne
  have hne2 : out.newData.map (fun s => s.Carbon_Intensity_kgCO2_MWh) ≠ [] := by
    rw [hnew]
    simpa using hne
  have hlenpos : (0 : ℚ) < (out.newData.length : ℚ) := by
    have : 0 < out.newData.length := by
      rw [hnew, List.length_map]
      exact List.length_pos.mpr hne
    exact_mod_cast this
  have hmaxavg : out.complianceData.maxCarbonIntensity ≤ ((350 : ℚ) : WithBot ℚ) →
      out.complianceData.averageCarbonIntensity ≤ 350 := by
    intro h
    rw [hmax, maximum_le_coe_iff] at h
    rw [havg]
    have := avg_le_of_forall_le _ 350 h hne2
    simpa only [List.length_map] using this
  refine ⟨out, hout, ?_, ?_, hmaxavg⟩
  · rw [hflag, Bool.and_eq_true, decide_eq_true_eq, decide_eq_true_eq]
    exact ⟨fun h => h.2, fun h => ⟨hmaxavg h, h⟩⟩
  · rw [hflag, Bool.and_eq_true, decide_eq_true_eq, decide_eq_true_eq, hrate]
    have hiff : ((out.newData.filter
        (fun s => decide (s.Carbon_Intensity_kgCO2_MWh ≤ 350))).length : ℚ) /
          (out.newData.length : ℚ) * 100 = 100 ↔
        ∀ s ∈ out.newData, s.Carbon_Intensity_kgCO2_MWh ≤ 350 := by
      have hf := filter_length_eq_iff
        (fun s : SimulatedRow => decide (s.Carbon_Intensity_kgCO2_MWh ≤ 350)) out.newData
      simp only [decide_eq_true_eq] at hf
      rw [← hf]
      constructor
      · intro h
        have h1 : ((out.newData.filter
            (fun s => decide (s.Carbon_Intensity_kgCO2_MWh ≤ 350))).length : ℚ) =
            (out.newData.length : ℚ) := by
          field_simp at h
          linarith
        exact_mod_cast h1
      · intro h
        rw [h]
        field_simp
    rw [hiff]
    constructor
    · rintro ⟨_, h⟩
      rw [hmax, maximum_le_coe_iff] at h
      intro s hs
      exact h _ (List.mem_map_of_mem _ hs)
    · intro h
      have hm : out.complianceData.maxCarbonIntensity ≤ ((350 : ℚ) : WithBot ℚ) := by
        rw [hmax, maximum_le_coe_iff]
        intro x hx
        obtain ⟨s, hs, rfl⟩ := List.mem_map.mp hx
        exact h s hs
      exact ⟨hmaxavg hm, hm⟩

/-- Witness for C26 at the one-record list of the worked scenario, blend 13. -/
theorem isCompliant_iff_max_iff_rate_witness :
    ∃ out, calculateSimulation [exRow] 13 = some out ∧
      (out.complianceData.isCompliant = true ↔ out.complianceData.complianceRate = 100) :=
  (isCompliant_iff_max_iff_rate [exRow] 13 (by simp)).elim
    (fun out h => ⟨out, h.1, h.2.2.1⟩)

/-! ## Claims about the report and the dashboard state -/

/-- C22 (counterexample): a record with a month, a year, emissions and a
generation of `0` has all four fields, yet the completeness rate of the report
is `0`, because the check tests the truthiness of the fields and `0` is falsy. -/
theorem mrv_zero_field_incomplete :
    zeroGenerationRow.Month = "April".toList ∧ zeroGenerationRow.Year = 2023 ∧
      zeroGenerationRow.Generation_MW = 0 ∧ zeroGenerationRow.CO2_Emissions_tonns = 10 ∧
      (calculateComprehensiveMetrics exFormat
        (plainProps [zeroGenerationRow])).mrvComplianceRate = 0 := by
  refine ⟨rfl, rfl, rfl, rfl, ?_⟩
  simp [calculateComprehensiveMetrics, currentData, plainProps, hasAllFields, zeroGenerationRow]

/-- C22 (amended): the completeness rate of the report is 100 when every
current record has a non-empty `Month` and a non-zero `Year`, `Generation_MW`
and `CO2_Emissions_tonns`, and 0 otherwise; it takes no other value. -/
theorem mrv_rate_truthy (fmt : NumberFormat) (props : ReportProps) :
    ((calculateComprehensiveMetrics fmt props).mrvComplianceRate = 100 ↔
      ∀ row ∈ currentData props, row.Month ≠ [] ∧ row.Year ≠ 0 ∧ row.Generation_MW ≠ 0 ∧
        row.CO2_Emissions_tonns ≠ 0) ∧
    ((calculateComprehensiveMetrics fmt props).mrvComplianceRate = 0 ↔
      ¬ ∀ row ∈ currentData props, row.Month ≠ [] ∧ row.Year ≠ 0 ∧ row.Generation_MW ≠ 0 ∧
        row.CO2_Emissions_tonns ≠ 0) ∧
    ((calculateComprehensiveMetrics fmt props).mrvComplianceRate = 100 ∨
      (calculateComprehensiveMetrics fmt props).mrvComplianceRate = 0) := by
  have hall : (currentData props).all hasAllFields = true ↔
      ∀ row ∈ currentData props, row.Month ≠ [] ∧ row.Year ≠ 0 ∧ row.Generation_MW ≠ 0 ∧
        row.CO2_Emissions_tonns ≠ 0 := by
    rw [List.all_eq_true]
    constructor
    · intro h row hrow
      have := h row hrow
      simp only [hasAllFields, Bool.and_eq_true, decide_eq_true_eq] at this
      exact ⟨this.1.1.1, this.1.1.2, this.1.2, this.2⟩
    · intro h row hrow
      obtain ⟨h1, h2, h3, h4⟩ := h row hrow
      simp only [hasAllFields, Bool.and_eq_true, decide_eq_true_eq]
      exact ⟨⟨⟨h1, h2⟩, h3⟩, h4⟩
  have hrate : (calculateComprehensiveMetrics fmt props).mrvComplianceRate =
      if (currentData props).all hasAllFields = true then 100 else 0 := rfl
  rw [hrate, ← hall]
  by_cases hc : (currentData props).all hasAllFields = true
  · rw [if_pos hc]
    simp [hc]
  · rw [if_neg hc]
    simp [hc]

/-- C23 (counterexample): for the two records with intensities 300 and 400 the
compliance rate of the EU ETS regime is 50; the report gives the status
`Non-Compliant`, while the band classifier assigns `At Risk` to that rate. -/
theorem report_status_differs_from_band :
    (generateReportData exFormat (plainProps meanBoundaryRows) "1/1/2026".toList
        (calculateComprehensiveMetrics exFormat (plainProps meanBoundaryRows))).euEts.rate =
        50 ∧
      (generateReportData exFormat (plainProps meanBoundaryRows) "1/1/2026".toList
        (calculateComprehensiveMetrics exFormat (plainProps meanBoundaryRows))).euEts.status =
        "Non-Compliant".toList ∧
      (statusBand 50).2.2 = "At Risk".toList := by
  have hrate : (calculateComprehensiveMetrics exFormat
      (plainProps meanBoundaryRows)).euComplianceRate = 50 := by
    simp [calculateComprehensiveMetrics, currentData, plainProps, meanBoundaryRows, List.filter]
    norm_num
  refine ⟨hrate, ?_, ?_⟩
  · show (if (calculateComprehensiveMetrics exFormat _).euComplianceRate ≥ 80 then
      "Compliant".toList else "Non-Compliant".toList) = "Non-Compliant".toList
    rw [hrate, if_neg (by norm_num)]
  · unfold statusBand
    rw [if_neg (by norm_num), if_pos (by norm_num)]

/-- C23 (amended): the report classifies the EU ETS regime and the CSRD regime
with a two-valued rule of its own: the status is `Compliant` when the regime's
compliance rate is at least 80 and `Non-Compliant` otherwise; it is `Compliant`
exactly when the band classifier assigns `Fully Compliant` or
`Mostly Compliant` to that rate. -/
theorem report_status_two_valued (fmt : NumberFormat) (props : ReportProps)
    (currentDate : JSString) (metrics : Metrics) :
    ((generateReportData fmt props currentDate metrics).euEts.status =
      if metrics.euComplianceRate ≥ 80 then "Compliant".toList else "Non-Compliant".toList) ∧
    ((generateReportData fmt props currentDate metrics).csrd.status =
      if metrics.csrdComplianceRate ≥ 80 then "Compliant".toList
      else "Non-Compliant".toList) ∧
    ((generateReportData fmt props currentDate metrics).euEts.status = "Compliant".toList ↔
      (statusBand metrics.euComplianceRate).2.2 = "Fully Compliant".toList ∨
        (statusBand metrics.euComplianceRate).2.2 = "Mostly Compliant".toList) ∧
    ((generateReportData fmt props currentDate metrics).csrd.status = "Compliant".toList ↔
      (statusBand metrics.csrdComplianceRate).2.2 = "Fully Compliant".toList ∨
        (statusBand metrics.csrdComplianceRate).2.2 = "Mostly Compliant".toList) := by
  have key : ∀ rate : ℚ,
      ((if rate ≥ 80 then "Compliant".toList else "Non-Compliant".toList) =
          "Compliant".toList ↔
        (statusBand rate).2.2 = "Fully Compliant".toList ∨
          (statusBand rate).2.2 = "Mostly Compliant".toList) := by
    intro rate
    unfold statusBand
    by_cases h50 : rate < 50
    · rw [if_neg (by linarith), if_pos h50]
      decide
    · by_cases h80 : rate < 80
      · rw [if_neg (by linarith), if_neg h50, if_pos h80]
        decide
      · by_cases h100 : rate < 100
        · rw [if_pos (by linarith), if_neg h50, if_neg h80, if_pos h100]
          decide
        · rw [if_pos (by linarith), if_neg h50, if_neg h80, if_neg h100]
          decide
  exact ⟨rfl, rfl, key _, key _⟩

theorem run_hydrogenBlend (actions : List DashboardAction) :
    ∀ s : DashboardState, s.hydrogenBlend = 0 →
      (actions.foldl DashboardState.step s).hydrogenBlend = 0 := by
  induction actions with
  | nil => exact fun s h => h
  | cons a as ih =>
    intro s h
    rw [List.foldl_cons]
    apply ih
    cases a with
    | dataUpload uploadData => rfl
    | simulationUpdate newSimulatedData => exact h
    | complianceUpdate status => exact h

/-- C30: after any sequence of data uploads, simulation updates and compliance
updates the `hydrogenBlend` of `Dashboard` is `0`; the report generator
therefore receives `hydrogenBlend = 0`, its metrics carry `0`, and
`generateRecommendations` emits no recommendation of the category
`Hydrogen Integration`. -/
theorem dashboard_hydrogenBlend_zero (actions : List DashboardAction) (fmt : NumberFormat)
    (data : List Row) :
    (DashboardState.run actions).hydrogenBlend = 0 ∧
    (reportProps (DashboardState.run actions) data).hydrogenBlend = 0 ∧
    (calculateComprehensiveMetrics fmt
      (reportProps (DashboardState.run actions) data)).hydrogenBlend = 0 ∧
    ∀ r ∈ generateRecommendations fmt (reportProps (DashboardState.run actions) data)
        (calculateComprehensiveMetrics fmt (reportProps (DashboardState.run actions) data)),
      r.category ≠ "Hydrogen Integration".toList := by
  have h0 : (DashboardState.run actions).hydrogenBlend = 0 :=
    run_hydrogenBlend actions DashboardState.initial rfl
  have hm : (calculateComprehensiveMetrics fmt
      (reportProps (DashboardState.run actions) data)).hydrogenBlend = 0 := h0
  refine ⟨h0, h0, hm, ?_⟩
  intro r hr
  unfold generateRecommendations at hr
  simp only [hm, gt_iff_lt, lt_irrefl, if_false, List.append_nil, List.mem_append] at hr
  rcases hr with (hr | hr) | hr
  · split_ifs at hr
    · rw [List.mem_singleton] at hr
      rw [hr]
      exact (by decide : "EU ETS Compliance".toList ≠ "Hydrogen Integration".toList)
    · simp at hr
  · split_ifs at hr
    · rw [List.mem_singleton] at hr
      rw [hr]
      decide
    · simp at hr
  · split_ifs at hr
    · rw [List.mem_singleton] at hr
      rw [hr]
      decide
    · simp at hr

/-! ## Further claims about the upload handler -/

theorem tryManualParsing_cases (file : File) :
    (manualLines file.text).length < 2 ∧
        tryManualParsing file = [Event.alert "File appears to be empty or invalid".toList] ∨
      ¬ (manualLines file.text).length < 2 ∧
        tryManualParsing file =
          (match validateColumns
              ((splitOn ';' ((manualLines file.text).headD [])).map trim) with
          | ValidationResult.invalid error => [Event.alert error]
          | ValidationResult.valid =>
            [Event.onDataUpload (uploadOf file (manualRows (manualLines file.text)))]) := by
  unfold tryManualParsing
  by_cases h : (manualLines file.text).length < 2
  · left
    exact ⟨h, by simp only [h, if_true]⟩
  · right
    refine ⟨h, ?_⟩
    simp only [h, if_false]

theorem validation_error_ne (columns : List JSString) (error : JSString)
    (h : validateColumns columns = ValidationResult.invalid error) :
    error ≠ "File appears to be empty or invalid".toList := by
  rw [validateColumns_eq] at h
  split_ifs at h
  have he := ValidationResult.invalid.inj h
  rw [← he]
  have hM : "Missing required columns: ".toList = 'M' :: "issing required columns: ".toList := by
    decide
  have hF : "File appears to be empty or invalid".toList =
      'F' :: "ile appears to be empty or invalid".toList := by decide
  rw [hM, hF]
  simp only [List.cons_append, ne_eq, List.cons.injEq, not_and]
  intro hc
  exact absurd hc (by decide)

/-- C21 (counterexample): a text of three lines, of which the second and the
third are empty, is reported as empty or invalid although it has more than one
line in total. -/
theorem tryManualParsing_blank_lines :
    (splitOn '\n' blankLinesFile.text).length = 3 ∧
      tryManualParsing blankLinesFile =
        [Event.alert "File appears to be empty or invalid".toList] := by
  decide

/-- C21 (amended): the manual parser reports the empty-or-invalid-file error
exactly when the text has fewer than two lines that are non-empty after
trimming (blank lines are not counted); with at least two such lines it goes on
to validate the header taken from the first of them. -/
theorem tryManualParsing_empty_iff (file : File) :
    manualLines file.text =
        (splitOn '\n' file.text).filter (fun line => decide (trim line ≠ [])) ∧
    (tryManualParsing file = [Event.alert "File appears to be empty or invalid".toList] ↔
      (manualLines file.text).length < 2) ∧
    (2 ≤ (manualLines file.text).length →
      tryManualParsing file =
        (match validateColumns ((splitOn ';' ((manualLines file.text).headD [])).map trim) with
        | ValidationResult.invalid error => [Event.alert error]
        | ValidationResult.valid =>
          [Event.onDataUpload (uploadOf file (manualRows (manualLines file.text)))])) := by
  refine ⟨rfl, ?_, ?_⟩
  · rcases tryManualParsing_cases file with ⟨h, ht⟩ | ⟨h, ht⟩
    · exact ⟨fun _ => h, fun _ => ht⟩
    · constructor
      · intro heq
        exfalso
        rw [ht] at heq
        cases hv : validateColumns ((splitOn ';' ((manualLines file.text).headD [])).map trim)
          with
        | valid =>
          rw [hv] at heq
          simp at heq
        | invalid error =>
          rw [hv] at heq
          simp only [List.cons.injEq, Event.alert.injEq, and_true] at heq
          exact validation_error_ne _ _ hv heq
      · intro hlt
        exact absurd hlt h
  · intro h2
    rcases tryManualParsing_cases file with ⟨h, _⟩ | ⟨_, ht⟩
    · omega
    · exact ht

theorem tryManualParsing_single (file : File) :
    ∃ e, tryManualParsing file = [e] ∧
      ((∃ message, e = Event.alert message) ∨ ∃ d, e = Event.onDataUpload d) := by
  rcases tryManualParsing_cases file with ⟨_, ht⟩ | ⟨_, ht⟩
  · exact ⟨_, ht, Or.inl ⟨_, rfl⟩⟩
  · rw [ht]
    cases validateColumns ((splitOn ';' ((manualLines file.text).headD [])).map trim) with
    | valid => exact ⟨_, rfl, Or.inr ⟨_, rfl⟩⟩
    | invalid error => exact ⟨_, rfl, Or.inl ⟨_, rfl⟩⟩

theorem tryManualParsing_no_attempt (file : File) :
    (∀ config, Event.papaParse config ∉ tryManualParsing file) ∧
      (tryManualParsing file).count Event.manualParsing = 0 := by
  obtain ⟨e, he, hcase⟩ := tryManualParsing_single file
  rw [he]
  rcases hcase with ⟨m, rfl⟩ | ⟨d, rfl⟩
  · exact ⟨fun config => by simp, by simp⟩
  · exact ⟨fun config => by simp, by simp⟩

theorem tryParse_shape_step (papa : ParseConfig → PapaOutcome) (file : File) (idx : ℕ)
    (hnext : idx < 3 → ∃ n rest, idx + 1 + n ≤ 4 ∧
      tryParse papa file (configAt (idx + 1)) (idx + 1) =
        (List.range' (idx + 1) n).map (fun j => Event.papaParse (configAt j)) ++ rest ∧
      (∀ config, Event.papaParse config ∉ rest) ∧ rest.count Event.manualParsing ≤ 1)
    (hidx : idx ≤ 3) :
    ∃ n rest, idx + n ≤ 4 ∧
      tryParse papa file (configAt idx) idx =
        (List.range' idx n).map (fun j => Event.papaParse (configAt j)) ++ rest ∧
      (∀ config, Event.papaParse config ∉ rest) ∧ rest.count Event.manualParsing ≤ 1 := by
  have hadvance : attemptFails (papa (configAt idx)) → idx < 3 →
      ∃ n rest, idx + n ≤ 4 ∧
        tryParse papa file (configAt idx) idx =
          (List.range' idx n).map (fun j => Event.papaParse (configAt j)) ++ rest ∧
        (∀ config, Event.papaParse config ∉ rest) ∧ rest.count Event.manualParsing ≤ 1 := by
    intro hfail hlt
    obtain ⟨n, rest, hn, htrace, hrest⟩ := hnext hlt
    refine ⟨n + 1, rest, by omega, ?_, hrest⟩
    rw [tryParse_advance papa file (configAt idx) idx hlt hfail, htrace, List.range'_succ]
    rfl
  cases hp : papa (configAt idx) with
  | error message =>
    by_cases hlt : idx < 3
    · exact hadvance (by rw [hp]; trivial) hlt
    · refine ⟨1, [Event.alert ("Error reading CSV file: ".toList ++ message ++
          ". Please try a different file or check the file format.".toList)],
        by omega, ?_, ?_, ?_⟩
      · rw [tryParse_last_error papa file (configAt idx) idx (by omega) message hp]
        rfl
      · intro config
        simp
      · simp
  | complete results =>
    by_cases hacc : (liveRows results.data).length > 0 ∧
        (detectColumns results (liveRows results.data)).length > 0
    · rw [tryParse_accept papa file (configAt idx) idx results hp hacc.1 hacc.2]
      cases validateColumns (detectColumns results (liveRows results.data)) with
      | valid =>
        exact ⟨1, [Event.onDataUpload (uploadOf file (liveRows results.data))], by omega, rfl,
          fun config => by simp, by simp⟩
      | invalid error =>
        exact ⟨1, [Event.alert error], by omega, rfl, fun config => by simp, by simp⟩
    · have hfail : attemptFails (PapaOutcome.complete results) := hacc
      by_cases hlt : idx < 3
      · exact hadvance (by rw [hp]; exact hfail) hlt
      · obtain ⟨hno, hcount⟩ := tryManualParsing_no_attempt file
        refine ⟨1, Event.manualParsing :: tryManualParsing file, by omega, ?_, ?_, ?_⟩
        · rw [tryParse_last_nodata papa file (configAt idx) idx (by omega) results hp hfail]
          rfl
        · intro config hmem
          rw [List.mem_cons] at hmem
          rcases hmem with h | h
          · cases h
          · exact hno config h
        · rw [List.count_cons_self, hcount]

theorem tryParse_shape (papa : ParseConfig → PapaOutcome) (file : File) :
    ∃ n rest, n ≤ 4 ∧
      tryParse papa file (configAt 0) 0 =
        (List.range n).map (fun j => Event.papaParse (configAt j)) ++ rest ∧
      (∀ config, Event.papaParse config ∉ rest) ∧ rest.count Event.manualParsing ≤ 1 := by
  have h3 := tryParse_shape_step papa file 3 (fun h => absurd h (by omega)) (le_refl 3)
  have h2 := tryParse_shape_step papa file 2 (fun _ => h3) (by omega)
  have h1 := tryParse_shape_step papa file 1 (fun _ => h2) (by omega)
  have h0 := tryParse_shape_step papa file 0 (fun _ => h1) (by omega)
  obtain ⟨n, rest, hn, htrace, hrest⟩ := h0
  refine ⟨n, rest, by omega, ?_, hrest⟩
  rw [htrace, List.range_eq_range']

/-- C25: for every file and every behaviour of `Papa.parse` the upload handler
ends after finitely many calls: its run is the parse attempts with the
configurations of index `0, 1, ..., k - 1` in this order, for some `k ≤ 4`,
followed by events among which there is no further parse attempt and at most
one call of the manual parser; the four configurations are distinct, so each is
attempted at most once, and there are at most 5 parse attempts in all. -/
theorem handleFileUpload_terminates (papa : ParseConfig → PapaOutcome) (file : Option File) :
    ∃ k rest, k ≤ 4 ∧
      handleFileUpload papa file =
        (List.range k).map (fun j => Event.papaParse (configAt j)) ++ rest ∧
      (∀ config, Event.papaParse config ∉ rest) ∧
      rest.count Event.manualParsing ≤ 1 ∧
      k + rest.count Event.manualParsing ≤ 5 ∧
      ((List.range 4).map configAt).Nodup ∧
      (∀ f : File, (∀ config, Event.papaParse config ∉ tryManualParsing f) ∧
        (tryManualParsing f).count Event.manualParsing = 0) := by
  have hnodup : ((List.range 4).map configAt).Nodup := by decide
  have hshape : ∃ k rest, k ≤ 4 ∧
      handleFileUpload papa file =
        (List.range k).map (fun j => Event.papaParse (configAt j)) ++ rest ∧
      (∀ config, Event.papaParse config ∉ rest) ∧
      rest.count Event.manualParsing ≤ 1 := by
    cases file with
    | none => exact ⟨0, [], by omega, rfl, fun config => by simp, by simp⟩
    | some f =>
      by_cases hc : f.type ≠ "text/csv".toList ∧ ¬ (".csv".toList.isSuffixOf f.name = true)
      · refine ⟨0, [Event.alert "Please upload a CSV file".toList], by omega, ?_,
          fun config => by simp, by simp⟩
        unfold handleFileUpload
        exact if_pos hc
      · have htrace : handleFileUpload papa (some f) = tryParse papa f (configAt 0) 0 := by
          unfold handleFileUpload
          exact if_neg hc
        rw [htrace]
        exact tryParse_shape papa f
  obtain ⟨k, rest, hk, htrace, hno, hcount⟩ := hshape
  exact ⟨k, rest, hk, htrace, hno, hcount, by omega, hnodup,
    fun f => ⟨(tryManualParsing_no_attempt f).1, (tryManualParsing_no_attempt f).2⟩⟩

theorem cleanNumber_none : cleanNumber none = JSNumber.num 0 := by
  simp [cleanNumber, numericText, orDefault, replaceFirst, parseFloat, takeSign,
    isWhiteSpace, digitsValue, exponentOf, JSNumber.orZero, JSNumber.toBoolean, ofRat_zero]

theorem cleanRow_of_missing_keys (row : RawRow) (index : ℕ)
    (h : ∀ key ∈ expectedColumns, row.get key = none) :
    cleanRow row index = some
      { Month := []
        Year := 0
        Generation_MW := JSNumber.num 0
        Gas_Consumption_m3 := JSNumber.num 0
        CO2_Emissions_tonns := JSNumber.num 0
        Carbon_Intensity_kgCO2_MWh := JSNumber.num 0
        _originalRow := row
        _rowIndex := index } := by
  have hM := h "Month".toList (by decide)
  have hY := h "Year".toList (by decide)
  have hG := h "Generation_MW".toList (by decide)
  have hS := h "Gas_Consumption_m3".toList (by decide)
  have hC := h "CO2_Emissions_tonns".toList (by decide)
  have hmonth : (trim (orDefault none [])).filter
      (fun c => !(c = '\t' || c = '\n' || c = '\r')) = [] := by decide
  have hyear : (parseInt ((orDefault none "0".toList).filter
      (fun c => !isWhiteSpace c))).getD 0 = 0 := by decide
  have hgt : (JSNumber.num 0).gt (JSNumber.num 0) = false := by
    simp [JSNumber.gt]
  unfold cleanRow
  simp only [hM, hY, hG, hS, hC, hmonth, hyear, cleanNumber_none, hgt, Bool.false_eq_true,
    if_false]

theorem get_none_of_keys (row : RawRow) (h : ∀ key ∈ row.keys, key ∈ lowerHeader) :
    ∀ key ∈ expectedColumns, row.get key = none := by
  intro key hkey
  unfold RawRow.get
  rw [List.lookup_eq_none_iff]
  intro p hp
  rw [bne_iff_ne]
  intro hpk
  have hk : key ∈ row.keys := by
    unfold RawRow.keys
    rw [List.mem_map]
    exact ⟨p, hp, hpk.symm⟩
  have hl := h key hk
  have hdisj : ∀ k ∈ expectedColumns, k ∉ lowerHeader := by decide
  exact hdisj key hkey hl

theorem cleanAndProcessData_of_missing_keys (rows : List RawRow)
    (h : ∀ row ∈ rows, ∀ key ∈ row.keys, key ∈ lowerHeader) :
    ∀ rec ∈ cleanAndProcessData rows,
      rec.Month = [] ∧ rec.Year = 0 ∧ rec.Generation_MW = JSNumber.num 0 ∧
        rec.Gas_Consumption_m3 = JSNumber.num 0 ∧ rec.CO2_Emissions_tonns = JSNumber.num 0 ∧
        rec.Carbon_Intensity_kgCO2_MWh = JSNumber.num 0 := by
  intro rec hrec
  obtain ⟨hrow, hclean⟩ := mem_cleanAndProcessData rows rec hrec
  rw [cleanRow_of_missing_keys _ _ (get_none_of_keys _ (h _ hrow))] at hclean
  have := Option.some.inj hclean
  rw [← this]
  exact ⟨rfl, rfl, rfl, rfl, rfl, rfl⟩

/-- C28: the lower-case header `month, year, generation_mw, gas_consumption_m3,
co2_emissions_tonns` differs from the expected names and is accepted by
`validateColumns`; when the first parse attempt completes with live rows keyed
by that header, the handler delivers a dataset with one record per live row in
which `Month` is empty and `Year`, `Generation_MW`, `Gas_Consumption_m3`,
`CO2_Emissions_tonns` and `Carbon_Intensity_kgCO2_MWh` are all `0`, whatever the
cells contain, because `cleanAndProcessData` reads the cells by the exact
expected keys. -/
theorem lowercase_header_zero_records (papa : ParseConfig → PapaOutcome) (file : File)
    (results : ParseResults)
    (hfile : file.type = "text/csv".toList ∨ ".csv".toList.isSuffixOf file.name = true)
    (hp : papa (configAt 0) = PapaOutcome.complete results)
    (hfields : results.fields = some lowerHeader)
    (hlive : (liveRows results.data).length > 0)
    (hkeys : ∀ row ∈ liveRows results.data, ∀ key ∈ row.keys, key ∈ lowerHeader) :
    validateColumns lowerHeader = ValidationResult.valid ∧
    (∀ key ∈ lowerHeader, key ∉ expectedColumns) ∧
    ∃ d, handleFileUpload papa (some file) =
        [Event.papaParse (configAt 0), Event.onDataUpload d] ∧
      d.data.length = (liveRows results.data).length ∧
      d.data.map (fun rec => rec._originalRow) = liveRows results.data ∧
      ∀ rec ∈ d.data,
        rec.Month = [] ∧ rec.Year = 0 ∧ rec.Generation_MW = JSNumber.num 0 ∧
          rec.Gas_Consumption_m3 = JSNumber.num 0 ∧
          rec.CO2_Emissions_tonns = JSNumber.num 0 ∧
          rec.Carbon_Intensity_kgCO2_MWh = JSNumber.num 0 := by
  have hvalid : validateColumns lowerHeader = ValidationResult.valid := by decide
  have hcols : detectColumns results (liveRows results.data) = lowerHeader := by
    unfold detectColumns
    rw [hfields]
    have : ¬ (lowerHeader.length = 0 ∧ (liveRows results.data).length > 0) := by
      rintro ⟨h0, _⟩
      exact absurd h0 (by decide)
    simp only [this, if_false]
  refine ⟨hvalid, by decide, uploadOf file (liveRows results.data), ?_, ?_, ?_, ?_⟩
  · rw [handleFileUpload_accepted papa file hfile,
      tryParse_accept papa file (configAt 0) 0 results hp hlive
        (by rw [hcols]; decide), hcols, hvalid]
  · exact cleanAndProcessData_length _
  · exact cleanAndProcessData_originalRow _
  · exact cleanAndProcessData_of_missing_keys _ hkeys

/-- Witness for C28: one row with a month, a year and positive numbers under
the lower-case header. -/
theorem lowercase_header_zero_records_witness :
    ∃ d, handleFileUpload papaLower (some exFile) =
        [Event.papaParse (configAt 0), Event.onDataUpload d] ∧
      d.data.length = 1 ∧
      ∀ rec ∈ d.data,
        rec.Month = [] ∧ rec.Year = 0 ∧ rec.Generation_MW = JSNumber.num 0 ∧
          rec.Gas_Consumption_m3 = JSNumber.num 0 ∧
          rec.CO2_Emissions_tonns = JSNumber.num 0 ∧
          rec.Carbon_Intensity_kgCO2_MWh = JSNumber.num 0 :=
  (lowercase_header_zero_records papaLower exFile
    { data := [some lowerRow], fields := some lowerHeader } (Or.inl rfl) rfl rfl
    (by decide) (by decide)).2.2.elim
    (fun d h => ⟨d, h.1, h.2.1, h.2.2.2⟩)

theorem manualRow_getElem? (line : JSString) (i : ℕ) (hi : i < 5) :
    ∃ col, expectedColumns[i]? = some col ∧
      (manualRow line)[i]? =
        some (col, orDefault (((splitOn ';' line)[i]?).map trim) []) := by
  have henum : expectedColumns.enum =
      [(0, "Month".toList), (1, "Year".toList), (2, "Generation_MW".toList),
        (3, "Gas_Consumption_m3".toList), (4, "CO2_Emissions_tonns".toList)] := by decide
  unfold manualRow
  simp only [henum, List.getElem?_map]
  interval_cases i
  · exact ⟨_, rfl, rfl⟩
  · exact ⟨_, rfl, rfl⟩
  · exact ⟨_, rfl, rfl⟩
  · exact ⟨_, rfl, rfl⟩
  · exact ⟨_, rfl, rfl⟩

set_option maxRecDepth 20000 in
/-- C29: the manual parser fills the row by position: for every data line and
every `i < 5`, the value stored under the `i`-th expected column is the `i`-th
semicolon-separated cell of the line, trimmed, or the empty string when the
cell is missing; for the header `Year;Month;...`, a reordering of the expected
columns, validation succeeds and the data line `2023;March;...` is stored with
`Month = 2023` and `Year = March`, so that the cleaned record has month `2023`
and year `0`. -/
theorem manualRow_by_position :
    (∀ (line : JSString) (i : ℕ), i < 5 →
      ∃ col, expectedColumns[i]? = some col ∧
        (manualRow line)[i]? =
          some (col, orDefault (((splitOn ';' line)[i]?).map trim) [])) ∧
    (splitOn ';' ((manualLines swappedFile.text).headD [])).map trim =
      ["Year".toList, "Month".toList, "Generation_MW".toList, "Gas_Consumption_m3".toList,
        "CO2_Emissions_tonns".toList] ∧
    validateColumns ((splitOn ';' ((manualLines swappedFile.text).headD [])).map trim) =
      ValidationResult.valid ∧
    tryManualParsing swappedFile = [Event.onDataUpload (uploadOf swappedFile [swappedRow])] ∧
    swappedRow.get "Month".toList = some "2023".toList ∧
    swappedRow.get "Year".toList = some "March".toList ∧
    (cleanRow swappedRow 0).map (fun rec => (rec.Month, rec.Year)) =
      some ("2023".toList, 0) := by
  have hlines : (manualLines swappedFile.text).length = 2 := by decide
  have hheader : (splitOn ';' ((manualLines swappedFile.text).headD [])).map trim =
      ["Year".toList, "Month".toList, "Generation_MW".toList, "Gas_Consumption_m3".toList,
        "CO2_Emissions_tonns".toList] := by decide
  have hvalid : validateColumns
      ((splitOn ';' ((manualLines swappedFile.text).headD [])).map trim) =
        ValidationResult.valid := by
    rw [hheader]
    decide
  have hrows : manualRows (manualLines swappedFile.text) = [swappedRow] := by decide
  refine ⟨manualRow_getElem?, hheader, hvalid, ?_, by decide, by decide, by decide⟩
  rcases tryManualParsing_cases swappedFile with ⟨h, _⟩ | ⟨_, ht⟩
  · omega
  · rw [ht, hvalid, hrows]

/-! ## Auxiliary facts about the simulation in double-precision arithmetic -/

theorem max_le_iff (x y : JSNumber) (t : ℚ) :
    (JSNumber.max x y).le (JSNumber.num t) = true ↔
      x.le (JSNumber.num t) = true ∧ y.le (JSNumber.num t) = true := by
  cases x <;> cases y <;> simp [JSNumber.max, JSNumber.le]
  rename_i a b
  by_cases hab : a ≤ b
  · simp only [hab, if_true, decide_eq_true_eq]
    exact ⟨fun h => ⟨le_trans hab h, h⟩, fun h => h.2⟩
  · simp only [hab, if_false, decide_eq_true_eq]
    exact ⟨fun h => ⟨h, le_trans (le_of_lt (not_le.mp hab)) h⟩, fun h => h.1⟩

theorem mathMax_le_iff (xs : List JSNumber) (t : ℚ) :
    (Binary64.mathMax xs).le (JSNumber.num t) = true ↔
      ∀ x ∈ xs, x.le (JSNumber.num t) = true := by
  induction xs with
  | nil => simp [Binary64.mathMax, JSNumber.le]
  | cons a as ih =>
    rw [Binary64.mathMax, max_le_iff, ih]
    simp

theorem add_le_ofRat {a x : JSNumber} {s t : ℚ} (ha : a.le (JSNumber.num s) = true)
    (hx : x.le (JSNumber.num t) = true) : (a.add x).le (JSNumber.ofRat (s + t)) = true := by
  cases a <;> cases x <;> simp [JSNumber.le] at ha hx <;> simp only [JSNumber.add]
  all_goals first
    | exact le_of_ne_nan_negInf (ofRat_ne_nan _)
    | exact ofRat_mono (add_le_add ha hx)

theorem foldl_add_le (xs : List JSNumber) (acc : JSNumber) (k : ℕ)
    (hacc : acc.le (JSNumber.num ((350 * k : ℕ) : ℚ)) = true)
    (hxs : ∀ x ∈ xs, x.le (JSNumber.num 350) = true) (hk : k + xs.length < 2 ^ 32) :
    (xs.foldl (fun acc val => acc.add val) acc).le
      (JSNumber.num ((350 * (k + xs.length) : ℕ) : ℚ)) = true := by
  induction xs generalizing acc k with
  | nil => simpa using hacc
  | cons a as ih =>
    simp only [List.foldl_cons, List.length_cons]
    have h1 := add_le_ofRat hacc (hxs a (List.mem_cons_self a as))
    have h2 : JSNumber.ofRat (((350 * k : ℕ) : ℚ) + 350) =
        JSNumber.num ((350 * (k + 1) : ℕ) : ℚ) := by
      have h3 := ofRat_intCast ((350 * (k + 1) : ℕ) : ℤ) (by
        simp only [List.length_cons] at hk
        rw [abs_of_nonneg (by positivity)]
        have : 350 * (k + 1) < 2 ^ 53 := by omega
        exact_mod_cast this)
      have h4 : (((350 * (k + 1) : ℕ) : ℤ) : ℚ) = ((350 * k : ℕ) : ℚ) + 350 := by
        push_cast
        ring
      rw [h4] at h3
      rw [h3]
      congr 1
      push_cast
      ring
    rw [h2] at h1
    have h5 := ih (acc.add a) (k + 1) h1 (fun x hx => hxs x (List.mem_cons_of_mem a hx)) (by
      simp only [List.length_cons] at hk
      omega)
    have h6 : k + 1 + as.length = k + (as.length + 1) := by omega
    rw [h6] at h5
    exact h5

theorem avg_le_of_forall_le_js (xs : List JSNumber) (hne : xs ≠ [])
    (hlen : xs.length < 2 ^ 32) (hxs : ∀ x ∈ xs, x.le (JSNumber.num 350) = true) :
    ((Binary64.sum xs).div (JSNumber.num (xs.length : ℚ))).le (JSNumber.num 350) = true := by
  have hpos : 0 < xs.length := List.length_pos.mpr hne
  have hq : (0 : ℚ) < (xs.length : ℚ) := by exact_mod_cast hpos
  have h1 := foldl_add_le xs (JSNumber.num 0) 0 (by simp [JSNumber.le]) hxs (by omega)
  have h2 := div_num_mono hq h1
  have h3 : (JSNumber.num ((350 * (0 + xs.length) : ℕ) : ℚ)).div (JSNumber.num (xs.length : ℚ)) =
      JSNumber.num 350 := by
    have hne0 : (xs.length : ℚ) ≠ 0 := ne_of_gt hq
    simp only [JSNumber.div, if_neg hne0]
    have h4 : ((350 * (0 + xs.length) : ℕ) : ℚ) / (xs.length : ℚ) = ((350 : ℤ) : ℚ) := by
      push_cast
      field_simp
    rw [h4, ofRat_intCast 350 (by norm_num)]
    norm_num
  rw [h3] at h2
  exact h2

theorem testCompliant_iff_js (data : List CleanedRow) (b : ℤ) (hne : data ≠ [])
    (hlen : data.length < 2 ^ 32) :
    Binary64.testCompliant data b = true ↔
      ∀ r ∈ data, (Binary64.testIntensity b r).le (JSNumber.num 350) = true := by
  unfold Binary64.testCompliant Binary64.euThreshold
  simp only [Bool.and_eq_true, mathMax_le_iff]
  constructor
  · rintro ⟨h, _⟩ r hr
    exact h _ (List.mem_map_of_mem _ hr)
  · intro h
    have h1 : ∀ x ∈ data.map (Binary64.testIntensity b), x.le (JSNumber.num 350) = true := by
      intro x hx
      obtain ⟨r, hr, rfl⟩ := List.mem_map.mp hx
      exact h r hr
    exact ⟨h1, avg_le_of_forall_le_js _ (by simpa using hne) (by simpa using hlen) h1⟩

theorem simulateRow_intensity_js (b : ℤ) (r : CleanedRow) :
    (Binary64.simulateRow b r).Carbon_Intensity_kgCO2_MWh = Binary64.testIntensity b r := rfl

theorem isCompliant_eq_testCompliant_js (data : List CleanedRow) (b : ℤ) (hne : data ≠ []) :
    Binary64.isCompliant data b = Binary64.testCompliant data b := by
  have hlen : data.length ≠ 0 := by
    intro h
    exact hne (List.length_eq_zero.mp h)
  simp only [Binary64.isCompliant, Binary64.calculateSimulation, hlen, if_false,
    Binary64.testCompliant, List.map_map, List.length_map]
  rw [Bool.and_comm]
  rfl

/-- The blend factor `1 - b / 100` for a blend in `[0,100]`: a finite number
between 0 and 1. -/
theorem blendFactor_eq (b : ℤ) (h0 : 0 ≤ b) (h100 : b ≤ 100) :
    (JSNumber.num 1).sub ((JSNumber.num (b : ℚ)).div (JSNumber.num 100)) =
        JSNumber.num (roundToDouble (1 + -roundToDouble ((b : ℚ) / 100))) ∧
      0 ≤ roundToDouble (1 + -roundToDouble ((b : ℚ) / 100)) ∧
      roundToDouble (1 + -roundToDouble ((b : ℚ) / 100)) ≤ 1 := by
  have hb0 : (0 : ℚ) ≤ (b : ℚ) / 100 := by
    have : (0 : ℚ) ≤ (b : ℚ) := by exact_mod_cast h0
    positivity
  have hb1 : (b : ℚ) / 100 ≤ 1 := by
    have : (b : ℚ) ≤ 100 := by exact_mod_cast h100
    linarith
  have hone : roundToDouble 1 = 1 := by
    simpa using roundToDouble_intCast 1 (by norm_num)
  have hd0 := roundToDouble_nonneg hb0
  have hd1 : roundToDouble ((b : ℚ) / 100) ≤ 1 := by
    have := roundToDouble_mono hb1
    rwa [hone] at this
  have hf0 : 0 ≤ roundToDouble (1 + -roundToDouble ((b : ℚ) / 100)) :=
    roundToDouble_nonneg (by linarith)
  have hf1 : roundToDouble (1 + -roundToDouble ((b : ℚ) / 100)) ≤ 1 := by
    have := roundToDouble_mono (by linarith : 1 + -roundToDouble ((b : ℚ) / 100) ≤ 1)
    rwa [hone] at this
  have hbig : (1 : ℚ) < (2 : ℚ) ^ 1024 := by norm_num
  have hdiv : (JSNumber.num (b : ℚ)).div (JSNumber.num 100) =
      JSNumber.num (roundToDouble ((b : ℚ) / 100)) := by
    simp only [JSNumber.div, if_neg (by norm_num : (100 : ℚ) ≠ 0)]
    exact ofRat_eq_num _ (by linarith) (by linarith)
  refine ⟨?_, hf0, hf1⟩
  rw [hdiv]
  simp only [JSNumber.sub, JSNumber.neg, JSNumber.add]
  exact ofRat_eq_num _ (by linarith) (by linarith)

theorem blendFactor_antitone (b1 b2 : ℤ) (h12 : b1 ≤ b2) :
    roundToDouble (1 + -roundToDouble ((b2 : ℚ) / 100)) ≤
      roundToDouble (1 + -roundToDouble ((b1 : ℚ) / 100)) := by
  apply roundToDouble_mono
  have : roundToDouble ((b1 : ℚ) / 100) ≤ roundToDouble ((b2 : ℚ) / 100) := by
    apply roundToDouble_mono
    have : (b1 : ℚ) ≤ (b2 : ℚ) := by exact_mod_cast h12
    linarith
  linarith

theorem blendFactor_hundred :
    (JSNumber.num 1).sub ((JSNumber.num ((100 : ℤ) : ℚ)).div (JSNumber.num 100)) =
      JSNumber.num 0 := by
  rw [(blendFactor_eq 100 (by norm_num) (by norm_num)).1]
  have hone : roundToDouble 1 = 1 := by
    simpa using roundToDouble_intCast 1 (by norm_num)
  have h1 : ((100 : ℤ) : ℚ) / 100 = 1 := by norm_num
  rw [h1, hone]
  have h2 : (1 : ℚ) + -1 = 0 := by norm_num
  rw [h2, roundToDouble_zero]

theorem orZero_cases (x : JSNumber) (h1 : x ≠ JSNumber.posInf) (h2 : x ≠ JSNumber.negInf) :
    ∃ q : ℚ, x.orZero = JSNumber.num q := by
  cases x with
  | nan => exact ⟨0, rfl⟩
  | negInf => exact absurd rfl h2
  | posInf => exact absurd rfl h1
  | num q =>
    by_cases hq : q = 0
    · exact ⟨0, by simp [JSNumber.orZero, JSNumber.toBoolean, hq]⟩
    · exact ⟨q, by simp [JSNumber.orZero, JSNumber.toBoolean, hq]⟩

theorem orZero_gt_cases (x : JSNumber) (h1 : x ≠ JSNumber.posInf)
    (hgt : x.orZero.gt (JSNumber.num 0) = true) :
    ∃ g : ℚ, 0 < g ∧ x.orZero = JSNumber.num g := by
  cases x with
  | nan => simp [JSNumber.orZero, JSNumber.toBoolean, JSNumber.gt] at hgt
  | negInf => simp [JSNumber.orZero, JSNumber.toBoolean, JSNumber.gt] at hgt
  | posInf => exact absurd rfl h1
  | num q =>
    by_cases hq : q = 0
    · simp [JSNumber.orZero, JSNumber.toBoolean, JSNumber.gt, hq] at hgt
    · have h : (JSNumber.num q).orZero = JSNumber.num q := by
        simp [JSNumber.orZero, JSNumber.toBoolean, hq]
      rw [h] at hgt ⊢
      exact ⟨q, by simpa [JSNumber.gt] using hgt, rfl⟩

/-- The simulated emissions of a record with finite emissions, as a function of
the blend factor. -/
theorem newEmissions_antitone (q : ℚ) (hq : 0 ≤ q) (b1 b2 : ℤ) (h0 : 0 ≤ b1) (h12 : b1 ≤ b2)
    (h100 : b2 ≤ 100) :
    ((JSNumber.num q).mul
        ((JSNumber.num 1).sub ((JSNumber.num (b2 : ℚ)).div (JSNumber.num 100)))).le
      ((JSNumber.num q).mul
        ((JSNumber.num 1).sub ((JSNumber.num (b1 : ℚ)).div (JSNumber.num 100)))) = true := by
  rw [(blendFactor_eq b1 h0 (by omega)).1, (blendFactor_eq b2 (by omega) h100).1]
  simp only [JSNumber.mul]
  exact ofRat_mono (mul_le_mul_of_nonneg_left (blendFactor_antitone b1 b2 h12) hq)

theorem newEmissions_nonpos (q : ℚ) (hq : q ≤ 0) (b : ℤ) (h0 : 0 ≤ b) (h100 : b ≤ 100) :
    ((JSNumber.num q).mul
        ((JSNumber.num 1).sub ((JSNumber.num (b : ℚ)).div (JSNumber.num 100)))).le
      (JSNumber.num 0) = true := by
  obtain ⟨h1, h2, _⟩ := blendFactor_eq b h0 h100
  rw [h1]
  simp only [JSNumber.mul]
  have := ofRat_mono (mul_nonpos_of_nonpos_of_nonneg hq h2)
  rwa [ofRat_zero] at this

theorem testIntensity_mono_js (r : CleanedRow) (hc1 : r.CO2_Emissions_tonns ≠ JSNumber.posInf)
    (hc2 : r.CO2_Emissions_tonns ≠ JSNumber.negInf) (hg1 : r.Generation_MW ≠ JSNumber.posInf)
    (b1 b2 : ℤ) (h0 : 0 ≤ b1) (h12 : b1 ≤ b2) (h100 : b2 ≤ 100)
    (h : (Binary64.testIntensity b1 r).le (JSNumber.num 350) = true) :
    (Binary64.testIntensity b2 r).le (JSNumber.num 350) = true := by
  unfold Binary64.testIntensity at h ⊢
  simp only at h ⊢
  by_cases hgt : r.Generation_MW.orZero.gt (JSNumber.num 0) = true
  · rw [if_pos hgt] at h ⊢
    obtain ⟨g, hg, hgeq⟩ := orZero_gt_cases _ hg1 hgt
    obtain ⟨q, hqeq⟩ := orZero_cases _ hc1 hc2
    rw [hgeq, hqeq] at h ⊢
    by_cases hq : 0 ≤ q
    · exact le_trans_js (intensity_of_le hg (newEmissions_antitone q hq b1 b2 h0 h12 h100)) h
    · have h1 := intensity_of_le hg (newEmissions_nonpos q (le_of_lt (not_le.mp hq)) b2
        (by omega) h100)
      rw [intensity_zero hg] at h1
      exact le_trans_js h1 (by simp [JSNumber.le])
  · rw [if_neg hgt]
    simp [JSNumber.le]

theorem testCompliant_mono_js (data : List CleanedRow) (hne : data ≠ [])
    (hlen : data.length < 2 ^ 32)
    (hfin : ∀ r ∈ data, r.CO2_Emissions_tonns ≠ JSNumber.posInf ∧
      r.CO2_Emissions_tonns ≠ JSNumber.negInf ∧ r.Generation_MW ≠ JSNumber.posInf)
    (b1 b2 : ℤ) (h0 : 0 ≤ b1) (h12 : b1 ≤ b2) (h100 : b2 ≤ 100)
    (h : Binary64.testCompliant data b1 = true) : Binary64.testCompliant data b2 = true := by
  rw [testCompliant_iff_js data _ hne hlen] at *
  intro r hr
  obtain ⟨hc1, hc2, hg1⟩ := hfin r hr
  exact testIntensity_mono_js r hc1 hc2 hg1 b1 b2 h0 h12 h100 (h r hr)

theorem testIntensity_hundred_js (r : CleanedRow)
    (hc1 : r.CO2_Emissions_tonns ≠ JSNumber.posInf)
    (hc2 : r.CO2_Emissions_tonns ≠ JSNumber.negInf) :
    r.CO2_Emissions_tonns.orZero.mul
        ((JSNumber.num 1).sub ((JSNumber.num ((100 : ℤ) : ℚ)).div (JSNumber.num 100))) =
      JSNumber.num 0 ∧
    Binary64.testIntensity 100 r = JSNumber.num 0 := by
  obtain ⟨q, hqeq⟩ := orZero_cases _ hc1 hc2
  have hem : r.CO2_Emissions_tonns.orZero.mul
      ((JSNumber.num 1).sub ((JSNumber.num ((100 : ℤ) : ℚ)).div (JSNumber.num 100))) =
      JSNumber.num 0 := by
    rw [blendFactor_hundred, hqeq]
    simp only [JSNumber.mul, mul_zero, ofRat_zero]
  refine ⟨hem, ?_⟩
  unfold Binary64.testIntensity
  simp only
  rw [hem]
  by_cases hgt : r.Generation_MW.orZero.gt (JSNumber.num 0) = true
  · rw [if_pos hgt]
    have hm : (JSNumber.num 0).mul (JSNumber.num 1000) = JSNumber.num 0 := by
      simp only [JSNumber.mul, zero_mul, ofRat_zero]
    rw [hm]
    cases hgen : r.Generation_MW.orZero with
    | nan => rw [hgen] at hgt; simp [JSNumber.gt] at hgt
    | negInf => rw [hgen] at hgt; simp [JSNumber.gt] at hgt
    | posInf => rfl
    | num g =>
      rw [hgen] at hgt
      have hg : g ≠ 0 := by
        have : 0 < g := by simpa [JSNumber.gt] using hgt
        exact ne_of_gt this
      simp only [JSNumber.div, if_neg hg, zero_div, ofRat_zero]
  · rw [if_neg hgt]

/-- The binary search: the loop keeps `minBlend` equal to 100 or compliant, and
every blend below `left` not compliant, provided the test is monotone on
`[0,100]`. -/
theorem searchLoop_spec_js (data : List CleanedRow)
    (hmono : ∀ b1 b2 : ℤ, 0 ≤ b1 → b1 ≤ b2 → b2 ≤ 100 →
      Binary64.testCompliant data b1 = true → Binary64.testCompliant data b2 = true)
    (left right minBlend : ℤ)
    (h0 : 0 ≤ left) (h100 : right ≤ 100) (hlr : left ≤ right + 1)
    (hmin : minBlend = min (right + 1) 100)
    (hok : minBlend = 100 ∨ Binary64.testCompliant data minBlend = true)
    (hbelow : ∀ b : ℤ, 0 ≤ b → b < left → Binary64.testCompliant data b = false) :
    0 ≤ Binary64.searchLoop data left right minBlend ∧
      Binary64.searchLoop data left right minBlend ≤ 100 ∧
      (Binary64.searchLoop data left right minBlend = 100 ∨
        Binary64.testCompliant data (Binary64.searchLoop data left right minBlend) = true) ∧
      ∀ b : ℤ, 0 ≤ b → b < Binary64.searchLoop data left right minBlend →
        Binary64.testCompliant data b = false := by
  induction left, right, minBlend using Binary64.searchLoop.induct data with
  | case1 left right minBlend hle mid hc ih =>
    rw [Binary64.searchLoop, if_pos hle]
    simp only [mid] at hc ih ⊢
    rw [if_pos hc]
    apply ih h0 (by omega) (by omega) (by omega) (Or.inr hc) hbelow
  | case2 left right minBlend hle mid hc ih =>
    rw [Binary64.searchLoop, if_pos hle]
    simp only [mid] at hc ih ⊢
    rw [if_neg hc]
    apply ih (by omega) h100 (by omega) hmin hok
    intro b hb0 hb
    cases hb' : Binary64.testCompliant data b with
    | false => rfl
    | true =>
      have := hmono b ((left + right) / 2) hb0 (by omega) (by omega) hb'
      exact absurd this hc
  | case3 left right minBlend hle =>
    rw [Binary64.searchLoop, if_neg hle]
    have hmle : minBlend ≤ left := by omega
    refine ⟨by omega, by omega, hok, ?_⟩
    intro b hb0 hb
    exact hbelow b hb0 (by omega)

theorem findMin_spec_js (data : List CleanedRow) (hne : data ≠ [])
    (hmono : ∀ b1 b2 : ℤ, 0 ≤ b1 → b1 ≤ b2 → b2 ≤ 100 →
      Binary64.testCompliant data b1 = true → Binary64.testCompliant data b2 = true) :
    0 ≤ Binary64.findMinBlendForCompliance data ∧
      Binary64.findMinBlendForCompliance data ≤ 100 ∧
      (Binary64.findMinBlendForCompliance data = 100 ∨
        Binary64.testCompliant data (Binary64.findMinBlendForCompliance data) = true) ∧
      ∀ b : ℤ, 0 ≤ b → b < Binary64.findMinBlendForCompliance data →
        Binary64.testCompliant data b = false := by
  have hlen : data.length ≠ 0 := fun h => hne (List.length_eq_zero.mp h)
  unfold Binary64.findMinBlendForCompliance
  rw [if_neg hlen]
  exact searchLoop_spec_js data hmono 0 100 100 (by norm_num) (by norm_num) (by norm_num)
    (by norm_num) (Or.inl rfl) (fun b h1 h2 => absurd h2 (by omega))

theorem testIntensity_of_num (b : ℤ) (r : CleanedRow) (c g : ℚ)
    (hc : r.CO2_Emissions_tonns = JSNumber.num c) (hg : r.Generation_MW = JSNumber.num g)
    (hpos : 0 < g) :
    Binary64.testIntensity b r =
      (((JSNumber.num c).mul
        ((JSNumber.num 1).sub ((JSNumber.num (b : ℚ)).div (JSNumber.num 100)))).mul
          (JSNumber.num 1000)).div (JSNumber.num g) := by
  have hgt : (JSNumber.num g).gt (JSNumber.num 0) = true := by simpa [JSNumber.gt] using hpos
  simp only [Binary64.testIntensity, hc, hg, orZero_num, hgt, if_true]

theorem cleanAndProcessData_infiniteRawRow :
    cleanAndProcessData [infiniteRawRow] = [infiniteRecord] := by
  have hm : (trim (orDefault (infiniteRawRow.get "Month".toList) [])).filter
      (fun c => !(c = '\t' || c = '\n' || c = '\r')) = "June".toList := by decide
  have hy : (parseInt ((orDefault (infiniteRawRow.get "Year".toList) "0".toList).filter
      (fun c => !isWhiteSpace c))).getD 0 = 2023 := by decide
  have e10 : JSNumber.ofRat 10 = JSNumber.num 10 :=
    ofRat_of_eq_int _ _ 10 (by norm_num) (by norm_num) (by norm_num)
  have e7 : JSNumber.ofRat 7 = JSNumber.num 7 :=
    ofRat_of_eq_int _ _ 7 (by norm_num) (by norm_num) (by norm_num)
  have hg : cleanNumber (infiniteRawRow.get "Generation_MW".toList) = JSNumber.num 10 := by
    simp [cleanNumber, numericText, infiniteRawRow, RawRow.get, List.lookup, orDefault,
      replaceFirst, parseFloat, takeSign, isWhiteSpace, digitsValue, exponentOf,
      JSNumber.orZero, JSNumber.toBoolean, e10]
  have hgas : cleanNumber (infiniteRawRow.get "Gas_Consumption_m3".toList) = JSNumber.num 7 := by
    simp [cleanNumber, numericText, infiniteRawRow, RawRow.get, List.lookup, orDefault,
      replaceFirst, parseFloat, takeSign, isWhiteSpace, digitsValue, exponentOf,
      JSNumber.orZero, JSNumber.toBoolean, e7]
  have hc : cleanNumber (infiniteRawRow.get "CO2_Emissions_tonns".toList) = JSNumber.posInf := by
    have h1 : numericText (infiniteRawRow.get "CO2_Emissions_tonns".toList) =
        "Infinity".toList := by decide
    have h2 : parseFloat "Infinity".toList = JSNumber.posInf := by
      have h3 : takeSign ("Infinity".toList.dropWhile isWhiteSpace) =
          (false, "Infinity".toList) := by decide
      have h4 : "Infinity".toList.isPrefixOf "Infinity".toList = true := by decide
      simp only [parseFloat, h3, h4, if_true]
      rfl
    rw [cleanNumber, h1, h2]
    rfl
  have hi : (if (JSNumber.num 10).gt (JSNumber.num 0) then
      (JSNumber.posInf.mul (JSNumber.num 1000)).div (JSNumber.num 10) else JSNumber.num 0) =
      JSNumber.posInf := by
    have hgt : (JSNumber.num 10).gt (JSNumber.num 0) = true := by simp [JSNumber.gt]
    rw [if_pos hgt, posInf_mul_pos (by norm_num), posInf_div_pos (by norm_num)]
  have hrow : cleanRow infiniteRawRow 0 = some infiniteRecord := by
    simp only [cleanRow, hm, hy, hg, hgas, hc, hi, infiniteRecord]
  simp only [cleanAndProcessData, List.enum, List.enumFrom, List.map_cons, List.map_nil, hrow,
    List.filterMap_cons, List.filterMap_nil, id]

/-! ## Further facts about the simulation in double-precision arithmetic -/

theorem calculateSimulation_some_js (data : List CleanedRow) (b : ℤ) (hne : data ≠ []) :
    ∃ out, Binary64.calculateSimulation data b = some out ∧
      out.newData = data.map (Binary64.simulateRow b) ∧
      out.complianceData.isCompliant = Binary64.isCompliant data b ∧
      out.complianceData.minBlendForCompliance = Binary64.findMinBlendForCompliance data ∧
      out.complianceData.averageCarbonIntensity =
        (Binary64.sum (data.map (Binary64.testIntensity b))).div
          (JSNumber.num (data.length : ℚ)) ∧
      out.complianceData.maxCarbonIntensity =
        Binary64.mathMax (data.map (Binary64.testIntensity b)) := by
  have hlen : data.length ≠ 0 := fun h => hne (List.length_eq_zero.mp h)
  refine ⟨_, by simp only [Binary64.calculateSimulation, hlen, if_false]; rfl, rfl, ?_, rfl, ?_, ?_⟩
  · simp only [Binary64.isCompliant, Binary64.calculateSimulation, hlen, if_false]
  · simp only [List.map_map, List.length_map]
    rfl
  · simp only [List.map_map]
    rfl

theorem testCompliant_eq_false_of (data : List CleanedRow) (hne : data ≠ [])
    (hlen : data.length < 2 ^ 32) (b : ℤ) (r : CleanedRow) (hr : r ∈ data)
    (h : (Binary64.testIntensity b r).le (JSNumber.num 350) = false) :
    Binary64.testCompliant data b = false := by
  cases hc : Binary64.testCompliant data b with
  | false => rfl
  | true =>
    have := (testCompliant_iff_js data b hne hlen).mp hc r hr
    rw [h] at this
    exact absurd this (by decide)

theorem findMin_eq_of_boundary (data : List CleanedRow) (hne : data ≠ [])
    (hmono : ∀ b1 b2 : ℤ, 0 ≤ b1 → b1 ≤ b2 → b2 ≤ 100 →
      Binary64.testCompliant data b1 = true → Binary64.testCompliant data b2 = true)
    (m : ℤ) (h0 : 0 < m) (h100 : m ≤ 100)
    (hlow : Binary64.testCompliant data (m - 1) = false)
    (hm : Binary64.testCompliant data m = true) :
    Binary64.findMinBlendForCompliance data = m := by
  obtain ⟨hr0, hr100, hok, hbelow⟩ := findMin_spec_js data hne hmono
  apply le_antisymm
  · by_contra hcon
    push_neg at hcon
    have := hbelow m h0.le hcon
    rw [hm] at this
    exact absurd this (by decide)
  · by_contra hcon
    push_neg at hcon
    rcases hok with h | h
    · omega
    · have := hmono _ (m - 1) hr0 (by omega) (by omega) h
      rw [hlow] at this
      exact absurd this (by decide)

theorem findMin_eq_hundred (data : List CleanedRow) (hne : data ≠ [])
    (hall : ∀ b : ℤ, 0 ≤ b → b ≤ 100 → Binary64.testCompliant data b = false) :
    Binary64.findMinBlendForCompliance data = 100 := by
  have hmono : ∀ b1 b2 : ℤ, 0 ≤ b1 → b1 ≤ b2 → b2 ≤ 100 →
      Binary64.testCompliant data b1 = true → Binary64.testCompliant data b2 = true := by
    intro b1 b2 h0 h12 h100 h
    rw [hall b1 h0 (by omega)] at h
    exact absurd h (by decide)
  obtain ⟨hr0, hr100, hok, _⟩ := findMin_spec_js data hne hmono
  rcases hok with h | h
  · exact h
  · rw [hall _ hr0 hr100] at h
    exact absurd h (by decide)

theorem testCompliant_hundred_js (data : List CleanedRow) (hne : data ≠ [])
    (hlen : data.length < 2 ^ 32)
    (hfin : ∀ r ∈ data, r.CO2_Emissions_tonns ≠ JSNumber.posInf ∧
      r.CO2_Emissions_tonns ≠ JSNumber.negInf) :
    Binary64.testCompliant data 100 = true := by
  rw [testCompliant_iff_js data _ hne hlen]
  intro r hr
  rw [(testIntensity_hundred_js r (hfin r hr).1 (hfin r hr).2).2]
  simp [JSNumber.le]

theorem posInf_orZero : JSNumber.posInf.orZero = JSNumber.posInf := rfl

/-- The record with infinite emissions: at no blend in `[0,100]` is its
simulated intensity at most 350. -/
theorem testIntensity_infiniteRecord (b : ℤ) (h0 : 0 ≤ b) (h100 : b ≤ 100) :
    (Binary64.testIntensity b infiniteRecord).le (JSNumber.num 350) = false := by
  obtain ⟨hf, hf0, _⟩ := blendFactor_eq b h0 h100
  have hgt : (JSNumber.num 10).gt (JSNumber.num 0) = true := by simp [JSNumber.gt]
  simp only [Binary64.testIntensity, infiniteRecord, posInf_orZero, orZero_num, hgt, if_true,
    hf]
  by_cases hz : roundToDouble (1 + -roundToDouble ((b : ℚ) / 100)) = 0
  · rw [hz]
    rfl
  · have hpos : 0 < roundToDouble (1 + -roundToDouble ((b : ℚ) / 100)) :=
      lt_of_le_of_ne hf0 (Ne.symm hz)
    rw [posInf_mul_pos hpos, posInf_mul_pos (by norm_num), posInf_div_pos (by norm_num)]
    rfl

theorem testCompliant_infiniteRecord (b : ℤ) (h0 : 0 ≤ b) (h100 : b ≤ 100) :
    Binary64.testCompliant [infiniteRecord] b = false :=
  testCompliant_eq_false_of [infiniteRecord] (by simp) (by simp) b infiniteRecord
    (List.mem_singleton.mpr rfl) (testIntensity_infiniteRecord b h0 h100)

theorem newEmissions_infiniteRecord :
    (Binary64.simulateRow 100 infiniteRecord).CO2_Emissions_tonns = JSNumber.nan := by
  show infiniteRecord.CO2_Emissions_tonns.orZero.mul
    ((JSNumber.num 1).sub ((JSNumber.num ((100 : ℤ) : ℚ)).div (JSNumber.num 100))) = JSNumber.nan
  rw [blendFactor_hundred]
  rfl

theorem foldl_add_zero (xs : List JSNumber) (h : ∀ x ∈ xs, x = JSNumber.num 0) :
    Binary64.sum xs = JSNumber.num 0 := by
  unfold Binary64.sum
  induction xs with
  | nil => rfl
  | cons a as ih =>
    rw [List.foldl_cons, h a (List.mem_cons_self a as)]
    have h0 : (JSNumber.num 0).add (JSNumber.num 0) = JSNumber.num 0 := by
      simp only [JSNumber.add, add_zero, ofRat_zero]
    rw [h0]
    exact ih (fun x hx => h x (List.mem_cons_of_mem a hx))

theorem gt_orZero (x : JSNumber) :
    x.orZero.gt (JSNumber.num 0) = x.gt (JSNumber.num 0) ∧
      (x.gt (JSNumber.num 0) = true → x.orZero = x) := by
  cases x with
  | nan => exact ⟨by simp [JSNumber.orZero, JSNumber.toBoolean, JSNumber.gt], fun h => by
      simp [JSNumber.gt] at h⟩
  | negInf => exact ⟨rfl, fun _ => rfl⟩
  | posInf => exact ⟨rfl, fun _ => rfl⟩
  | num q => exact ⟨by rw [orZero_num], fun _ => orZero_num q⟩

/-! ## Claims about the simulation in double-precision arithmetic -/

/-- C1 (counterexample): the row with generation `10` and emissions cell
`Infinity` is stored with infinite emissions; on that one-record list the
search returns 100, and the simulation at blend 100 is not compliant, because
`Infinity * 0` is `NaN`. -/
theorem findMinBlendForCompliance_infinite_emissions :
    cleanAndProcessData [infiniteRawRow] = [infiniteRecord] ∧
      Binary64.findMinBlendForCompliance (cleanAndProcessData [infiniteRawRow]) = 100 ∧
      Binary64.isCompliant (cleanAndProcessData [infiniteRawRow]) 100 = false := by
  rw [cleanAndProcessData_infiniteRawRow]
  refine ⟨rfl, findMin_eq_hundred _ (by simp) testCompliant_infiniteRecord, ?_⟩
  rw [isCompliant_eq_testCompliant_js _ _ (by simp)]
  exact testCompliant_infiniteRecord 100 (by norm_num) (by norm_num)

/-- C1 (amended): for a non-empty record list (of fewer than `2^32` records, as
every JavaScript array) whose emissions are not infinite and whose generation is
not `Infinity`, the search returns the least blend in `[0,100]` at which the
simulation reports `isCompliant`: the result is in range and compliant, its
predecessor (when the result is positive) is not compliant, no smaller blend in
range is compliant, and the result is `0` when every record has zero
generation. -/
theorem findMinBlendForCompliance_least (data : List CleanedRow) (hne : data ≠ [])
    (hlen : data.length < 2 ^ 32)
    (hfin : ∀ r ∈ data, r.CO2_Emissions_tonns ≠ JSNumber.posInf ∧
      r.CO2_Emissions_tonns ≠ JSNumber.negInf ∧ r.Generation_MW ≠ JSNumber.posInf) :
    0 ≤ Binary64.findMinBlendForCompliance data ∧
      Binary64.findMinBlendForCompliance data ≤ 100 ∧
      Binary64.isCompliant data (Binary64.findMinBlendForCompliance data) = true ∧
      (0 < Binary64.findMinBlendForCompliance data →
        Binary64.isCompliant data (Binary64.findMinBlendForCompliance data - 1) = false) ∧
      (∀ b : ℤ, 0 ≤ b → b < Binary64.findMinBlendForCompliance data →
        Binary64.isCompliant data b = false) ∧
      ((∀ r ∈ data, r.Generation_MW = JSNumber.num 0) →
        Binary64.findMinBlendForCompliance data = 0) := by
  have hmono := testCompliant_mono_js data hne hlen hfin
  have h100c := testCompliant_hundred_js data hne hlen
    (fun r hr => ⟨(hfin r hr).1, (hfin r hr).2.1⟩)
  obtain ⟨h0, h100, hok, hlow⟩ := findMin_spec_js data hne hmono
  have hok2 : Binary64.testCompliant data (Binary64.findMinBlendForCompliance data) = true := by
    rcases hok with h | h
    · rw [h]
      exact h100c
    · exact h
  have hlow2 : ∀ b : ℤ, 0 ≤ b → b < Binary64.findMinBlendForCompliance data →
      Binary64.isCompliant data b = false := by
    intro b hb0 hb
    rw [isCompliant_eq_testCompliant_js data b hne]
    exact hlow b hb0 hb
  refine ⟨h0, h100, ?_, ?_, hlow2, ?_⟩
  · rw [isCompliant_eq_testCompliant_js data _ hne]
    exact hok2
  · intro hpos
    exact hlow2 _ (by omega) (by omega)
  · intro hz
    by_contra hcon
    have hpos : 0 < Binary64.findMinBlendForCompliance data := by omega
    have hf := hlow 0 (le_refl 0) hpos
    have ht : Binary64.testCompliant data 0 = true := by
      rw [testCompliant_iff_js data 0 hne hlen]
      intro r hr
      unfold Binary64.testIntensity
      simp only [hz r hr, orZero_num]
      simp [JSNumber.gt, JSNumber.le]
    rw [ht] at hf
    exact absurd hf (by decide)

/-- Witness for C1 (amended) at the one-record list of the worked scenario. -/
theorem findMinBlendForCompliance_least_witness :
    [scenarioRecord] ≠ [] ∧
      Binary64.isCompliant [scenarioRecord]
        (Binary64.findMinBlendForCompliance [scenarioRecord]) = true :=
  ⟨by simp, (findMinBlendForCompliance_least [scenarioRecord] (by simp) (by simp)
    (by simp [scenarioRecord])).2.2.1⟩

/-- C2 (counterexample): for the record with generation `10` and emissions
`Infinity`, which are non-negative, the simulated emissions at blend 100 are
`NaN` (`Infinity * 0`), and neither they nor the simulated intensity are at most
their values at blend 99. -/
theorem simulateRow_infinite_emissions :
    cleanAndProcessData [infiniteRawRow] = [infiniteRecord] ∧
      (JSNumber.num 0).le infiniteRecord.CO2_Emissions_tonns = true ∧
      (Binary64.simulateRow 100 infiniteRecord).CO2_Emissions_tonns = JSNumber.nan ∧
      (Binary64.simulateRow 100 infiniteRecord).CO2_Emissions_tonns.le
        (Binary64.simulateRow 99 infiniteRecord).CO2_Emissions_tonns = false ∧
      (Binary64.simulateRow 100 infiniteRecord).Carbon_Intensity_kgCO2_MWh.le
        (Binary64.simulateRow 99 infiniteRecord).Carbon_Intensity_kgCO2_MWh = false := by
  have hi : (Binary64.simulateRow 100 infiniteRecord).Carbon_Intensity_kgCO2_MWh =
      JSNumber.nan := by
    show (if infiniteRecord.Generation_MW.orZero.gt (JSNumber.num 0) then
      ((Binary64.simulateRow 100 infiniteRecord).CO2_Emissions_tonns.mul
        (JSNumber.num 1000)).div infiniteRecord.Generation_MW.orZero else JSNumber.num 0) =
      JSNumber.nan
    rw [newEmissions_infiniteRecord]
    have hgt : (JSNumber.num 10).gt (JSNumber.num 0) = true := by simp [JSNumber.gt]
    simp only [infiniteRecord, orZero_num, hgt, if_true]
    rfl
  refine ⟨cleanAndProcessData_infiniteRawRow, rfl, newEmissions_infiniteRecord, ?_, ?_⟩
  · rw [newEmissions_infiniteRecord]
    exact nan_le _
  · rw [hi]
    exact nan_le _

/-- C2 (amended): for a record whose emissions are a finite non-negative
number and whose generation is not `Infinity`, and blends `0 ≤ b1 < b2 ≤ 100`,
the simulated emissions and the simulated intensity at `b2` are at most those
at `b1`; the simulated emissions are `co2 * (1 - b/100)` and the simulated
intensity is `newEmissions * 1000 / generation` when the generation is positive
and `0` otherwise, every operation rounded to a double. -/
theorem simulateRow_monotone (r : CleanedRow) (b1 b2 : ℤ)
    (hco2 : (JSNumber.num 0).le r.CO2_Emissions_tonns = true)
    (hfin : r.CO2_Emissions_tonns ≠ JSNumber.posInf)
    (hgen : r.Generation_MW ≠ JSNumber.posInf)
    (h0 : 0 ≤ b1) (h12 : b1 < b2) (h100 : b2 ≤ 100) :
    (Binary64.simulateRow b2 r).CO2_Emissions_tonns.le
        (Binary64.simulateRow b1 r).CO2_Emissions_tonns = true ∧
      (Binary64.simulateRow b2 r).Carbon_Intensity_kgCO2_MWh.le
        (Binary64.simulateRow b1 r).Carbon_Intensity_kgCO2_MWh = true ∧
      (∀ b : ℤ, (Binary64.simulateRow b r).CO2_Emissions_tonns =
          r.CO2_Emissions_tonns.mul
            ((JSNumber.num 1).sub ((JSNumber.num (b : ℚ)).div (JSNumber.num 100)))) ∧
      (∀ b : ℤ, (Binary64.simulateRow b r).Carbon_Intensity_kgCO2_MWh =
          if r.Generation_MW.gt (JSNumber.num 0) then
            ((Binary64.simulateRow b r).CO2_Emissions_tonns.mul (JSNumber.num 1000)).div
              r.Generation_MW
          else JSNumber.num 0) := by
  obtain ⟨q, hq, hqeq⟩ : ∃ q : ℚ, 0 ≤ q ∧ r.CO2_Emissions_tonns = JSNumber.num q := by
    cases hc : r.CO2_Emissions_tonns with
    | nan => rw [hc] at hco2; simp [JSNumber.le] at hco2
    | negInf => rw [hc] at hco2; simp [JSNumber.le] at hco2
    | posInf => exact absurd hc hfin
    | num q =>
      rw [hc] at hco2
      exact ⟨q, by simpa [JSNumber.le] using hco2, rfl⟩
  have hem : ∀ b : ℤ, (Binary64.simulateRow b r).CO2_Emissions_tonns =
      (JSNumber.num q).mul
        ((JSNumber.num 1).sub ((JSNumber.num (b : ℚ)).div (JSNumber.num 100))) := by
    intro b
    show r.CO2_Emissions_tonns.orZero.mul _ = _
    rw [hqeq, orZero_num]
  have hin : ∀ b : ℤ, (Binary64.simulateRow b r).Carbon_Intensity_kgCO2_MWh =
      if r.Generation_MW.orZero.gt (JSNumber.num 0) then
        ((Binary64.simulateRow b r).CO2_Emissions_tonns.mul (JSNumber.num 1000)).div
          r.Generation_MW.orZero
      else JSNumber.num 0 := fun b => rfl
  have hle := newEmissions_antitone q hq b1 b2 h0 h12.le h100
  refine ⟨?_, ?_, ?_, ?_⟩
  · rw [hem b1, hem b2]
    exact hle
  · rw [hin b1, hin b2, hem b1, hem b2]
    by_cases hgt : r.Generation_MW.orZero.gt (JSNumber.num 0) = true
    · rw [if_pos hgt, if_pos hgt]
      obtain ⟨g, hg, hgeq⟩ := orZero_gt_cases _ hgen hgt
      rw [hgeq]
      exact intensity_of_le hg hle
    · rw [if_neg hgt, if_neg hgt]
      simp [JSNumber.le]
  · intro b
    rw [hem b, hqeq]
  · intro b
    rw [hin b]
    obtain ⟨h1, h2⟩ := gt_orZero r.Generation_MW
    rw [h1]
    by_cases hgt : r.Generation_MW.gt (JSNumber.num 0) = true
    · rw [if_pos hgt, if_pos hgt, h2 hgt]
    · rw [if_neg hgt, if_neg hgt]

/-- Witness for C2 (amended): the scenario record at blends 12 and 13. -/
theorem simulateRow_monotone_witness :
    (Binary64.simulateRow 13 scenarioRecord).CO2_Emissions_tonns.le
      (Binary64.simulateRow 12 scenarioRecord).CO2_Emissions_tonns = true :=
  (simulateRow_monotone scenarioRecord 12 13 (by simp [scenarioRecord, JSNumber.le])
    (by simp [scenarioRecord]) (by simp [scenarioRecord]) (by norm_num) (by norm_num)
    (by norm_num)).1

/-- C3 (counterexample): on the one-record list stored for the row with
emissions cell `Infinity`, the simulation at blend 100 produces `NaN` emissions
and a `NaN` maximum intensity, and `isCompliant` is false. -/
theorem calculateSimulation_hundred_infinite :
    cleanAndProcessData [infiniteRawRow] = [infiniteRecord] ∧
      ∃ out, Binary64.calculateSimulation (cleanAndProcessData [infiniteRawRow]) 100 = some out ∧
        out.newData = (cleanAndProcessData [infiniteRawRow]).map (Binary64.simulateRow 100) ∧
        (∀ s ∈ out.newData, s.CO2_Emissions_tonns = JSNumber.nan) ∧
        out.complianceData.maxCarbonIntensity.le (JSNumber.num 350) = false ∧
        out.complianceData.isCompliant = false := by
  rw [cleanAndProcessData_infiniteRawRow]
  obtain ⟨out, hout, hnew, hflag, _, _, hmax⟩ :=
    calculateSimulation_some_js [infiniteRecord] 100 (by simp)
  refine ⟨rfl, out, hout, hnew, ?_, ?_, ?_⟩
  · intro s hs
    rw [hnew] at hs
    simp only [List.map_cons, List.map_nil, List.mem_singleton] at hs
    rw [hs]
    exact newEmissions_infiniteRecord
  · rw [hmax]
    cases h : (Binary64.mathMax ([infiniteRecord].map (Binary64.testIntensity 100))).le
        (JSNumber.num 350) with
    | false => rfl
    | true =>
      have := (mathMax_le_iff _ 350).mp h _
        (List.mem_map_of_mem _ (List.mem_singleton.mpr rfl))
      rw [testIntensity_infiniteRecord 100 (by norm_num) (by norm_num)] at this
      exact absurd this (by decide)
  · rw [hflag, isCompliant_eq_testCompliant_js _ _ (by simp)]
    exact testCompliant_infiniteRecord 100 (by norm_num) (by norm_num)

/-- C3 (amended): for a non-empty record list whose emissions are not infinite,
the simulation at blend 100 produces one simulated record per record, in order,
in which every simulated emission and every simulated intensity is `0`; the
average and the maximum intensity are at most 350, and `isCompliant` is true. -/
theorem calculateSimulation_hundred_compliant (data : List CleanedRow) (hne : data ≠ [])
    (hfin : ∀ r ∈ data, r.CO2_Emissions_tonns ≠ JSNumber.posInf ∧
      r.CO2_Emissions_tonns ≠ JSNumber.negInf) :
    ∃ out, Binary64.calculateSimulation data 100 = some out ∧
      out.newData = data.map (Binary64.simulateRow 100) ∧
      (∀ s ∈ out.newData, s.CO2_Emissions_tonns = JSNumber.num 0 ∧
        s.Carbon_Intensity_kgCO2_MWh = JSNumber.num 0) ∧
      out.complianceData.averageCarbonIntensity.le (JSNumber.num 350) = true ∧
      out.complianceData.maxCarbonIntensity.le (JSNumber.num 350) = true ∧
      out.complianceData.isCompliant = true := by
  obtain ⟨out, hout, hnew, hflag, _, havg, hmax⟩ := calculateSimulation_some_js data 100 hne
  have hzero : ∀ x ∈ data.map (Binary64.testIntensity 100), x = JSNumber.num 0 := by
    intro x hx
    obtain ⟨r, hr, rfl⟩ := List.mem_map.mp hx
    exact (testIntensity_hundred_js r (hfin r hr).1 (hfin r hr).2).2
  have hlen : (data.length : ℚ) ≠ 0 := by
    have : data.length ≠ 0 := fun h => hne (List.length_eq_zero.mp h)
    exact_mod_cast this
  have havg0 : out.complianceData.averageCarbonIntensity = JSNumber.num 0 := by
    rw [havg, foldl_add_zero _ hzero]
    simp only [JSNumber.div, if_neg hlen, zero_div, ofRat_zero]
  have hmaxle : out.complianceData.maxCarbonIntensity.le (JSNumber.num 350) = true := by
    rw [hmax, mathMax_le_iff]
    intro x hx
    rw [hzero x hx]
    simp [JSNumber.le]
  have havgle : out.complianceData.averageCarbonIntensity.le (JSNumber.num 350) = true := by
    rw [havg0]
    simp [JSNumber.le]
  refine ⟨out, hout, hnew, ?_, havgle, hmaxle, ?_⟩
  · intro s hs
    rw [hnew] at hs
    obtain ⟨r, hr, rfl⟩ := List.mem_map.mp hs
    exact testIntensity_hundred_js r (hfin r hr).1 (hfin r hr).2
  · rw [hflag]
    simp only [Binary64.isCompliant, hout]
    have hlen0 : data.length ≠ 0 := fun h => hne (List.length_eq_zero.mp h)
    have hdef : out.complianceData.isCompliant =
        (out.complianceData.averageCarbonIntensity.le Binary64.euThreshold &&
          out.complianceData.maxCarbonIntensity.le Binary64.euThreshold) := by
      simp only [Binary64.calculateSimulation, hlen0, if_false, Option.some.injEq] at hout
      rw [← hout]
    rw [hdef, Binary64.euThreshold, havgle, hmaxle]
    rfl

/-- Witness for C3 (amended) at the one-record list of the worked scenario. -/
theorem calculateSimulation_hundred_compliant_witness :
    [scenarioRecord] ≠ [] ∧ ∃ out, Binary64.calculateSimulation [scenarioRecord] 100 = some out ∧
      out.complianceData.isCompliant = true :=
  ⟨by simp, (calculateSimulation_hundred_compliant [scenarioRecord] (by simp)
    (by simp [scenarioRecord])).elim (fun out h => ⟨out, h.1, h.2.2.2.2.2⟩)⟩

theorem testIntensity_scenario_zero (r : CleanedRow)
    (hc : r.CO2_Emissions_tonns = JSNumber.num 400)
    (hg : r.Generation_MW = JSNumber.num 1000) :
    Binary64.testIntensity 0 r = JSNumber.num (400) := by
  have h1 : JSNumber.ofRat (((0 : ℤ) : ℚ) / 100) = JSNumber.num (0) :=
    ofRat_of_eq_int _ _ (0) (by norm_num) (by norm_num) (by norm_num)
  have h2 : JSNumber.ofRat (1 + -(0)) = JSNumber.num (1) :=
    ofRat_of_eq_int _ _ (1) (by norm_num) (by norm_num) (by norm_num)
  have h3 : JSNumber.ofRat (400 * (1)) = JSNumber.num (400) :=
    ofRat_of_eq_int _ _ (400) (by norm_num) (by norm_num) (by norm_num)
  have h4 : JSNumber.ofRat (400 * 1000) = JSNumber.num (400000) :=
    ofRat_of_eq_int _ _ (400000) (by norm_num) (by norm_num) (by norm_num)
  have h5 : JSNumber.ofRat (400000 / 1000) = JSNumber.num (400) :=
    ofRat_of_eq_int _ _ (400) (by norm_num) (by norm_num) (by norm_num)
  rw [testIntensity_of_num 0 r 400 1000 hc hg (by norm_num),
    div_num_num _ _ (by norm_num : (100 : ℚ) ≠ 0), h1, sub_num_num, h2, mul_num_num, h3,
    mul_num_num, h4, div_num_num _ _ (by norm_num : (1000 : ℚ) ≠ 0), h5]

theorem testIntensity_scenario_twelve (r : CleanedRow)
    (hc : r.CO2_Emissions_tonns = JSNumber.num 400)
    (hg : r.Generation_MW = JSNumber.num 1000) :
    Binary64.testIntensity 12 r = JSNumber.num (352) := by
  have h1 : JSNumber.ofRat (((12 : ℤ) : ℚ) / 100) =
      JSNumber.num (1080863910568919 / 9007199254740992) :=
    ofRat_eq_of_near _ _ (8646911284551352) (-56) (by norm_num) (by norm_num) (by norm_num)
      (by norm_num) (by norm_num) (by norm_num) (by norm_num)
  have h2 : JSNumber.ofRat (1 + -(1080863910568919 / 9007199254740992)) =
      JSNumber.num (7926335344172073 / 9007199254740992) :=
    ofRat_eq_of_near _ _ (7926335344172073) (-53) (by norm_num) (by norm_num) (by norm_num)
      (by norm_num) (by norm_num) (by norm_num) (by norm_num)
  have h3 : JSNumber.ofRat (400 * (7926335344172073 / 9007199254740992)) =
      JSNumber.num (352) :=
    ofRat_eq_of_near _ _ (6192449487634432) (-44) (by norm_num) (by norm_num) (by norm_num)
      (by norm_num) (by norm_num) (by norm_num) (by norm_num)
  have h4 : JSNumber.ofRat (352 * 1000) = JSNumber.num (352000) :=
    ofRat_of_eq_int _ _ (352000) (by norm_num) (by norm_num) (by norm_num)
  have h5 : JSNumber.ofRat (352000 / 1000) = JSNumber.num (352) :=
    ofRat_of_eq_int _ _ (352) (by norm_num) (by norm_num) (by norm_num)
  rw [testIntensity_of_num 12 r 400 1000 hc hg (by norm_num),
    div_num_num _ _ (by norm_num : (100 : ℚ) ≠ 0), h1, sub_num_num, h2, mul_num_num, h3,
    mul_num_num, h4, div_num_num _ _ (by norm_num : (1000 : ℚ) ≠ 0), h5]

theorem testIntensity_scenario_thirteen (r : CleanedRow)
    (hc : r.CO2_Emissions_tonns = JSNumber.num 400)
    (hg : r.Generation_MW = JSNumber.num 1000) :
    Binary64.testIntensity 13 r = JSNumber.num (348) := by
  have h1 : JSNumber.ofRat (((13 : ℤ) : ℚ) / 100) =
      JSNumber.num (1170935903116329 / 9007199254740992) :=
    ofRat_eq_of_near _ _ (4683743612465316) (-55) (by norm_num) (by norm_num) (by norm_num)
      (by norm_num) (by norm_num) (by norm_num) (by norm_num)
  have h2 : JSNumber.ofRat (1 + -(1170935903116329 / 9007199254740992)) =
      JSNumber.num (7836263351624663 / 9007199254740992) :=
    ofRat_eq_of_near _ _ (7836263351624663) (-53) (by norm_num) (by norm_num) (by norm_num)
      (by norm_num) (by norm_num) (by norm_num) (by norm_num)
  have h3 : JSNumber.ofRat (400 * (7836263351624663 / 9007199254740992)) =
      JSNumber.num (348) :=
    ofRat_eq_of_near _ _ (6122080743456768) (-44) (by norm_num) (by norm_num) (by norm_num)
      (by norm_num) (by norm_num) (by norm_num) (by norm_num)
  have h4 : JSNumber.ofRat (348 * 1000) = JSNumber.num (348000) :=
    ofRat_of_eq_int _ _ (348000) (by norm_num) (by norm_num) (by norm_num)
  have h5 : JSNumber.ofRat (348000 / 1000) = JSNumber.num (348) :=
    ofRat_of_eq_int _ _ (348) (by norm_num) (by norm_num) (by norm_num)
  rw [testIntensity_of_num 13 r 400 1000 hc hg (by norm_num),
    div_num_num _ _ (by norm_num : (100 : ℚ) ≠ 0), h1, sub_num_num, h2, mul_num_num, h3,
    mul_num_num, h4, div_num_num _ _ (by norm_num : (1000 : ℚ) ≠ 0), h5]

theorem testIntensity_rounding_zero (r : CleanedRow)
    (hc : r.CO2_Emissions_tonns = JSNumber.num 25000)
    (hg : r.Generation_MW = JSNumber.num 40000) :
    Binary64.testIntensity 0 r = JSNumber.num (625) := by
  have h1 : JSNumber.ofRat (((0 : ℤ) : ℚ) / 100) = JSNumber.num (0) :=
    ofRat_of_eq_int _ _ (0) (by norm_num) (by norm_num) (by norm_num)
  have h2 : JSNumber.ofRat (1 + -(0)) = JSNumber.num (1) :=
    ofRat_of_eq_int _ _ (1) (by norm_num) (by norm_num) (by norm_num)
  have h3 : JSNumber.ofRat (25000 * (1)) = JSNumber.num (25000) :=
    ofRat_of_eq_int _ _ (25000) (by norm_num) (by norm_num) (by norm_num)
  have h4 : JSNumber.ofRat (25000 * 1000) = JSNumber.num (25000000) :=
    ofRat_of_eq_int _ _ (25000000) (by norm_num) (by norm_num) (by norm_num)
  have h5 : JSNumber.ofRat (25000000 / 40000) = JSNumber.num (625) :=
    ofRat_of_eq_int _ _ (625) (by norm_num) (by norm_num) (by norm_num)
  rw [testIntensity_of_num 0 r 25000 40000 hc hg (by norm_num),
    div_num_num _ _ (by norm_num : (100 : ℚ) ≠ 0), h1, sub_num_num, h2, mul_num_num, h3,
    mul_num_num, h4, div_num_num _ _ (by norm_num : (40000 : ℚ) ≠ 0), h5]

theorem testIntensity_rounding_fortyfour (r : CleanedRow)
    (hc : r.CO2_Emissions_tonns = JSNumber.num 25000)
    (hg : r.Generation_MW = JSNumber.num 40000) :
    Binary64.testIntensity 44 r = JSNumber.num (6157265115545601 / 17592186044416) := by
  have h1 : JSNumber.ofRat (((44 : ℤ) : ℚ) / 100) =
      JSNumber.num (7926335344172073 / 18014398509481984) :=
    ofRat_eq_of_near _ _ (7926335344172073) (-54) (by norm_num) (by norm_num) (by norm_num)
      (by norm_num) (by norm_num) (by norm_num) (by norm_num)
  have h2 : JSNumber.ofRat (1 + -(7926335344172073 / 18014398509481984)) =
      JSNumber.num (1261007895663739 / 2251799813685248) :=
    ofRat_eq_of_tie _ _ (5044031582654955) (5044031582654956) (-53) (by norm_num) (by norm_num)
      (by norm_num) (by norm_num) (by norm_num) (by norm_num) (by norm_num) (by norm_num)
  have h3 : JSNumber.ofRat (25000 * (1261007895663739 / 2251799813685248)) =
      JSNumber.num (7696581394432001 / 549755813888) :=
    ofRat_eq_of_near _ _ (7696581394432001) (-39) (by norm_num) (by norm_num) (by norm_num)
      (by norm_num) (by norm_num) (by norm_num) (by norm_num)
  have h4 : JSNumber.ofRat (7696581394432001 / 549755813888 * 1000) =
      JSNumber.num (7516192768000001 / 536870912) :=
    ofRat_eq_of_near _ _ (7516192768000001) (-29) (by norm_num) (by norm_num) (by norm_num)
      (by norm_num) (by norm_num) (by norm_num) (by norm_num)
  have h5 : JSNumber.ofRat (7516192768000001 / 536870912 / 40000) =
      JSNumber.num (6157265115545601 / 17592186044416) :=
    ofRat_eq_of_near _ _ (6157265115545601) (-44) (by norm_num) (by norm_num) (by norm_num)
      (by norm_num) (by norm_num) (by norm_num) (by norm_num)
  rw [testIntensity_of_num 44 r 25000 40000 hc hg (by norm_num),
    div_num_num _ _ (by norm_num : (100 : ℚ) ≠ 0), h1, sub_num_num, h2, mul_num_num, h3,
    mul_num_num, h4, div_num_num _ _ (by norm_num : (40000 : ℚ) ≠ 0), h5]

theorem testIntensity_rounding_fortyfive (r : CleanedRow)
    (hc : r.CO2_Emissions_tonns = JSNumber.num 25000)
    (hg : r.Generation_MW = JSNumber.num 40000) :
    Binary64.testIntensity 45 r = JSNumber.num (6047313952768001 / 17592186044416) := by
  have h1 : JSNumber.ofRat (((45 : ℤ) : ℚ) / 100) =
      JSNumber.num (8106479329266893 / 18014398509481984) :=
    ofRat_eq_of_near _ _ (8106479329266893) (-54) (by norm_num) (by norm_num) (by norm_num)
      (by norm_num) (by norm_num) (by norm_num) (by norm_num)
  have h2 : JSNumber.ofRat (1 + -(8106479329266893 / 18014398509481984)) =
      JSNumber.num (2476979795053773 / 4503599627370496) :=
    ofRat_eq_of_tie _ _ (4953959590107545) (4953959590107546) (-53) (by norm_num) (by norm_num)
      (by norm_num) (by norm_num) (by norm_num) (by norm_num) (by norm_num) (by norm_num)
  have h3 : JSNumber.ofRat (25000 * (2476979795053773 / 4503599627370496)) =
      JSNumber.num (7559142440960001 / 549755813888) :=
    ofRat_eq_of_near _ _ (7559142440960001) (-39) (by norm_num) (by norm_num) (by norm_num)
      (by norm_num) (by norm_num) (by norm_num) (by norm_num)
  have h4 : JSNumber.ofRat (7559142440960001 / 549755813888 * 1000) =
      JSNumber.num (7381975040000001 / 536870912) :=
    ofRat_eq_of_near _ _ (7381975040000001) (-29) (by norm_num) (by norm_num) (by norm_num)
      (by norm_num) (by norm_num) (by norm_num) (by norm_num)
  have h5 : JSNumber.ofRat (7381975040000001 / 536870912 / 40000) =
      JSNumber.num (6047313952768001 / 17592186044416) :=
    ofRat_eq_of_near _ _ (6047313952768001) (-44) (by norm_num) (by norm_num) (by norm_num)
      (by norm_num) (by norm_num) (by norm_num) (by norm_num)
  rw [testIntensity_of_num 45 r 25000 40000 hc hg (by norm_num),
    div_num_num _ _ (by norm_num : (100 : ℚ) ≠ 0), h1, sub_num_num, h2, mul_num_num, h3,
    mul_num_num, h4, div_num_num _ _ (by norm_num : (40000 : ℚ) ≠ 0), h5]


/-- C10 (counterexample): for the single record with generation 40000 and
emissions 25000 the intensity is 625 and `⌈100 * (1 - 350 / 625)⌉` is 44, but
the simulated intensity at blend 44, computed in doubles, is
`350.00000000000006`, so blend 44 is not compliant and the search returns 45. -/
theorem single_record_min_blend_rounding :
    roundingRecord.Generation_MW = JSNumber.num 40000 ∧
      roundingRecord.CO2_Emissions_tonns = JSNumber.num 25000 ∧
      (Binary64.simulateRow 0 roundingRecord).Carbon_Intensity_kgCO2_MWh = JSNumber.num 625 ∧
      ⌈(100 : ℚ) * (1 - 350 / 625)⌉ = 44 ∧
      (Binary64.simulateRow 44 roundingRecord).Carbon_Intensity_kgCO2_MWh =
        JSNumber.num (6157265115545601 / 17592186044416) ∧
      Binary64.isCompliant [roundingRecord] 44 = false ∧
      Binary64.findMinBlendForCompliance [roundingRecord] = 45 := by
  have hne : [roundingRecord] ≠ [] := by simp
  have hlen : [roundingRecord].length < 2 ^ 32 := by simp
  have h44 := testIntensity_rounding_fortyfour roundingRecord rfl rfl
  have h45 := testIntensity_rounding_fortyfive roundingRecord rfl rfl
  have hmono := testCompliant_mono_js [roundingRecord] hne hlen (by simp [roundingRecord])
  have hc44 : Binary64.testCompliant [roundingRecord] 44 = false := by
    apply testCompliant_eq_false_of _ hne hlen 44 roundingRecord (List.mem_singleton.mpr rfl)
    rw [h44]
    simp only [JSNumber.le, decide_eq_false_iff_not, not_le]
    norm_num
  have hc45 : Binary64.testCompliant [roundingRecord] 45 = true := by
    rw [testCompliant_iff_js _ _ hne hlen]
    intro r hr
    rw [List.mem_singleton.mp hr, h45]
    simp only [JSNumber.le, decide_eq_true_eq]
    norm_num
  refine ⟨rfl, rfl, testIntensity_rounding_zero roundingRecord rfl rfl, ?_, h44, ?_, ?_⟩
  · rw [Int.ceil_eq_iff]
    norm_num
  · rw [isCompliant_eq_testCompliant_js _ _ hne]
    exact hc44
  · exact findMin_eq_of_boundary _ hne hmono 45 (by norm_num) (by norm_num) hc44 hc45

/-- C10 (amended): for a single record with positive finite generation and
finite emissions whose simulated intensity at blend 0 exceeds 350, the
simulation at blend 0 reports `isCompliant = false`, and the minimum blend is
the least blend in `[1,100]` at which the simulated intensity, computed in
doubles, is at most 350; with generation 1000 and emissions 400 the intensity
at blend 0 is 400 and the minimum blend is 13. -/
theorem single_record_min_blend (r : CleanedRow)
    (_hg : r.Generation_MW.gt (JSNumber.num 0) = true)
    (hgf : r.Generation_MW ≠ JSNumber.posInf)
    (hc1 : r.CO2_Emissions_tonns ≠ JSNumber.posInf)
    (hc2 : r.CO2_Emissions_tonns ≠ JSNumber.negInf)
    (hI : (Binary64.simulateRow 0 r).Carbon_Intensity_kgCO2_MWh.gt (JSNumber.num 350) = true) :
    Binary64.isCompliant [r] 0 = false ∧
      0 < Binary64.findMinBlendForCompliance [r] ∧
      Binary64.findMinBlendForCompliance [r] ≤ 100 ∧
      (Binary64.simulateRow (Binary64.findMinBlendForCompliance [r])
        r).Carbon_Intensity_kgCO2_MWh.le (JSNumber.num 350) = true ∧
      (∀ b : ℤ, 0 ≤ b → b < Binary64.findMinBlendForCompliance [r] →
        (Binary64.simulateRow b r).Carbon_Intensity_kgCO2_MWh.le (JSNumber.num 350) = false) ∧
      (r.Generation_MW = JSNumber.num 1000 → r.CO2_Emissions_tonns = JSNumber.num 400 →
        (Binary64.simulateRow 0 r).Carbon_Intensity_kgCO2_MWh = JSNumber.num 400 ∧
          Binary64.findMinBlendForCompliance [r] = 13) := by
  have hne : [r] ≠ [] := by simp
  have hlen : [r].length < 2 ^ 32 := by simp
  have hfin : ∀ x ∈ [r], x.CO2_Emissions_tonns ≠ JSNumber.posInf ∧
      x.CO2_Emissions_tonns ≠ JSNumber.negInf ∧ x.Generation_MW ≠ JSNumber.posInf := by
    intro x hx
    rw [List.mem_singleton.mp hx]
    exact ⟨hc1, hc2, hgf⟩
  have hmono := testCompliant_mono_js [r] hne hlen hfin
  have hiff : ∀ b : ℤ, Binary64.testCompliant [r] b = true ↔
      (Binary64.testIntensity b r).le (JSNumber.num 350) = true := by
    intro b
    rw [testCompliant_iff_js [r] b hne hlen]
    simp only [List.mem_singleton, forall_eq]
  have h0f : Binary64.testCompliant [r] 0 = false :=
    testCompliant_eq_false_of [r] hne hlen 0 r (List.mem_singleton.mpr rfl) (le_false_of_gt hI)
  have h100c := testCompliant_hundred_js [r] hne hlen
    (fun x hx => ⟨(hfin x hx).1, (hfin x hx).2.1⟩)
  obtain ⟨hr0, hr100, hok, hlow⟩ := findMin_spec_js [r] hne hmono
  have hok2 : Binary64.testCompliant [r] (Binary64.findMinBlendForCompliance [r]) = true := by
    rcases hok with h | h
    · rw [h]
      exact h100c
    · exact h
  have hpos : 0 < Binary64.findMinBlendForCompliance [r] := by
    by_contra hcon
    have hz : Binary64.findMinBlendForCompliance [r] = 0 := by omega
    rw [hz, h0f] at hok2
    exact absurd hok2 (by decide)
  refine ⟨?_, hpos, hr100, (hiff _).mp hok2, ?_, ?_⟩
  · rw [isCompliant_eq_testCompliant_js [r] 0 hne]
    exact h0f
  · intro b hb0 hb
    have hf := hlow b hb0 hb
    cases hle : (Binary64.simulateRow b r).Carbon_Intensity_kgCO2_MWh.le (JSNumber.num 350) with
    | false => rfl
    | true =>
      rw [(hiff b).mpr hle] at hf
      exact absurd hf (by decide)
  · intro h1 h2
    refine ⟨testIntensity_scenario_zero r h2 h1, ?_⟩
    apply findMin_eq_of_boundary _ hne hmono 13 (by norm_num) (by norm_num)
    · apply testCompliant_eq_false_of _ hne hlen 12 r (List.mem_singleton.mpr rfl)
      rw [testIntensity_scenario_twelve r h2 h1]
      simp only [JSNumber.le, decide_eq_false_iff_not, not_le]
      norm_num
    · rw [hiff, testIntensity_scenario_thirteen r h2 h1]
      simp only [JSNumber.le, decide_eq_true_eq]
      norm_num

/-- Witness for C10 (amended): the scenario record (generation 1000, emissions
400). -/
theorem single_record_min_blend_witness :
    (Binary64.simulateRow 0 scenarioRecord).Carbon_Intensity_kgCO2_MWh = JSNumber.num 400 ∧
      Binary64.isCompliant [scenarioRecord] 0 = false ∧
      Binary64.findMinBlendForCompliance [scenarioRecord] = 13 :=
  have h := single_record_min_blend scenarioRecord (by simp [scenarioRecord, JSNumber.gt])
    (by simp [scenarioRecord]) (by simp [scenarioRecord]) (by simp [scenarioRecord])
    (by
      have h0 : (Binary64.simulateRow 0 scenarioRecord).Carbon_Intensity_kgCO2_MWh =
          JSNumber.num 400 := testIntensity_scenario_zero scenarioRecord rfl rfl
      rw [h0]
      simp only [JSNumber.gt, decide_eq_true_eq]
      norm_num)
  ⟨(h.2.2.2.2.2 rfl rfl).1, h.1, (h.2.2.2.2.2 rfl rfl).2⟩

/-- C27 (counterexample): on the one-record list stored for the row with
emissions cell `Infinity`, the simulation at blend 100 reports the minimum blend
100, which is at most the current blend, and `isCompliant = false`. -/
theorem minBlend_le_not_compliant :
    cleanAndProcessData [infiniteRawRow] = [infiniteRecord] ∧
      ∃ out, Binary64.calculateSimulation (cleanAndProcessData [infiniteRawRow]) 100 = some out ∧
        out.complianceData.minBlendForCompliance = 100 ∧
        out.complianceData.minBlendForCompliance ≤ 100 ∧
        out.complianceData.isCompliant = false := by
  rw [cleanAndProcessData_infiniteRawRow]
  obtain ⟨out, hout, _, hflag, hmin, _, _⟩ :=
    calculateSimulation_some_js [infiniteRecord] 100 (by simp)
  have h100 : out.complianceData.minBlendForCompliance = 100 := by
    rw [hmin]
    exact findMin_eq_hundred _ (by simp) testCompliant_infiniteRecord
  refine ⟨rfl, out, hout, h100, by rw [h100], ?_⟩
  rw [hflag, isCompliant_eq_testCompliant_js _ _ (by simp)]
  exact testCompliant_infiniteRecord 100 (by norm_num) (by norm_num)

/-- C27 (amended): for a non-empty record list (of fewer than `2^32` records)
whose emissions are not infinite and whose generation is not `Infinity`, and a
blend `b` in `[0,100]`, the simulation at blend `b` reports `isCompliant = true`
exactly when the reported `minBlendForCompliance` is at most `b`, which is the
test behind the message `Target achieved!`; the reported minimum blend is the
same for every blend. -/
theorem isCompliant_iff_minBlend_le (data : List CleanedRow) (b : ℤ) (hne : data ≠ [])
    (hlen : data.length < 2 ^ 32)
    (hfin : ∀ r ∈ data, r.CO2_Emissions_tonns ≠ JSNumber.posInf ∧
      r.CO2_Emissions_tonns ≠ JSNumber.negInf ∧ r.Generation_MW ≠ JSNumber.posInf)
    (h0 : 0 ≤ b) (h100 : b ≤ 100) :
    ∃ out, Binary64.calculateSimulation data b = some out ∧
      (out.complianceData.isCompliant = true ↔
        out.complianceData.minBlendForCompliance ≤ b) ∧
      out.complianceData.minBlendForCompliance = Binary64.findMinBlendForCompliance data ∧
      (∀ (b2 : ℤ) (out2 : Binary64.SimulationOutput),
        Binary64.calculateSimulation data b2 = some out2 →
        out2.complianceData.minBlendForCompliance =
          out.complianceData.minBlendForCompliance) := by
  obtain ⟨out, hout, _, hflag, hmin, _, _⟩ := calculateSimulation_some_js data b hne
  have hmono := testCompliant_mono_js data hne hlen hfin
  have h100c := testCompliant_hundred_js data hne hlen
    (fun r hr => ⟨(hfin r hr).1, (hfin r hr).2.1⟩)
  obtain ⟨hr0, _, hok, hlow⟩ := findMin_spec_js data hne hmono
  have hok2 : Binary64.testCompliant data (Binary64.findMinBlendForCompliance data) = true := by
    rcases hok with h | h
    · rw [h]
      exact h100c
    · exact h
  refine ⟨out, hout, ?_, hmin, ?_⟩
  · rw [hflag, hmin, isCompliant_eq_testCompliant_js data b hne]
    constructor
    · intro hc
      by_contra hlt
      push_neg at hlt
      have := hlow b h0 hlt
      rw [hc] at this
      exact absurd this (by decide)
    · intro hle
      exact hmono _ b hr0 hle h100 hok2
  · intro b2 out2 hout2
    obtain ⟨out3, hout3, _, _, hmin3, _, _⟩ := calculateSimulation_some_js data b2 hne
    rw [hout2] at hout3
    cases Option.some.inj hout3
    rw [hmin3, hmin]

/-- Witness for C27 (amended) at the one-record list of the worked scenario,
blend 13. -/
theorem isCompliant_iff_minBlend_le_witness :
    ∃ out, Binary64.calculateSimulation [scenarioRecord] 13 = some out ∧
      (out.complianceData.isCompliant = true ↔
        out.complianceData.minBlendForCompliance ≤ 13) :=
  (isCompliant_iff_minBlend_le [scenarioRecord] 13 (by simp) (by simp)
    (by simp [scenarioRecord]) (by norm_num) (by norm_num)).elim
    (fun out h => ⟨out, h.1, h.2.1⟩)

end Dashboard
